import Mathlib

/-!
# VigirRobotiqHandPlugin: command admission, grasp state machine, PID control, status report

A shallow embedding of `src/vigir_gazebo_ros_plugins/src/VigirRobotiqHandPlugin.cpp`.

* `double` and `gazebo::math::Angle` values are exact rationals.
* The `uint8` fields of the two ROS messages are naturals; `SModelRobotOutput.IsUInt8`
  says that a command fits its message type.
* The member arrays `joints` / `fingerJoints` / `posePID` are functions of the index.
  `FindJoints` pushes the same joint handle, in the same order, to `joints` and to
  `fingerJoints`, so both vectors are one array of joints here.
* What the file takes from `VigirRobotiqHandPlugin.h` and from gazebo (the enumerators of
  `GraspingMode`, the tolerances and velocities, `gazebo::common::PID`, the radian value of
  one degree) is collected in `Externals` and is a parameter of every function that uses it.
* The member `handState` is a value of the six-constructor type `State`. The same member as
  the integer a C++ enum object holds, for which the `switch` of step 2 has a `default`
  branch, is followed by `StateTransitionsValue`, `switchCase` and `runTraced`.
* ROS / gazebo plumbing (`Load`, `FindJoints`, publishing queues, the joint telemetry
  message, the mutex) carries no state that the control logic reads and is left out.
-/

namespace VigirRobotiqHandPlugin

/-! ## The embedding of the source file -/

/-- The command message `atlas_msgs/SModelRobotOutput`: the fields the plugin reads or
writes, each `uint8` in the message. -/
structure SModelRobotOutput where
  rACT : Nat := 0
  rMOD : Nat := 0
  rGTO : Nat := 0
  rATR : Nat := 0
  rICF : Nat := 0
  rICS : Nat := 0
  rPRA : Nat := 0
  rSPA : Nat := 0
  rFRA : Nat := 0
  rPRB : Nat := 0
  rSPB : Nat := 0
  rFRB : Nat := 0
  rPRC : Nat := 0
  rSPC : Nat := 0
  rFRC : Nat := 0
  rPRS : Nat := 0
  rSPS : Nat := 0
  rFRS : Nat := 0
deriving DecidableEq, Repr

/-- Every field of the command fits the `uint8` of the message type. -/
def SModelRobotOutput.IsUInt8 (c : SModelRobotOutput) : Prop :=
  c.rACT < 256 ∧ c.rMOD < 256 ∧ c.rGTO < 256 ∧ c.rATR < 256 ∧ c.rICF < 256 ∧ c.rICS < 256 ∧
  c.rPRA < 256 ∧ c.rSPA < 256 ∧ c.rFRA < 256 ∧ c.rPRB < 256 ∧ c.rSPB < 256 ∧ c.rFRB < 256 ∧
  c.rPRC < 256 ∧ c.rSPC < 256 ∧ c.rFRC < 256 ∧ c.rPRS < 256 ∧ c.rSPS < 256 ∧ c.rFRS < 256

instance (c : SModelRobotOutput) : Decidable c.IsUInt8 := by
  unfold SModelRobotOutput.IsUInt8
  infer_instance

/-- The legal ranges of the command fields as the labels and bounds of `VerifyCommand`
give them: flags in [0,1], mode in [0,3], positions, speeds and forces in [0,255]. -/
def SModelRobotOutput.InLegalRange (c : SModelRobotOutput) : Prop :=
  c.rACT ≤ 1 ∧ c.rMOD ≤ 3 ∧ c.rGTO ≤ 1 ∧ c.rATR ≤ 1 ∧ c.rICF ≤ 1 ∧ c.rICS ≤ 1 ∧
  c.rPRA ≤ 255 ∧ c.rSPA ≤ 255 ∧ c.rFRA ≤ 255 ∧ c.rPRB ≤ 255 ∧ c.rSPB ≤ 255 ∧ c.rFRB ≤ 255 ∧
  c.rPRC ≤ 255 ∧ c.rSPC ≤ 255 ∧ c.rFRC ≤ 255 ∧ c.rPRS ≤ 255 ∧ c.rSPS ≤ 255 ∧ c.rFRS ≤ 255

instance (c : SModelRobotOutput) : Decidable c.InLegalRange := by
  unfold SModelRobotOutput.InLegalRange
  infer_instance

/-- The status message `atlas_msgs/SModelRobotInput`, each field `uint8` in the message. -/
structure SModelRobotInput where
  gACT : Nat := 0
  gMOD : Nat := 0
  gGTO : Nat := 0
  gIMC : Nat := 0
  gSTA : Nat := 0
  gDTA : Nat := 0
  gDTB : Nat := 0
  gDTC : Nat := 0
  gDTS : Nat := 0
  gFLT : Nat := 0
  gPRA : Nat := 0
  gPOA : Nat := 0
  gCUA : Nat := 0
  gPRB : Nat := 0
  gPOB : Nat := 0
  gCUB : Nat := 0
  gPRC : Nat := 0
  gPOC : Nat := 0
  gCUC : Nat := 0
  gPRS : Nat := 0
  gPOS : Nat := 0
  gCUS : Nat := 0
deriving DecidableEq, Repr

/-- The hand states of `enum State`. -/
inductive State where
  | Disabled
  | Emergency
  | ICS
  | ICF
  | ChangeModeInProgress
  | Simplified
deriving DecidableEq, Repr

/-- What the plugin reads from and writes to one `gazebo::physics::Joint`: `GetAngle(0)`,
`GetVelocity(0)`, `GetLowerLimit(0)`, `GetUpperLimit(0)` and the force last passed to
`SetForce(0, _)`. -/
structure Joint where
  angle : ℚ := 0
  velocity : ℚ := 0
  lowerLimit : ℚ := 0
  upperLimit : ℚ := 0
  force : ℚ := 0
deriving DecidableEq, Repr

/-- What the source file uses and does not define: the enumerators of `GraspingMode` (as
the integers the enum gives them), the constants of the class declaration, the radian
value `Angle::SetFromDegree(1.0)` yields, and the two methods of `gazebo::common::PID`
that the plugin calls at run time, over a type `P` of controller states. -/
structure Externals (P : Type) where
  Basic : Nat
  Pinch : Nat
  Wide : Nat
  Scissor : Nat
  VelTolerance : ℚ
  PoseTolerance : ℚ
  MinVelocity : ℚ
  MaxVelocity : ℚ
  oneDegree : ℚ
  Update : P → ℚ → ℚ → P × ℚ
  GetErrors : P → ℚ × ℚ × ℚ

/-- Modelled from the spec: `NumJoints` is declared in the header, which is not among the
sources; the spec counts five actuated joint axes, one PID controller each. -/
def NumJoints : Nat := 5

/-- The members of the plugin object that the control logic reads or writes. `graspingMode`
holds the integer value of the `GraspingMode` enum. -/
structure Plugin (P : Type) where
  handleCommand : SModelRobotOutput := {}
  prevCommand : SModelRobotOutput := {}
  lastHandleCommand : SModelRobotOutput := {}
  userHandleCommand : SModelRobotOutput := {}
  handleState : SModelRobotInput := {}
  graspingMode : Nat
  handState : State
  posePID : Nat → P
  joints : Nat → Joint
  lastControllerUpdateTime : ℚ

variable {P : Type}

/-- The constructor (with `Load` fixing the clock): Basic grasping mode, state Disabled,
zero-initialised messages; the initialised controllers, the joints of the model and the
simulation time at load are given. -/
def Plugin.init (E : Externals P) (pid : Nat → P) (joints : Nat → Joint) (simTime : ℚ) :
    Plugin P :=
  { graspingMode := E.Basic
    handState := State.Disabled
    posePID := pid
    joints := joints
    lastControllerUpdateTime := simTime }

/-- Source function `VerifyField`: the value lies in `[_min, _max]` (the label only feeds the diagnostic). -/
def VerifyField (_label : String) (_min _max _v : Int) : Bool :=
  if _v < _min ∨ _v > _max then false else true

/-- Source function `VerifyCommand`: the eighteen `VerifyField` calls of the source, each with the argument
the source passes. -/
def VerifyCommand (_command : SModelRobotOutput) : Bool :=
  VerifyField "rACT" 0 1 _command.rACT &&
  VerifyField "rMOD" 0 3 _command.rACT &&
  VerifyField "rGTO" 0 1 _command.rACT &&
  VerifyField "rATR" 0 1 _command.rACT &&
  VerifyField "rICF" 0 1 _command.rACT &&
  VerifyField "rICS" 0 1 _command.rACT &&
  VerifyField "rPRA" 0 255 _command.rACT &&
  VerifyField "rSPA" 0 255 _command.rACT &&
  VerifyField "rFRA" 0 255 _command.rACT &&
  VerifyField "rPRB" 0 255 _command.rACT &&
  VerifyField "rSPB" 0 255 _command.rACT &&
  VerifyField "rFRB" 0 255 _command.rACT &&
  VerifyField "rPRC" 0 255 _command.rACT &&
  VerifyField "rSPC" 0 255 _command.rACT &&
  VerifyField "rFRC" 0 255 _command.rACT &&
  VerifyField "rPRS" 0 255 _command.rACT &&
  VerifyField "rSPS" 0 255 _command.rACT &&
  VerifyField "rFRS" 0 255 _command.rACT

/-- Source function `SetHandleCommand`: a command that fails `VerifyCommand` is ignored; otherwise the
accepted command moves to `prevCommand` and the message becomes `handleCommand`. -/
def SetHandleCommand (_msg : SModelRobotOutput) (s : Plugin P) : Plugin P :=
  if !VerifyCommand _msg then s
  else { s with prevCommand := s.handleCommand, handleCommand := _msg }

/-- Source function `ReleaseHand`: open the fingers at half speed. -/
def ReleaseHand (s : Plugin P) : Plugin P :=
  { s with handleCommand :=
      { s.handleCommand with rPRA := 0, rPRB := 0, rPRC := 0, rSPA := 127, rSPB := 127, rSPC := 127 } }

/-- Source function `StopHand`: the three requested positions are taken from `handleState.gPRA/gPRB/gPRC`. -/
def StopHand (s : Plugin P) : Plugin P :=
  { s with handleCommand :=
      { s.handleCommand with
          rPRA := s.handleState.gPRA, rPRB := s.handleState.gPRB, rPRC := s.handleState.gPRC } }

/-- Source function `IsHandFullyOpen`: the loop over joints `2 .. NumJoints - 1`, each tested against its
lower limit plus the one-degree tolerance. -/
def IsHandFullyOpen (E : Externals P) (s : Plugin P) : Bool :=
  (List.range' 2 (NumJoints - 2)).foldl
    (fun fingersOpen i =>
      fingersOpen && decide ((s.joints i).angle < (s.joints i).lowerLimit + E.oneDegree))
    true

/-- Step 1 of `UpdateStates`: the state transitions, read off the accepted command. -/
def StateTransitions (E : Externals P) (s : Plugin P) : Plugin P :=
  if s.handleCommand.rACT = 0 then { s with handState := State.Disabled }
  else if s.handleCommand.rATR = 1 then { s with handState := State.Emergency }
  else if s.handleCommand.rICS = 1 then { s with handState := State.ICS }
  else if s.handleCommand.rICF = 1 then { s with handState := State.ICF }
  else
    let s1 : Plugin P :=
      if s.handleCommand.rMOD ≠ s.graspingMode then
        { s with
            handState := State.ChangeModeInProgress
            lastHandleCommand := s.handleCommand
            graspingMode := s.handleCommand.rMOD }
      else if s.handState ≠ State.ChangeModeInProgress then
        { s with handState := State.Simplified }
      else s
    if s1.handState = State.ChangeModeInProgress ∧ IsHandFullyOpen E s1 = true then
      { s1 with
          prevCommand := s1.handleCommand
          handleCommand := s1.lastHandleCommand
          handState := State.Simplified }
    else s1

/-- The `Simplified` case of step 2 before its stop test: fingers B and C follow finger A
in position, velocity and force. -/
def FollowFingerA (s : Plugin P) : Plugin P :=
  { s with handleCommand :=
      { s.handleCommand with
          rPRB := s.handleCommand.rPRA, rPRC := s.handleCommand.rPRA
          rSPB := s.handleCommand.rSPA, rSPC := s.handleCommand.rSPA
          rFRB := s.handleCommand.rFRA, rFRC := s.handleCommand.rFRA } }

/-- Step 2 of `UpdateStates`: the action of each state (the `switch` on `handState`). -/
def StateActions (E : Externals P) (s : Plugin P) : Plugin P :=
  match s.handState with
  | State.Disabled => s
  | State.Emergency => if IsHandFullyOpen E s = true then StopHand s else ReleaseHand s
  | State.ICS => s
  | State.ICF => if s.handleCommand.rGTO = 0 then StopHand s else s
  | State.ChangeModeInProgress => ReleaseHand s
  | State.Simplified =>
    let s1 := FollowFingerA s
    if s1.handleCommand.rGTO = 0 then StopHand s1 else s1

/-- The pose target `UpdatePIDControl` computes for joint `i` (`targetPose`, initially 0). -/
def targetPose (E : Externals P) (s : Plugin P) (i : Nat) : ℚ :=
  if i = 0 then
    if s.graspingMode = E.Wide then (s.joints i).upperLimit
    else if s.graspingMode = E.Pinch then -(1919 / 10000)
    else if s.graspingMode = E.Scissor then
      (s.joints i).upperLimit -
        ((s.joints i).upperLimit - (s.joints i).lowerLimit) * (215 / 255)
          * s.handleCommand.rPRA / 255
    else 0
  else if i = 1 then
    if s.graspingMode = E.Wide then (s.joints i).lowerLimit
    else if s.graspingMode = E.Pinch then 1919 / 10000
    else if s.graspingMode = E.Scissor then
      (s.joints i).lowerLimit +
        ((s.joints i).upperLimit - (s.joints i).lowerLimit) * (215 / 255)
          * s.handleCommand.rPRA / 255
    else 0
  else if 2 ≤ i ∧ i ≤ 4 then
    if s.graspingMode = E.Pinch then
      (s.joints i).lowerLimit +
        ((s.joints i).upperLimit - (s.joints i).lowerLimit) * (177 / 255)
          * s.handleCommand.rPRA / 255
    else if s.graspingMode = E.Scissor then 0
    else
      (s.joints i).lowerLimit +
        ((s.joints i).upperLimit - (s.joints i).lowerLimit) * s.handleCommand.rPRA / 255
  else 0

/-- The local `targetSpeed` of `UpdatePIDControl` for joint `i`: the mid velocity, replaced
in Scissor mode on joints 2..4 by the interpolation on `rSPA`. Nothing reads it afterwards. -/
def targetSpeed (E : Externals P) (s : Plugin P) (i : Nat) : ℚ :=
  if i = 0 then (E.MinVelocity + E.MaxVelocity) / 2
  else if i = 1 then (E.MinVelocity + E.MaxVelocity) / 2
  else if 2 ≤ i ∧ i ≤ 4 then
    if s.graspingMode = E.Pinch then (E.MinVelocity + E.MaxVelocity) / 2
    else if s.graspingMode = E.Scissor then
      E.MinVelocity + ((E.MaxVelocity - E.MinVelocity) * s.handleCommand.rSPA / 255)
    else (E.MinVelocity + E.MaxVelocity) / 2
  else (E.MinVelocity + E.MaxVelocity) / 2

/-- The position error `currentPose - targetPose` that is passed to the PID of joint `i`. -/
def poseError (E : Externals P) (s : Plugin P) (i : Nat) : ℚ :=
  (s.joints i).angle - targetPose E s i

/-- The call `SetForce(0, f)` on joint `i`. -/
def SetForce (s : Plugin P) (i : Nat) (f : ℚ) : Plugin P :=
  { s with joints := Function.update s.joints i { s.joints i with force := f } }

/-- One pass of the control loop of `UpdatePIDControl`, for joint `i`: update its PID with
the position error and apply the torque it returns. -/
def UpdatePIDJoint (E : Externals P) (_dt : ℚ) (s : Plugin P) (i : Nat) : Plugin P :=
  let r := E.Update (s.posePID i) (poseError E s i) _dt
  SetForce { s with posePID := Function.update s.posePID i r.1 } i r.2

/-- Source function `UpdatePIDControl`: zero force on every actuated joint when Disabled, else the control
loop over joints `0 .. NumJoints - 1`. -/
def UpdatePIDControl (E : Externals P) (_dt : ℚ) (s : Plugin P) : Plugin P :=
  if s.handState = State.Disabled then
    (List.range NumJoints).foldl (fun s i => SetForce s i 0) s
  else
    (List.range NumJoints).foldl (UpdatePIDJoint E _dt) s

/-- Source function `GetObjectDetection` for joint `_index` with requested position `_rPR` and previous
requested position `_prevrPR` (the difference is taken in `int`). -/
def GetObjectDetection (E : Externals P) (s : Plugin P) (_index : Nat) (_rPR _prevrPR : Nat) :
    Nat :=
  let isMoving : Bool := decide ((s.joints _index).velocity > E.VelTolerance)
  let pe : ℚ := (E.GetErrors (s.posePID _index)).1
  let reachPosition : Bool := decide (pe < E.PoseTolerance)
  if isMoving then 0
  else if reachPosition then 3
  else if ((_rPR : Int) - (_prevrPR : Int) > 0) then 2
  else 1

/-- C `round`: to the nearest integer, halfway cases away from zero. -/
def cround (x : ℚ) : Int :=
  if 0 ≤ x then ⌊x + 1 / 2⌋ else ⌈x - 1 / 2⌉

/-- The value `round(255.0 * relAngle / range)` of `GetCurrentPosition`, before the
conversion to `uint8_t`. -/
def GetCurrentPositionRounded (E : Externals P) (s : Plugin P) (j : Nat) : Int :=
  let range : ℚ := (s.joints j).upperLimit - (s.joints j).lowerLimit
  let range : ℚ := if s.graspingMode = E.Pinch then range * (177 / 255) else range
  let relAngle : ℚ := (s.joints j).angle - (s.joints j).lowerLimit
  cround (255 * relAngle / range)

/-- Source function `GetCurrentPosition` of joint `j`; the conversion to `uint8_t` keeps the low eight bits. -/
def GetCurrentPosition (E : Externals P) (s : Plugin P) (j : Nat) : Nat :=
  (GetCurrentPositionRounded E s j % 256).toNat

/-- The `gSTA` computation of `GetAndPublishHandleState`. -/
def motionStatus (E : Externals P) (s : Plugin P) : Nat :=
  let isMovingA : Bool := decide ((s.joints 2).velocity > E.VelTolerance)
  let isMovingB : Bool := decide ((s.joints 3).velocity > E.VelTolerance)
  let isMovingC : Bool := decide ((s.joints 4).velocity > E.VelTolerance)
  let reachPositionA : Bool := decide ((E.GetErrors (s.posePID 2)).1 < E.PoseTolerance)
  let reachPositionB : Bool := decide ((E.GetErrors (s.posePID 3)).1 < E.PoseTolerance)
  let reachPositionC : Bool := decide ((E.GetErrors (s.posePID 4)).1 < E.PoseTolerance)
  if isMovingA || isMovingB || isMovingC then 0
  else if reachPositionA && reachPositionB && reachPositionC then 3
  else if !reachPositionA && !reachPositionB && !reachPositionC then 2
  else 1

/-- Source function `GetAndPublishHandleState`: the status report assembled in `handleState`. -/
def GetAndPublishHandleState (E : Externals P) (s : Plugin P) : Plugin P :=
  { s with handleState :=
      { gACT := s.userHandleCommand.rACT
        gMOD := s.userHandleCommand.rMOD
        gGTO := s.userHandleCommand.rGTO
        gIMC :=
          if s.handState = State.Emergency then 0
          else if s.handState = State.ChangeModeInProgress then 2
          else 3
        gSTA := motionStatus E s
        gDTA := GetObjectDetection E s 2 s.handleCommand.rPRA s.prevCommand.rPRA
        gDTB := GetObjectDetection E s 3 s.handleCommand.rPRB s.prevCommand.rPRB
        gDTC := GetObjectDetection E s 4 s.handleCommand.rPRC s.prevCommand.rPRC
        gDTS := GetObjectDetection E s 0 s.handleCommand.rPRS s.prevCommand.rPRS
        gFLT :=
          if s.handState = State.ChangeModeInProgress then 6
          else if s.handState = State.Disabled then 7
          else if s.handState = State.Emergency then 11
          else 0
        gPRA := s.userHandleCommand.rPRA
        gPOA := GetCurrentPosition E s 2
        gCUA := 0
        gPRB := s.userHandleCommand.rPRB
        gPOB := GetCurrentPosition E s 3
        gCUB := 0
        gPRC := s.userHandleCommand.rPRC
        gPOC := GetCurrentPosition E s 4
        gCUC := 0
        gPRS := s.userHandleCommand.rPRS
        gPOS := GetCurrentPosition E s 1
        gCUS := 0 } }

/-- Source function `UpdateStates` at simulation time `curTime`: when the clock has advanced, copy the
accepted command to `userHandleCommand`, run the state transitions and the state actions,
update the controllers, assemble the report and store the time. -/
def UpdateStates (E : Externals P) (curTime : ℚ) (s : Plugin P) : Plugin P :=
  if curTime > s.lastControllerUpdateTime then
    let s1 := { s with userHandleCommand := s.handleCommand }
    let s2 := StateTransitions E s1
    let s3 := StateActions E s2
    let s4 := UpdatePIDControl E (curTime - s3.lastControllerUpdateTime) s3
    let s5 := GetAndPublishHandleState E s4
    { s5 with lastControllerUpdateTime := curTime }
  else s

/-! ### The member `handState` as the integer an enum object holds

A C++ object of type `enum State` holds an integer, which the language does not confine to
the values of the six enumerators; the `switch` of step 2 has a `default` branch for the
other values. The definitions below follow step 1 and the dispatch of that `switch` on the
integer, so that the `default` branch is a possible outcome. -/

/-- The integer values of the six enumerators of `enum State`. The enum is declared in
`VigirRobotiqHandPlugin.h`, so the values are parameters. -/
structure StateValues where
  Disabled : Int
  Emergency : Int
  ICS : Int
  ICF : Int
  ChangeModeInProgress : Int
  Simplified : Int

/-- The integer value of an enumerator. -/
def StateValues.value (V : StateValues) : State → Int
  | State.Disabled => V.Disabled
  | State.Emergency => V.Emergency
  | State.ICS => V.ICS
  | State.ICF => V.ICF
  | State.ChangeModeInProgress => V.ChangeModeInProgress
  | State.Simplified => V.Simplified

/-- The values of the six enumerators, in the order of the `case` labels of step 2. -/
def StateValues.enumerators (V : StateValues) : List Int :=
  [V.Disabled, V.Emergency, V.ICS, V.ICF, V.ChangeModeInProgress, V.Simplified]

/-- The six enumerators have pairwise different values: they label the cases of one
`switch`, which C++ accepts only when the labels differ. -/
def StateValues.Distinct (V : StateValues) : Prop :=
  V.enumerators.Nodup

/-- Step 1 of `UpdateStates` as it writes the member `handState`, the member being the
integer `hs` when the step starts (any integer, an enumerator's value or not). The tests on
the accepted command and on the grasping mode are those of `StateTransitions`; the
comparisons `handState != ChangeModeInProgress` and `handState == ChangeModeInProgress` are
comparisons of integers. `IsHandFullyOpen` reads the joints only, which step 1 does not
write. -/
def StateTransitionsValue (V : StateValues) (E : Externals P) (s : Plugin P) (hs : Int) :
    Int :=
  if s.handleCommand.rACT = 0 then V.Disabled
  else if s.handleCommand.rATR = 1 then V.Emergency
  else if s.handleCommand.rICS = 1 then V.ICS
  else if s.handleCommand.rICF = 1 then V.ICF
  else
    let hs1 : Int :=
      if s.handleCommand.rMOD ≠ s.graspingMode then V.ChangeModeInProgress
      else if hs ≠ V.ChangeModeInProgress then V.Simplified
      else hs
    if hs1 = V.ChangeModeInProgress ∧ IsHandFullyOpen E s = true then V.Simplified
    else hs1

/-- The dispatch of `switch (this->handState)` in step 2 on the integer `hs`: the `case`
label that `hs` equals, in the order of the labels, or `none` when `hs` equals no label and
the `default` branch writes "Unrecognized state". -/
def switchCase (V : StateValues) (hs : Int) : Option State :=
  if hs = V.Disabled then some State.Disabled
  else if hs = V.Emergency then some State.Emergency
  else if hs = V.ICS then some State.ICS
  else if hs = V.ICF then some State.ICF
  else if hs = V.ChangeModeInProgress then some State.ChangeModeInProgress
  else if hs = V.Simplified then some State.Simplified
  else none

/-! ## Views of the plugin state used in the statements and proofs -/

/-- What `UpdatePIDControl` cannot touch: every member but `posePID` and `joints`. -/
def controlFrame (s : Plugin P) :
    SModelRobotOutput × SModelRobotOutput × SModelRobotOutput × SModelRobotOutput ×
      SModelRobotInput × Nat × State × ℚ :=
  (s.handleCommand, s.prevCommand, s.lastHandleCommand, s.userHandleCommand,
    s.handleState, s.graspingMode, s.handState, s.lastControllerUpdateTime)

/-- What the plugin reads from joint `i`: angle, velocity and the two limits. -/
def jointReading (s : Plugin P) (i : Nat) : ℚ × ℚ × ℚ × ℚ :=
  ((s.joints i).angle, (s.joints i).velocity, (s.joints i).lowerLimit, (s.joints i).upperLimit)

/-- The command a completing mode change restores, seen from the start of the tick: the
`lastHandleCommand` after the mode comparison, which is the accepted command itself when
its mode differs from the active one on this tick and the remembered one otherwise. -/
def triggeringCommand (s : Plugin P) : SModelRobotOutput :=
  if s.handleCommand.rMOD ≠ s.graspingMode then s.handleCommand else s.lastHandleCommand

/-- The simplified-control family: the commands that reach the last branch of the state
transitions (the tests `rACT == 0`, `rATR == 1`, `rICS == 1`, `rICF == 1` all fail). -/
def InSimplifiedFamily (c : SModelRobotOutput) : Prop :=
  c.rACT ≠ 0 ∧ c.rATR ≠ 1 ∧ c.rICS ≠ 1 ∧ c.rICF ≠ 1

instance (c : SModelRobotOutput) : Decidable (InSimplifiedFamily c) := by
  unfold InSimplifiedFamily
  infer_instance

/-- What `UpdatePIDControl` reads: the grasping mode, the hand state, `rPRA` of the
effective command, the joints and the controllers. -/
def controlView (s : Plugin P) : Nat × State × Nat × (Nat → Joint) × (Nat → P) :=
  (s.graspingMode, s.handState, s.handleCommand.rPRA, s.joints, s.posePID)

/-! ## Runs: command submissions and ticks -/

/-- What reaches the plugin after its construction: a command message arrives, or the
simulator calls `UpdateStates` at time `curTime`, the joints then being at the given angles
and velocities. -/
inductive Event where
  | submit (msg : SModelRobotOutput)
  | tick (curTime : ℚ) (angle velocity : Nat → ℚ)

/-- The plugin seeing the joints at the angles and velocities the simulator has moved them
to; limits and the forces set are kept. -/
def sense (s : Plugin P) (angle velocity : Nat → ℚ) : Plugin P :=
  { s with
      joints := fun i => { s.joints i with angle := angle i, velocity := velocity i } }

/-- One event: `SetHandleCommand` for a message, `UpdateStates` on the sensed joints for a
tick. -/
def step (E : Externals P) (s : Plugin P) : Event → Plugin P
  | Event.submit msg => SetHandleCommand msg s
  | Event.tick curTime angle velocity => UpdateStates E curTime (sense s angle velocity)

/-- The plugin after a sequence of events. -/
def run (E : Externals P) (s : Plugin P) (evs : List Event) : Plugin P :=
  evs.foldl (step E) s

/-- Every tick of the run on which the clock has advanced finds a command of the simplified
family as the accepted command. -/
def ticksInSimplifiedFamily (E : Externals P) (s : Plugin P) : List Event → Prop
  | [] => True
  | Event.submit msg :: evs => ticksInSimplifiedFamily E (SetHandleCommand msg s) evs
  | Event.tick curTime angle velocity :: evs =>
    (curTime > s.lastControllerUpdateTime → InSimplifiedFamily s.handleCommand) ∧
      ticksInSimplifiedFamily E (UpdateStates E curTime (sense s angle velocity)) evs

/-- On some tick of the run on which the clock has advanced, `IsHandFullyOpen` is true. -/
def openOnSomeTick (E : Externals P) (s : Plugin P) : List Event → Prop
  | [] => False
  | Event.submit msg :: evs => openOnSomeTick E (SetHandleCommand msg s) evs
  | Event.tick curTime angle velocity :: evs =>
    (curTime > s.lastControllerUpdateTime ∧
        IsHandFullyOpen E (sense s angle velocity) = true) ∨
      openOnSomeTick E (UpdateStates E curTime (sense s angle velocity)) evs

/-- On some tick of the run on which the clock has advanced, a mode change was entered: the
accepted command was of the simplified family and its mode differed from the active one. -/
def modeChangeEntered (E : Externals P) (s : Plugin P) : List Event → Prop
  | [] => False
  | Event.submit msg :: evs => modeChangeEntered E (SetHandleCommand msg s) evs
  | Event.tick curTime angle velocity :: evs =>
    (curTime > s.lastControllerUpdateTime ∧ InSimplifiedFamily s.handleCommand ∧
        s.handleCommand.rMOD ≠ s.graspingMode) ∨
      modeChangeEntered E (UpdateStates E curTime (sense s angle velocity)) evs

/-- A run in which no command is submitted. -/
def onlyTicks : List Event → Prop
  | [] => True
  | Event.submit _ :: _ => False
  | Event.tick _ _ _ :: evs => onlyTicks evs

/-- The remembered command is the trigger of the active mode: its mode is the grasping mode
and it is of the simplified family. -/
def lastIsTrigger (s : Plugin P) : Prop :=
  s.lastHandleCommand.rMOD = s.graspingMode ∧ InSimplifiedFamily s.lastHandleCommand

/-- The plugin is in Simplified with an effective command of the simplified family whose
mode is the active one. -/
def settledInMode (s : Plugin P) : Prop :=
  s.handState = State.Simplified ∧ InSimplifiedFamily s.handleCommand ∧
    s.handleCommand.rMOD = s.graspingMode

/-- A run followed on the integer held by `handState`: the members as `step` computes them,
the integer in `handState`, and how many times step 2 has taken its `default` branch. -/
structure Traced (P : Type) where
  plugin : Plugin P
  handStateValue : Int
  unrecognized : Nat

/-- The constructor: `handState = Disabled`, nothing written yet. -/
def Traced.init (V : StateValues) (E : Externals P) (pid : Nat → P) (joints : Nat → Joint)
    (simTime : ℚ) : Traced P :=
  { plugin := Plugin.init E pid joints simTime
    handStateValue := V.Disabled
    unrecognized := 0 }

/-- One event, followed on the integer. `SetHandleCommand` does not write `handState`. A
tick on which the clock has advanced runs step 1 on the integer and then the `switch`, whose
`default` branch is counted; step 2, `UpdatePIDControl` and `GetAndPublishHandleState` do not
write `handState`. A tick on which the clock has not advanced does nothing. -/
def stepTraced (V : StateValues) (E : Externals P) (t : Traced P) : Event → Traced P
  | Event.submit msg => { t with plugin := step E t.plugin (Event.submit msg) }
  | Event.tick curTime angle velocity =>
    if curTime > t.plugin.lastControllerUpdateTime then
      { plugin := step E t.plugin (Event.tick curTime angle velocity)
        handStateValue :=
          StateTransitionsValue V E
            { sense t.plugin angle velocity with
                userHandleCommand := (sense t.plugin angle velocity).handleCommand }
            t.handStateValue
        unrecognized :=
          if switchCase V
              (StateTransitionsValue V E
                { sense t.plugin angle velocity with
                    userHandleCommand := (sense t.plugin angle velocity).handleCommand }
                t.handStateValue) = none
          then t.unrecognized + 1 else t.unrecognized }
    else { t with plugin := step E t.plugin (Event.tick curTime angle velocity) }

/-- A sequence of events, followed on the integer. -/
def runTraced (V : StateValues) (E : Externals P) (t : Traced P) (evs : List Event) :
    Traced P :=
  evs.foldl (stepTraced V E) t

/-! ## Concrete instances, for evaluating the definitions -/

/-- A proportional controller standing in for `gazebo::common::PID`: the state is the last
error, `Update` stores the error and returns its negation, `GetErrors` reports it as `pe`. -/
def exampleExternals : Externals ℚ :=
  { Basic := 0
    Pinch := 1
    Wide := 2
    Scissor := 3
    VelTolerance := 1 / 500
    PoseTolerance := 1 / 500
    MinVelocity := 22 / 125
    MaxVelocity := 22 / 25
    oneDegree := 349 / 20000
    Update := fun _ e _ => (e, -e)
    GetErrors := fun p => (p, 0, 0) }

/-- Joints with travel `[0, 1]`, all resting at the lower limit (hand fully open). -/
def openJoints : Nat → Joint :=
  fun _ => { angle := 0, velocity := 0, lowerLimit := 0, upperLimit := 1 }

/-- Joints with travel `[0, 1]`, all at mid travel (hand partly closed). -/
def halfClosedJoints : Nat → Joint :=
  fun _ => { angle := 1 / 2, velocity := 0, lowerLimit := 0, upperLimit := 1 }

/-- The freshly constructed plugin over an open hand, loaded at time 0. -/
def openHand : Plugin ℚ := Plugin.init exampleExternals (fun _ => 0) openJoints 0

/-- The freshly constructed plugin over a partly closed hand, loaded at time 0. -/
def halfClosedHand : Plugin ℚ := Plugin.init exampleExternals (fun _ => 0) halfClosedJoints 0

/-- A command that fits the message type, with the mode field outside `[0,3]`. -/
def modeFourCommand : SModelRobotOutput := { rACT := 1, rMOD := 4 }

/-- A legal command: activate, go, finger A to position 200 at speed 50 and force 60. -/
def closeCommand : SModelRobotOutput :=
  { rACT := 1, rGTO := 1, rPRA := 200, rSPA := 50, rFRA := 60 }

/-- A plugin that was driving a partly closed hand (state Simplified, forces 7 on the
joints) when the command `rACT = 0` with a position request was accepted. -/
def deactivatedHand : Plugin ℚ :=
  { handleCommand := { rACT := 0, rGTO := 1, rPRA := 200 }
    graspingMode := 0
    handState := State.Simplified
    posePID := fun _ => 3
    joints := fun _ => { angle := 1 / 2, lowerLimit := 0, upperLimit := 1, force := 7 }
    lastControllerUpdateTime := 0 }

/-- The partly closed hand after the command `rACT = 1, rMOD = 1, rGTO = 1, rPRA = 100`
(a mode other than the initial one) is accepted. -/
def modeChangeRequested : Plugin ℚ :=
  SetHandleCommand { rACT := 1, rMOD := 1, rGTO := 1, rPRA := 100 } halfClosedHand

/-- A plugin in the middle of a mode change to mode 1 over a partly closed hand: the user
asks for position 100, the staged release has been applied by an earlier tick. -/
def modeChangeOngoing : Plugin ℚ :=
  { handleCommand := { rACT := 1, rMOD := 1, rGTO := 1, rPRA := 100, rPRB := 40 }
    lastHandleCommand := { rACT := 1, rMOD := 1, rGTO := 1, rPRA := 100, rPRB := 40 }
    graspingMode := 1
    handState := State.ChangeModeInProgress
    posePID := fun _ => 0
    joints := halfClosedJoints
    lastControllerUpdateTime := 1 }

/-- A plugin whose mode change to mode 1 has opened the hand: the forced release is the
effective command, the triggering command (position 100, speed 50, force 60) is remembered. -/
def modeChangeOpened : Plugin ℚ :=
  { handleCommand :=
      { rACT := 1, rMOD := 1, rGTO := 1, rPRA := 0, rSPA := 127, rFRA := 60, rPRB := 0,
        rSPB := 127, rPRC := 0, rSPC := 127 }
    prevCommand := {}
    lastHandleCommand := { rACT := 1, rMOD := 1, rGTO := 1, rPRA := 100, rSPA := 50, rFRA := 60 }
    graspingMode := 1
    handState := State.ChangeModeInProgress
    posePID := fun _ => 0
    joints := openJoints
    lastControllerUpdateTime := 2 }

/-- The partly closed hand after the command `rACT = 1, rATR = 1` with finger requests
(positions 200, 150, 100, speeds 255, force 9, scissor position 5) is accepted. -/
def autoReleaseRequested : Plugin ℚ :=
  { halfClosedHand with
      handleCommand :=
        { rACT := 1, rMOD := 2, rGTO := 1, rATR := 1, rPRA := 200, rSPA := 255, rFRA := 9,
          rPRB := 150, rSPB := 255, rPRC := 100, rSPC := 255, rPRS := 5 } }

/-- An emergency command that fits all legal ranges: auto-release with the three finger
positions requested at 200. -/
def emergencyCommand : SModelRobotOutput :=
  { rACT := 1, rGTO := 1, rATR := 1, rPRA := 200, rPRB := 200, rPRC := 200 }

/-- The freshly constructed plugin over a fully open hand, after `emergencyCommand` is
accepted and the tick at time 1 has run. -/
def emergencyFirstTick : Plugin ℚ :=
  UpdateStates exampleExternals 1 (SetHandleCommand emergencyCommand openHand)

/-- The state after the next tick, at time 2, the fingers still resting at their lower
limits (the first tick set zero force on them). -/
def emergencySecondTick : Plugin ℚ := UpdateStates exampleExternals 2 emergencyFirstTick

/-- A legal command with the go flag at 0 and three different finger positions. -/
def stopCommand : SModelRobotOutput :=
  { rACT := 1, rGTO := 0, rPRA := 10, rPRB := 20, rPRC := 30 }

/-- The freshly constructed plugin after `stopCommand` is accepted and the tick at time 1
has run. -/
def stopFirstTick : Plugin ℚ :=
  UpdateStates exampleExternals 1 (SetHandleCommand stopCommand openHand)

/-- The state after the next tick, at time 2. -/
def stopSecondTick : Plugin ℚ := UpdateStates exampleExternals 2 stopFirstTick

/-- The partly closed hand after `closeCommand` (go flag 1, finger A at position 200,
speed 50, force 60; mode 0, the active one) is accepted. -/
def closeRequested : Plugin ℚ := SetHandleCommand closeCommand halfClosedHand

/-- A plugin in Pinch mode (mode 1 of the example numbering) with finger A requested at
position 100 and every joint, of travel `[0, 1]`, exactly at the Pinch finger target for
that request. -/
def pinchAtTarget : Plugin ℚ :=
  { handleCommand := { rACT := 1, rMOD := 1, rGTO := 1, rPRA := 100 }
    graspingMode := 1
    handState := State.Simplified
    posePID := fun _ => 0
    joints := fun _ => { angle := 177 / 255 * 100 / 255, lowerLimit := 0, upperLimit := 1 }
    lastControllerUpdateTime := 0 }

/-- A plugin in Scissor mode (mode 3 of the example numbering) with position 255 requested
and every joint, of travel `[0, 1]`, at `215/255`: joint 1 sits exactly at its Scissor
target for that request. -/
def scissorAtTarget : Plugin ℚ :=
  { handleCommand := { rACT := 1, rMOD := 3, rGTO := 1, rPRA := 255 }
    graspingMode := 3
    handState := State.Simplified
    posePID := fun _ => 0
    joints := fun _ => { angle := 215 / 255, lowerLimit := 0, upperLimit := 1 }
    lastControllerUpdateTime := 0 }

/-- The same with position 2 requested and every joint at the Scissor target of joint 1 for
that request. -/
def scissorAtSmallTarget : Plugin ℚ :=
  { handleCommand := { rACT := 1, rMOD := 3, rGTO := 1, rPRA := 2 }
    graspingMode := 3
    handState := State.Simplified
    posePID := fun _ => 0
    joints := fun _ => { angle := 215 / 255 * 2 / 255, lowerLimit := 0, upperLimit := 1 }
    lastControllerUpdateTime := 0 }

/-- A plugin that has closed the hand in mode 0 (state Simplified, every joint, of travel
`[0, 1]`, at its upper limit) when the command asking for Pinch (mode 1 of the example
numbering) is accepted. -/
def closedHandPinchRequested : Plugin ℚ :=
  { handleCommand := { rACT := 1, rMOD := 1, rGTO := 1, rPRA := 255 }
    prevCommand := { rACT := 1, rMOD := 0, rGTO := 1, rPRA := 255 }
    graspingMode := 0
    handState := State.Simplified
    posePID := fun _ => 0
    joints := fun _ => { angle := 1, lowerLimit := 0, upperLimit := 1 }
    lastControllerUpdateTime := 5 }

/-- A plugin driving a partly closed hand in Scissor mode (mode 3 of the example numbering,
state Simplified) with the requested speed of finger A at 0. -/
def scissorSlow : Plugin ℚ :=
  { handleCommand := { rACT := 1, rMOD := 3, rGTO := 1, rPRA := 100, rSPA := 0 }
    graspingMode := 3
    handState := State.Simplified
    posePID := fun _ => 0
    joints := halfClosedJoints
    lastControllerUpdateTime := 0 }

/-- The same plugin, the requested speed of finger A at 255 instead. -/
def scissorFast : Plugin ℚ :=
  { scissorSlow with handleCommand := { scissorSlow.handleCommand with rSPA := 255 } }

/-- A legal command of the simplified family asking for mode 1. -/
def modeOneCommand : SModelRobotOutput := { rACT := 1, rMOD := 1, rGTO := 1, rPRA := 100 }

/-- A legal command that deactivates the gripper (`rACT = 0`), the mode field still at 1. -/
def deactivateCommand : SModelRobotOutput := { rACT := 0, rMOD := 1 }

/-- Joint angles of a hand held at mid travel. -/
def heldAngles : Nat → ℚ := fun _ => 1 / 2

/-- Joint angles of a fully open hand of lower limits 0. -/
def openAngles : Nat → ℚ := fun _ => 0

/-- Joints at rest. -/
def restVelocities : Nat → ℚ := fun _ => 0

/-- The plugin after mode 1 is requested from the constructor state over a hand held at mid
travel and the tick at time 1 has run. -/
def bypassAdopted : Plugin ℚ :=
  UpdateStates exampleExternals 1
    (sense (SetHandleCommand modeOneCommand halfClosedHand) heldAngles restVelocities)

/-- The plugin after the gripper is then deactivated and the tick at time 2 has run. -/
def bypassDisabled : Plugin ℚ :=
  UpdateStates exampleExternals 2
    (sense (SetHandleCommand deactivateCommand bypassAdopted) heldAngles restVelocities)

/-- A run from the constructor state: mode 1 is requested, a tick; the gripper is
deactivated, a tick; mode 1 is requested again, a tick; the hand is held at mid travel all
along. -/
def bypassRun : List Event :=
  [Event.submit modeOneCommand, Event.tick 1 heldAngles restVelocities,
    Event.submit deactivateCommand, Event.tick 2 heldAngles restVelocities,
    Event.submit modeOneCommand, Event.tick 3 heldAngles restVelocities]

/-- A run after mode 1 is requested: a tick over the hand at mid travel, a tick over the
open hand. -/
def completingRun : List Event :=
  [Event.tick 1 heldAngles restVelocities, Event.tick 2 openAngles restVelocities]

/-- A legal command of the simplified family with the go flag set and different requested
positions for the three fingers and the scissor axis. -/
def fingersCommand : SModelRobotOutput :=
  { rACT := 1, rGTO := 1, rPRA := 10, rPRB := 20, rPRC := 30, rPRS := 40 }

/-- The freshly constructed plugin after `fingersCommand` is accepted and the tick at time 1
has run. -/
def echoFirstTick : Plugin ℚ :=
  UpdateStates exampleExternals 1 (SetHandleCommand fingersCommand openHand)

/-- The state after the next tick, at time 2, no command having arrived in between. -/
def echoSecondTick : Plugin ℚ := UpdateStates exampleExternals 2 echoFirstTick

/-- A plugin in individual finger control (state ICF, mode 0) over a partly closed hand,
with positions 100, 20, 200 requested for fingers A, B, C. -/
def fingerControlHand : Plugin ℚ :=
  { handleCommand :=
      { rACT := 1, rGTO := 1, rICF := 1, rPRA := 100, rSPA := 5, rFRA := 6, rPRB := 20,
        rPRC := 200, rPRS := 7 }
    graspingMode := 0
    handState := State.ICF
    posePID := fun _ => 0
    joints := halfClosedJoints
    lastControllerUpdateTime := 0 }

/-- The same plugin with other requests for fingers B and C and the scissor axis and other
speeds and forces, finger A still at position 100. -/
def fingerControlHandOther : Plugin ℚ :=
  { fingerControlHand with
      handleCommand :=
        { rACT := 1, rGTO := 1, rICF := 1, rPRA := 100, rSPA := 250, rFRA := 0, rPRB := 250,
          rSPB := 9, rFRB := 9, rPRC := 0, rSPC := 9, rFRC := 9, rPRS := 99, rSPS := 9,
          rFRS := 9 } }

/-- Six different values for the enumerators: 0 to 5, in the order of the `case` labels. -/
def exampleStateValues : StateValues :=
  { Disabled := 0
    Emergency := 1
    ICS := 2
    ICF := 3
    ChangeModeInProgress := 4
    Simplified := 5 }

/-! ## Auxiliary facts about the embedding -/

theorem foldl_frame {α β γ : Type} (f : α → β → α) (g : α → γ)
    (h : ∀ a b, g (f a b) = g a) (l : List β) (a : α) : g (l.foldl f a) = g a := by
  induction l generalizing a with
  | nil => rfl
  | cons b l ih => rw [List.foldl_cons, ih, h]

theorem VerifyCommand_eq (c : SModelRobotOutput) : VerifyCommand c = decide (c.rACT ≤ 1) := by
  by_cases h : c.rACT ≤ 1
  · have h1 : ¬ ((1 : Int) < (c.rACT : Int)) := by omega
    have h3 : ¬ ((3 : Int) < (c.rACT : Int)) := by omega
    have h255 : ¬ ((255 : Int) < (c.rACT : Int)) := by omega
    have h0 : ¬ ((c.rACT : Int) < 0) := by omega
    simp [VerifyCommand, VerifyField, h, h0, h1, h3, h255]
  · have h1 : (1 : Int) < (c.rACT : Int) := by omega
    simp [VerifyCommand, VerifyField, h, h1]

theorem IsHandFullyOpen_eq (E : Externals P) (s : Plugin P) :
    IsHandFullyOpen E s =
      (decide ((s.joints 2).angle < (s.joints 2).lowerLimit + E.oneDegree) &&
       decide ((s.joints 3).angle < (s.joints 3).lowerLimit + E.oneDegree) &&
       decide ((s.joints 4).angle < (s.joints 4).lowerLimit + E.oneDegree)) := by
  simp [IsHandFullyOpen, NumJoints, List.range']

theorem IsHandFullyOpen_congr (E : Externals P) (s s' : Plugin P) (h : s'.joints = s.joints) :
    IsHandFullyOpen E s' = IsHandFullyOpen E s := by
  rw [IsHandFullyOpen_eq, IsHandFullyOpen_eq, h]

theorem IsHandFullyOpen_false_iff (E : Externals P) (s : Plugin P) :
    IsHandFullyOpen E s = false ↔
      ∃ i, 2 ≤ i ∧ i ≤ 4 ∧ ¬ ((s.joints i).angle < (s.joints i).lowerLimit + E.oneDegree) := by
  rw [IsHandFullyOpen_eq]
  constructor
  · intro h
    by_contra hc
    push_neg at hc
    have h2 := hc 2 (by norm_num) (by norm_num)
    have h3 := hc 3 (by norm_num) (by norm_num)
    have h4 := hc 4 (by norm_num) (by norm_num)
    simp [h2, h3, h4] at h
  · rintro ⟨i, hi2, hi4, hi⟩
    have : i = 2 ∨ i = 3 ∨ i = 4 := by omega
    rcases this with rfl | rfl | rfl <;> simp [hi]

theorem UpdatePIDControl_frame (E : Externals P) (dt : ℚ) (s : Plugin P) :
    controlFrame (UpdatePIDControl E dt s) = controlFrame s := by
  unfold UpdatePIDControl
  split
  · exact foldl_frame (fun s i => SetForce s i 0) controlFrame (fun a b => rfl) _ s
  · exact foldl_frame (UpdatePIDJoint E dt) controlFrame (fun a b => rfl) _ s

theorem UpdatePIDControl_handleCommand (E : Externals P) (dt : ℚ) (s : Plugin P) :
    (UpdatePIDControl E dt s).handleCommand = s.handleCommand :=
  congrArg (fun x => x.1) (UpdatePIDControl_frame E dt s)

theorem UpdatePIDControl_prevCommand (E : Externals P) (dt : ℚ) (s : Plugin P) :
    (UpdatePIDControl E dt s).prevCommand = s.prevCommand :=
  congrArg (fun x => x.2.1) (UpdatePIDControl_frame E dt s)

theorem UpdatePIDControl_lastHandleCommand (E : Externals P) (dt : ℚ) (s : Plugin P) :
    (UpdatePIDControl E dt s).lastHandleCommand = s.lastHandleCommand :=
  congrArg (fun x => x.2.2.1) (UpdatePIDControl_frame E dt s)

theorem UpdatePIDControl_userHandleCommand (E : Externals P) (dt : ℚ) (s : Plugin P) :
    (UpdatePIDControl E dt s).userHandleCommand = s.userHandleCommand :=
  congrArg (fun x => x.2.2.2.1) (UpdatePIDControl_frame E dt s)

theorem UpdatePIDControl_handleState (E : Externals P) (dt : ℚ) (s : Plugin P) :
    (UpdatePIDControl E dt s).handleState = s.handleState :=
  congrArg (fun x => x.2.2.2.2.1) (UpdatePIDControl_frame E dt s)

theorem UpdatePIDControl_graspingMode (E : Externals P) (dt : ℚ) (s : Plugin P) :
    (UpdatePIDControl E dt s).graspingMode = s.graspingMode :=
  congrArg (fun x => x.2.2.2.2.2.1) (UpdatePIDControl_frame E dt s)

theorem UpdatePIDControl_handState (E : Externals P) (dt : ℚ) (s : Plugin P) :
    (UpdatePIDControl E dt s).handState = s.handState :=
  congrArg (fun x => x.2.2.2.2.2.2.1) (UpdatePIDControl_frame E dt s)

theorem UpdatePIDControl_disabled (E : Externals P) (dt : ℚ) (s : Plugin P)
    (h : s.handState = State.Disabled) :
    (UpdatePIDControl E dt s).posePID = s.posePID ∧
      ∀ i, i < NumJoints → ((UpdatePIDControl E dt s).joints i).force = 0 := by
  unfold UpdatePIDControl
  rw [if_pos h]
  refine ⟨foldl_frame (fun s i => SetForce s i 0) (fun x => x.posePID) (fun a b => rfl) _ s, ?_⟩
  intro i hi
  have hi' : i = 0 ∨ i = 1 ∨ i = 2 ∨ i = 3 ∨ i = 4 := by
    unfold NumJoints at hi
    omega
  rcases hi' with rfl | rfl | rfl | rfl | rfl <;>
    simp [NumJoints, List.range_succ, SetForce, Function.update]

/-- The state transitions and the state actions leave the joints, the controllers, the
report and the clock alone. -/
theorem StateTransitions_joints (E : Externals P) (s : Plugin P) :
    (StateTransitions E s).joints = s.joints ∧ (StateTransitions E s).posePID = s.posePID ∧
      (StateTransitions E s).handleState = s.handleState ∧
      (StateTransitions E s).lastControllerUpdateTime = s.lastControllerUpdateTime ∧
      (StateTransitions E s).userHandleCommand = s.userHandleCommand := by
  unfold StateTransitions
  split_ifs <;> simp <;> split_ifs <;> simp

theorem StateActions_frame (E : Externals P) (s : Plugin P) :
    (StateActions E s).joints = s.joints ∧ (StateActions E s).posePID = s.posePID ∧
      (StateActions E s).handState = s.handState ∧
      (StateActions E s).prevCommand = s.prevCommand ∧
      (StateActions E s).lastHandleCommand = s.lastHandleCommand ∧
      (StateActions E s).graspingMode = s.graspingMode ∧
      (StateActions E s).lastControllerUpdateTime = s.lastControllerUpdateTime ∧
      (StateActions E s).userHandleCommand = s.userHandleCommand ∧
      (StateActions E s).handleState = s.handleState := by
  unfold StateActions
  cases h : s.handState <;> simp [h, StopHand, ReleaseHand, FollowFingerA] <;>
    split_ifs <;> simp [h]

/-- The members after a tick on which the clock has advanced, in terms of the two steps. -/
theorem UpdateStates_members (E : Externals P) (curTime : ℚ) (s : Plugin P)
    (ht : curTime > s.lastControllerUpdateTime) :
    (UpdateStates E curTime s).handState =
        (StateTransitions E { s with userHandleCommand := s.handleCommand }).handState ∧
      (UpdateStates E curTime s).handleCommand =
        (StateActions E
          (StateTransitions E { s with userHandleCommand := s.handleCommand })).handleCommand ∧
      (UpdateStates E curTime s).prevCommand =
        (StateTransitions E { s with userHandleCommand := s.handleCommand }).prevCommand ∧
      (UpdateStates E curTime s).lastHandleCommand =
        (StateTransitions E { s with userHandleCommand := s.handleCommand }).lastHandleCommand ∧
      (UpdateStates E curTime s).graspingMode =
        (StateTransitions E { s with userHandleCommand := s.handleCommand }).graspingMode := by
  have hA := StateActions_frame E (StateTransitions E { s with userHandleCommand := s.handleCommand })
  refine ⟨?_, ?_, ?_, ?_, ?_⟩ <;>
    simp only [UpdateStates, if_pos ht, GetAndPublishHandleState, UpdatePIDControl_handState,
      UpdatePIDControl_handleCommand, UpdatePIDControl_prevCommand,
      UpdatePIDControl_lastHandleCommand, UpdatePIDControl_graspingMode]
  · exact hA.2.2.1
  · exact hA.2.2.2.1
  · exact hA.2.2.2.2.1
  · exact hA.2.2.2.2.2.1

theorem UpdatePIDControl_jointReading (E : Externals P) (dt : ℚ) (s : Plugin P) (i : Nat) :
    jointReading (UpdatePIDControl E dt s) i = jointReading s i := by
  have hset : ∀ (a : Plugin P) (b : Nat) (f : ℚ),
      jointReading (SetForce a b f) i = jointReading a i := by
    intro a b f
    by_cases hb : i = b
    · subst hb
      simp [jointReading, SetForce]
    · simp [jointReading, SetForce, Function.update, hb]
  unfold UpdatePIDControl
  split
  · exact foldl_frame (fun s i => SetForce s i 0) (fun x => jointReading x i)
      (fun a b => hset a b 0) _ s
  · exact foldl_frame (UpdatePIDJoint E dt) (fun x => jointReading x i)
      (fun a b => hset _ b _) _ s

/-- A tick changes no joint reading (it only sets forces). -/
theorem UpdateStates_jointReading (E : Externals P) (curTime : ℚ) (s : Plugin P) (i : Nat) :
    jointReading (UpdateStates E curTime s) i = jointReading s i := by
  unfold UpdateStates
  split
  · have hT := StateTransitions_joints E { s with userHandleCommand := s.handleCommand }
    have hA := StateActions_frame E
      (StateTransitions E { s with userHandleCommand := s.handleCommand })
    have hU := UpdatePIDControl_jointReading E
      (curTime - (StateActions E (StateTransitions E
        { s with userHandleCommand := s.handleCommand })).lastControllerUpdateTime)
      (StateActions E (StateTransitions E { s with userHandleCommand := s.handleCommand })) i
    simp only [GetAndPublishHandleState]
    unfold jointReading at hU ⊢
    rw [hA.1, hT.1] at hU
    exact hU
  · rfl

theorem IsHandFullyOpen_of_jointReading (E : Externals P) (s s' : Plugin P)
    (h : ∀ i, jointReading s' i = jointReading s i) :
    IsHandFullyOpen E s' = IsHandFullyOpen E s := by
  have h2 := h 2
  have h3 := h 3
  have h4 := h 4
  simp only [jointReading, Prod.mk.injEq] at h2 h3 h4
  rw [IsHandFullyOpen_eq, IsHandFullyOpen_eq, h2.1, h2.2.2.1, h3.1, h3.2.2.1, h4.1, h4.2.2.1]

/-- The clock after a tick on which it has advanced. -/
theorem UpdateStates_time (E : Externals P) (curTime : ℚ) (s : Plugin P)
    (ht : curTime > s.lastControllerUpdateTime) :
    (UpdateStates E curTime s).lastControllerUpdateTime = curTime := by
  simp only [UpdateStates, if_pos ht]

/-- The requested-position echoes of the report after a tick: the accepted command as it
stood when the tick began. -/
theorem UpdateStates_echo (E : Externals P) (curTime : ℚ) (s : Plugin P)
    (ht : curTime > s.lastControllerUpdateTime) :
    (UpdateStates E curTime s).handleState.gPRA = s.handleCommand.rPRA ∧
      (UpdateStates E curTime s).handleState.gPRB = s.handleCommand.rPRB ∧
      (UpdateStates E curTime s).handleState.gPRC = s.handleCommand.rPRC := by
  have hT := StateTransitions_joints E { s with userHandleCommand := s.handleCommand }
  have hA := StateActions_frame E
    (StateTransitions E { s with userHandleCommand := s.handleCommand })
  simp [UpdateStates, if_pos ht, GetAndPublishHandleState,
    UpdatePIDControl_userHandleCommand, hA.2.2.2.2.2.2.2.1, hT.2.2.2.2]

theorem cround_zero : cround 0 = 0 := by
  simp only [cround, le_refl, if_true, zero_add]
  rw [Int.floor_eq_iff]
  norm_num

/-- A joint resting at its lower limit is measured at position 0. -/
theorem GetCurrentPosition_at_lower (E : Externals P) (s : Plugin P) (j : Nat)
    (h : (s.joints j).angle = (s.joints j).lowerLimit) : GetCurrentPosition E s j = 0 := by
  simp [GetCurrentPosition, GetCurrentPositionRounded, h, cround_zero]

/-- The measured finger positions of the report after a tick on which the clock has
advanced, for fingers resting at their lower limits. -/
theorem UpdateStates_measured_at_lower (E : Externals P) (curTime : ℚ) (s : Plugin P)
    (ht : curTime > s.lastControllerUpdateTime)
    (h : ∀ j, (s.joints j).angle = (s.joints j).lowerLimit) :
    (UpdateStates E curTime s).handleState.gPOA = 0 ∧
      (UpdateStates E curTime s).handleState.gPOB = 0 ∧
      (UpdateStates E curTime s).handleState.gPOC = 0 := by
  have key : ∀ j, GetCurrentPosition E
      (UpdatePIDControl E
        (curTime - (StateActions E (StateTransitions E
          { s with userHandleCommand := s.handleCommand })).lastControllerUpdateTime)
        (StateActions E (StateTransitions E
          { s with userHandleCommand := s.handleCommand }))) j = 0 := by
    intro j
    apply GetCurrentPosition_at_lower
    have hT := StateTransitions_joints E { s with userHandleCommand := s.handleCommand }
    have hA := StateActions_frame E
      (StateTransitions E { s with userHandleCommand := s.handleCommand })
    have hU := UpdatePIDControl_jointReading E
      (curTime - (StateActions E (StateTransitions E
        { s with userHandleCommand := s.handleCommand })).lastControllerUpdateTime)
      (StateActions E (StateTransitions E { s with userHandleCommand := s.handleCommand })) j
    simp only [jointReading, Prod.mk.injEq] at hU
    rw [hU.1, hU.2.2.1, hA.1, hT.1]
    exact h j
  simp only [UpdateStates, if_pos ht, GetAndPublishHandleState]
  exact ⟨key 2, key 3, key 4⟩

/-- The tick of an emergency command over a fully open hand: the state is Emergency and the
stop action has replaced the three requested positions by `handleState.gPRA/gPRB/gPRC`. -/
theorem UpdateStates_emergency_open (E : Externals P) (curTime : ℚ) (s : Plugin P)
    (ht : curTime > s.lastControllerUpdateTime)
    (hact : s.handleCommand.rACT ≠ 0) (hatr : s.handleCommand.rATR = 1)
    (hopen : IsHandFullyOpen E s = true) :
    (UpdateStates E curTime s).handState = State.Emergency ∧
      (UpdateStates E curTime s).handleCommand =
        { s.handleCommand with
            rPRA := s.handleState.gPRA, rPRB := s.handleState.gPRB,
            rPRC := s.handleState.gPRC } := by
  obtain ⟨h1, h2, -, -, -⟩ := UpdateStates_members E curTime s ht
  rw [h1, h2]
  have hT : StateTransitions E { s with userHandleCommand := s.handleCommand } =
      { s with userHandleCommand := s.handleCommand, handState := State.Emergency } := by
    simp [StateTransitions, hact, hatr]
  have ho : IsHandFullyOpen E
      { s with userHandleCommand := s.handleCommand, handState := State.Emergency } = true :=
    (IsHandFullyOpen_congr E s _ rfl).trans hopen
  rw [hT]
  refine ⟨rfl, ?_⟩
  simp [StateActions, ho, StopHand]

/-- The effective command after a tick that ends in Simplified: finger A replicated onto B
and C, and with `rGTO = 0` the three positions then replaced by the stop action. -/
theorem UpdateStates_simplified (E : Externals P) (curTime : ℚ) (s : Plugin P)
    (ht : curTime > s.lastControllerUpdateTime)
    (hres : (UpdateStates E curTime s).handState = State.Simplified) :
    ∃ c : SModelRobotOutput,
      (UpdateStates E curTime s).handleCommand =
        (if c.rGTO = 0 then
          { c with
              rPRA := s.handleState.gPRA, rPRB := s.handleState.gPRB,
              rPRC := s.handleState.gPRC
              rSPB := c.rSPA, rSPC := c.rSPA, rFRB := c.rFRA, rFRC := c.rFRA }
        else
          { c with
              rPRB := c.rPRA, rPRC := c.rPRA
              rSPB := c.rSPA, rSPC := c.rSPA, rFRB := c.rFRA, rFRC := c.rFRA }) := by
  obtain ⟨h1, h2, -, -, -⟩ := UpdateStates_members E curTime s ht
  rw [h1] at hres
  rw [h2]
  have hT := StateTransitions_joints E { s with userHandleCommand := s.handleCommand }
  refine ⟨(StateTransitions E { s with userHandleCommand := s.handleCommand }).handleCommand, ?_⟩
  simp only [StateActions, hres, FollowFingerA, StopHand, hT.2.2.1]
  split_ifs <;> rfl

/-- The tick of a simplified-family command whose mode is the active one, outside a mode
change: the state is Simplified and the effective command is the accepted one with finger A
replicated, the three positions replaced by the stop action when `rGTO = 0`. -/
theorem UpdateStates_simplified_steady (E : Externals P) (curTime : ℚ) (s : Plugin P)
    (ht : curTime > s.lastControllerUpdateTime)
    (hact : s.handleCommand.rACT ≠ 0) (hatr : s.handleCommand.rATR ≠ 1)
    (hics : s.handleCommand.rICS ≠ 1) (hicf : s.handleCommand.rICF ≠ 1)
    (hmod : s.handleCommand.rMOD = s.graspingMode)
    (hst : s.handState ≠ State.ChangeModeInProgress) :
    (UpdateStates E curTime s).handState = State.Simplified ∧
      (UpdateStates E curTime s).handleCommand =
        (if s.handleCommand.rGTO = 0 then
          { s.handleCommand with
              rPRA := s.handleState.gPRA, rPRB := s.handleState.gPRB,
              rPRC := s.handleState.gPRC
              rSPB := s.handleCommand.rSPA, rSPC := s.handleCommand.rSPA
              rFRB := s.handleCommand.rFRA, rFRC := s.handleCommand.rFRA }
        else
          { s.handleCommand with
              rPRB := s.handleCommand.rPRA, rPRC := s.handleCommand.rPRA
              rSPB := s.handleCommand.rSPA, rSPC := s.handleCommand.rSPA
              rFRB := s.handleCommand.rFRA, rFRC := s.handleCommand.rFRA }) := by
  obtain ⟨h1, h2, -, -, -⟩ := UpdateStates_members E curTime s ht
  rw [h1, h2]
  have hT : StateTransitions E { s with userHandleCommand := s.handleCommand } =
      { s with userHandleCommand := s.handleCommand, handState := State.Simplified } := by
    simp [StateTransitions, hact, hatr, hics, hicf, hmod, hst]
  rw [hT]
  refine ⟨rfl, ?_⟩
  simp only [StateActions, FollowFingerA, StopHand]
  split_ifs <;> rfl

theorem cround_natCast (n : Nat) : cround (n : ℚ) = (n : Int) := by
  have h : (0 : ℚ) ≤ (n : ℚ) := Nat.cast_nonneg n
  simp only [cround, h, if_true]
  rw [Int.floor_eq_iff]
  constructor
  · push_cast
    linarith
  · push_cast
    linarith

/-- The pose target of a finger joint: the three branches on the grasping mode. -/
theorem targetPose_finger (E : Externals P) (s : Plugin P) (j : Nat) (hj : 2 ≤ j ∧ j ≤ 4) :
    targetPose E s j =
      (if s.graspingMode = E.Pinch then
        (s.joints j).lowerLimit +
          ((s.joints j).upperLimit - (s.joints j).lowerLimit) * (177 / 255)
            * s.handleCommand.rPRA / 255
      else if s.graspingMode = E.Scissor then 0
      else
        (s.joints j).lowerLimit +
          ((s.joints j).upperLimit - (s.joints j).lowerLimit) * s.handleCommand.rPRA / 255) := by
  have h0 : j ≠ 0 := by omega
  have h1 : j ≠ 1 := by omega
  simp only [targetPose, h0, h1, hj, if_false, and_self, if_true]

/-- Rounding `215 * r / 255` for an 8-bit `r`: the result lies in `[0, 215]` and is `r`
exactly when `r ≤ 3`. -/
theorem cround_scissor (r : Nat) (hr : r ≤ 255) :
    0 ≤ cround (215 * (r : ℚ) / 255) ∧ cround (215 * (r : ℚ) / 255) ≤ 215 ∧
      (cround (215 * (r : ℚ) / 255) = (r : Int) ↔ r ≤ 3) := by
  have h0 : (0 : ℚ) ≤ (r : ℚ) := Nat.cast_nonneg r
  have h255 : (r : ℚ) ≤ 255 := by exact_mod_cast hr
  have hx : (0 : ℚ) ≤ 215 * (r : ℚ) / 255 := by positivity
  simp only [cround, hx, if_true]
  refine ⟨?_, ?_, ?_⟩
  · apply Int.floor_nonneg.2
    linarith
  · have h : ⌊215 * (r : ℚ) / 255 + 1 / 2⌋ < 216 := by
      rw [Int.floor_lt]
      push_cast
      linarith
    omega
  · rw [Int.floor_eq_iff]
    push_cast
    constructor
    · rintro ⟨h1, -⟩
      by_contra hc
      have h4 : (4 : ℚ) ≤ (r : ℚ) := by
        have : 4 ≤ r := by omega
        exact_mod_cast this
      linarith
    · intro h3
      have h3' : (r : ℚ) ≤ 3 := by exact_mod_cast h3
      constructor
      · linarith
      · linarith

/-- A tick with a command of the simplified family: the grasping mode after it is the
command's `rMOD`, and the state is ChangeModeInProgress when a mode change is entered or
under way and the hand is not fully open, Simplified otherwise. -/
theorem UpdateStates_family (E : Externals P) (curTime : ℚ) (s : Plugin P)
    (ht : curTime > s.lastControllerUpdateTime) (hfam : InSimplifiedFamily s.handleCommand) :
    (UpdateStates E curTime s).graspingMode = s.handleCommand.rMOD ∧
      (UpdateStates E curTime s).handState =
        (if (s.handleCommand.rMOD ≠ s.graspingMode ∨
              s.handState = State.ChangeModeInProgress) ∧
            IsHandFullyOpen E s = false then State.ChangeModeInProgress
          else State.Simplified) := by
  obtain ⟨h1, -, -, -, h5⟩ := UpdateStates_members E curTime s ht
  obtain ⟨hact, hatr, hics, hicf⟩ := hfam
  rw [h1, h5]
  have hop : ∀ s' : Plugin P, s'.joints = s.joints →
      IsHandFullyOpen E s' = IsHandFullyOpen E s := IsHandFullyOpen_congr E s
  by_cases hm : s.handleCommand.rMOD = s.graspingMode <;>
    by_cases hst : s.handState = State.ChangeModeInProgress <;>
    cases ho : IsHandFullyOpen E s <;>
    simp [StateTransitions, hact, hatr, hics, hicf, hop, ho, hm, hst]

theorem GetCurrentPosition_congr (E : Externals P) (s s' : Plugin P) (j : Nat)
    (hj : jointReading s' j = jointReading s j) (hm : s'.graspingMode = s.graspingMode) :
    GetCurrentPositionRounded E s' j = GetCurrentPositionRounded E s j ∧
      GetCurrentPosition E s' j = GetCurrentPosition E s j := by
  simp only [jointReading, Prod.mk.injEq] at hj
  have h : GetCurrentPositionRounded E s' j = GetCurrentPositionRounded E s j := by
    simp only [GetCurrentPositionRounded, hj.1, hj.2.2.1, hj.2.2.2, hm]
  exact ⟨h, by simp only [GetCurrentPosition, h]⟩

/-- The measured positions of the report after a tick on which the clock has advanced:
`GetCurrentPosition` of joints 2, 3, 4 and 1 on the joint readings of the tick, in the
grasping mode the state transitions have left. -/
theorem UpdateStates_measured (E : Externals P) (curTime : ℚ) (s : Plugin P)
    (ht : curTime > s.lastControllerUpdateTime) :
    (UpdateStates E curTime s).handleState.gPOA =
        GetCurrentPosition E (UpdateStates E curTime s) 2 ∧
      (UpdateStates E curTime s).handleState.gPOB =
        GetCurrentPosition E (UpdateStates E curTime s) 3 ∧
      (UpdateStates E curTime s).handleState.gPOC =
        GetCurrentPosition E (UpdateStates E curTime s) 4 ∧
      (UpdateStates E curTime s).handleState.gPOS =
        GetCurrentPosition E (UpdateStates E curTime s) 1 := by
  simp only [UpdateStates, if_pos ht, GetAndPublishHandleState]
  exact ⟨rfl, rfl, rfl, rfl⟩

theorem targetPose_congr (E : Externals P) (s s' : Plugin P) (i : Nat)
    (hj : jointReading s' i = jointReading s i) (hm : s'.graspingMode = s.graspingMode)
    (hr : s'.handleCommand.rPRA = s.handleCommand.rPRA) :
    targetPose E s' i = targetPose E s i := by
  simp only [jointReading, Prod.mk.injEq] at hj
  simp only [targetPose, hj.2.2.1, hj.2.2.2, hm, hr]

/-- The control loop, joint by joint: outside Disabled, the PID of each actuated joint is
updated once with the position error of that joint and the torque it returns is the force
set on the joint. -/
theorem UpdatePIDControl_joint (E : Externals P) (dt : ℚ) (s : Plugin P)
    (hs : s.handState ≠ State.Disabled) (i : Nat) (hi : i < NumJoints) :
    (UpdatePIDControl E dt s).posePID i = (E.Update (s.posePID i) (poseError E s i) dt).1 ∧
      ((UpdatePIDControl E dt s).joints i).force =
        (E.Update (s.posePID i) (poseError E s i) dt).2 := by
  have hi' : i = 0 ∨ i = 1 ∨ i = 2 ∨ i = 3 ∨ i = 4 := by
    unfold NumJoints at hi
    omega
  unfold UpdatePIDControl
  rw [if_neg hs]
  rcases hi' with rfl | rfl | rfl | rfl | rfl <;>
    simp [NumJoints, List.range_succ, UpdatePIDJoint, SetForce, Function.update, poseError,
      targetPose]

/-- The controllers after a tick that does not end in Disabled: the PID of each actuated
joint has been updated once, with the joint angle minus the target pose of the grasping
mode and effective command the tick ends with, over the time since the last tick; the
torque returned is the force on the joint. -/
theorem UpdateStates_control (E : Externals P) (curTime : ℚ) (s : Plugin P)
    (ht : curTime > s.lastControllerUpdateTime)
    (hs : (UpdateStates E curTime s).handState ≠ State.Disabled)
    (i : Nat) (hi : i < NumJoints) :
    (UpdateStates E curTime s).posePID i =
        (E.Update (s.posePID i)
          ((s.joints i).angle - targetPose E (UpdateStates E curTime s) i)
          (curTime - s.lastControllerUpdateTime)).1 ∧
      ((UpdateStates E curTime s).joints i).force =
        (E.Update (s.posePID i)
          ((s.joints i).angle - targetPose E (UpdateStates E curTime s) i)
          (curTime - s.lastControllerUpdateTime)).2 := by
  have hT := StateTransitions_joints E { s with userHandleCommand := s.handleCommand }
  have hA := StateActions_frame E
    (StateTransitions E { s with userHandleCommand := s.handleCommand })
  have hs3 : (StateActions E (StateTransitions E
      { s with userHandleCommand := s.handleCommand })).handState ≠ State.Disabled := by
    rw [hA.2.2.1, ← (UpdateStates_members E curTime s ht).1]
    exact hs
  have hU := UpdatePIDControl_joint E
    (curTime - (StateActions E (StateTransitions E
      { s with userHandleCommand := s.handleCommand })).lastControllerUpdateTime)
    (StateActions E (StateTransitions E { s with userHandleCommand := s.handleCommand }))
    hs3 i hi
  have hR := UpdatePIDControl_jointReading E
    (curTime - (StateActions E (StateTransitions E
      { s with userHandleCommand := s.handleCommand })).lastControllerUpdateTime)
    (StateActions E (StateTransitions E { s with userHandleCommand := s.handleCommand })) i
  have htar : targetPose E (UpdateStates E curTime s) i =
      targetPose E (StateActions E (StateTransitions E
        { s with userHandleCommand := s.handleCommand })) i := by
    apply targetPose_congr
    · simp only [UpdateStates, if_pos ht, GetAndPublishHandleState]
      exact hR
    · simp only [UpdateStates, if_pos ht, GetAndPublishHandleState,
        UpdatePIDControl_graspingMode]
    · simp only [UpdateStates, if_pos ht, GetAndPublishHandleState,
        UpdatePIDControl_handleCommand]
  rw [htar]
  have hdt : (StateActions E (StateTransitions E
      { s with userHandleCommand := s.handleCommand })).lastControllerUpdateTime =
      s.lastControllerUpdateTime := by
    rw [hA.2.2.2.2.2.2.1, hT.2.2.2.1]
  have hpid : (StateActions E (StateTransitions E
      { s with userHandleCommand := s.handleCommand })).posePID = s.posePID := by
    rw [hA.2.1, hT.2.1]
  have hjs : (StateActions E (StateTransitions E
      { s with userHandleCommand := s.handleCommand })).joints = s.joints := by
    rw [hA.1, hT.1]
  rw [hdt] at hU
  simp only [poseError, hpid, hjs] at hU
  simp only [UpdateStates, if_pos ht, GetAndPublishHandleState, hdt]
  exact hU

/-- The position error does not read the requested speed `rSPA`. -/
theorem poseError_rSPA (E : Externals P) (s : Plugin P) (x i : Nat) :
    poseError E { s with handleCommand := { s.handleCommand with rSPA := x } } i =
      poseError E s i := by
  simp only [poseError, targetPose]

/-- A tick of the simplified family on which a mode change is entered or under way while
the hand is not fully open: the state is ChangeModeInProgress, the grasping mode is the
command's `rMOD`, and the effective command is the forced release. -/
theorem UpdateStates_mode_change_pending (E : Externals P) (curTime : ℚ) (s : Plugin P)
    (ht : curTime > s.lastControllerUpdateTime) (hfam : InSimplifiedFamily s.handleCommand)
    (hcm : s.handleCommand.rMOD ≠ s.graspingMode ∨ s.handState = State.ChangeModeInProgress)
    (hopen : IsHandFullyOpen E s = false) :
    (UpdateStates E curTime s).handState = State.ChangeModeInProgress ∧
      (UpdateStates E curTime s).graspingMode = s.handleCommand.rMOD ∧
      (UpdateStates E curTime s).handleCommand =
        { s.handleCommand with
            rPRA := 0, rPRB := 0, rPRC := 0, rSPA := 127, rSPB := 127, rSPC := 127 } := by
  obtain ⟨hmode, hstate⟩ := UpdateStates_family E curTime s ht hfam
  obtain ⟨-, h2, -, -, -⟩ := UpdateStates_members E curTime s ht
  obtain ⟨hact, hatr, hics, hicf⟩ := hfam
  have hop : ∀ s' : Plugin P, s'.joints = s.joints →
      IsHandFullyOpen E s' = IsHandFullyOpen E s := IsHandFullyOpen_congr E s
  refine ⟨?_, hmode, ?_⟩
  · rw [hstate, if_pos ⟨hcm, hopen⟩]
  · rw [h2]
    by_cases hm : s.handleCommand.rMOD = s.graspingMode
    · have hst : s.handState = State.ChangeModeInProgress := by
        rcases hcm with h | h
        · exact absurd hm h
        · exact h
      simp [StateTransitions, StateActions, ReleaseHand, hact, hatr, hics, hicf, hop, hopen,
        hm, hst]
    · simp [StateTransitions, StateActions, ReleaseHand, hact, hatr, hics, hicf, hop, hopen,
        hm]

theorem SetHandleCommand_handState (msg : SModelRobotOutput) (s : Plugin P) :
    (SetHandleCommand msg s).handState = s.handState ∧
      (SetHandleCommand msg s).graspingMode = s.graspingMode ∧
      (SetHandleCommand msg s).joints = s.joints ∧
      (SetHandleCommand msg s).lastControllerUpdateTime = s.lastControllerUpdateTime := by
  unfold SetHandleCommand
  split <;> simp

theorem SetHandleCommand_accept (msg : SModelRobotOutput) (s : Plugin P)
    (h : VerifyCommand msg = true) :
    SetHandleCommand msg s = { s with prevCommand := s.handleCommand, handleCommand := msg } := by
  simp [SetHandleCommand, h]

/-- A tick with `rACT = 0`: the state is Disabled and the grasping mode is kept. -/
theorem UpdateStates_disabled (E : Externals P) (curTime : ℚ) (s : Plugin P)
    (ht : curTime > s.lastControllerUpdateTime) (hact : s.handleCommand.rACT = 0) :
    (UpdateStates E curTime s).handState = State.Disabled ∧
      (UpdateStates E curTime s).graspingMode = s.graspingMode := by
  obtain ⟨h1, -, -, -, h5⟩ := UpdateStates_members E curTime s ht
  rw [h1, h5]
  simp [StateTransitions, hact]

/-- While every executed tick finds a command of the simplified family and none finds the
hand fully open, a run that starts in ChangeModeInProgress stays there. -/
theorem run_stays_in_mode_change (E : Externals P) (evs : List Event) :
    ∀ s : Plugin P, s.handState = State.ChangeModeInProgress →
      ticksInSimplifiedFamily E s evs → ¬ openOnSomeTick E s evs →
      (run E s evs).handState = State.ChangeModeInProgress := by
  induction evs with
  | nil =>
    intro s hs _ _
    exact hs
  | cons e evs ih =>
    intro s hs hfam hopen
    cases e with
    | submit msg =>
      have h := ih (SetHandleCommand msg s)
        ((SetHandleCommand_handState msg s).1.trans hs) hfam hopen
      exact h
    | tick curTime angle velocity =>
      obtain ⟨hf, hrest⟩ := hfam
      have hno : ¬ (curTime > s.lastControllerUpdateTime ∧
          IsHandFullyOpen E (sense s angle velocity) = true) := fun h => hopen (Or.inl h)
      have hnrest : ¬ openOnSomeTick E (UpdateStates E curTime (sense s angle velocity)) evs :=
        fun h => hopen (Or.inr h)
      have hstate : (UpdateStates E curTime (sense s angle velocity)).handState =
          State.ChangeModeInProgress := by
        by_cases ht : curTime > s.lastControllerUpdateTime
        · have ho : IsHandFullyOpen E (sense s angle velocity) = false := by
            cases h : IsHandFullyOpen E (sense s angle velocity)
            · rfl
            · exact absurd ⟨ht, h⟩ hno
          have h := (UpdateStates_family E curTime (sense s angle velocity) ht (hf ht)).2
          rw [h, if_pos ⟨Or.inr hs, ho⟩]
        · have h : UpdateStates E curTime (sense s angle velocity) = sense s angle velocity := by
            unfold UpdateStates
            exact if_neg ht
          rw [h]
          exact hs
      exact ih _ hstate hrest hnrest

/-- Where the measured position stays in the 8-bit range: for a joint with lower limit below
upper limit whose angle is at least the lower limit and at most the upper limit (in Pinch
mode: at most the end of the `177/255` sub-range), the rounded value lies in `[0,255]` and
is what `GetCurrentPosition` returns. -/
theorem GetCurrentPositionRounded_range (E : Externals P) (s : Plugin P) (j : Nat)
    (hlim : (s.joints j).lowerLimit < (s.joints j).upperLimit)
    (hlo : (s.joints j).lowerLimit ≤ (s.joints j).angle)
    (hhi : (s.joints j).angle ≤
      (if s.graspingMode = E.Pinch then
        (s.joints j).lowerLimit +
          ((s.joints j).upperLimit - (s.joints j).lowerLimit) * (177 / 255)
      else (s.joints j).upperLimit)) :
    0 ≤ GetCurrentPositionRounded E s j ∧ GetCurrentPositionRounded E s j ≤ 255 ∧
      (GetCurrentPosition E s j : Int) = GetCurrentPositionRounded E s j := by
  have hd : (0 : ℚ) < (s.joints j).upperLimit - (s.joints j).lowerLimit := by linarith
  have key : ∀ range : ℚ, 0 < range → (s.joints j).angle - (s.joints j).lowerLimit ≤ range →
      0 ≤ cround (255 * ((s.joints j).angle - (s.joints j).lowerLimit) / range) ∧
        cround (255 * ((s.joints j).angle - (s.joints j).lowerLimit) / range) ≤ 255 := by
    intro range hr hle
    have hrel : (0 : ℚ) ≤ (s.joints j).angle - (s.joints j).lowerLimit := by linarith
    have hx0 : (0 : ℚ) ≤ 255 * ((s.joints j).angle - (s.joints j).lowerLimit) / range := by
      positivity
    have hx1 : 255 * ((s.joints j).angle - (s.joints j).lowerLimit) / range ≤ 255 := by
      rw [div_le_iff₀ hr]
      nlinarith
    simp only [cround, hx0, if_true]
    constructor
    · apply Int.floor_nonneg.2
      linarith
    · have h : ⌊255 * ((s.joints j).angle - (s.joints j).lowerLimit) / range + 1 / 2⌋ <
          256 := by
        rw [Int.floor_lt]
        push_cast
        linarith
      omega
  have hround : 0 ≤ GetCurrentPositionRounded E s j ∧
      GetCurrentPositionRounded E s j ≤ 255 := by
    unfold GetCurrentPositionRounded
    by_cases hp : s.graspingMode = E.Pinch
    · simp only [hp, if_true] at hhi ⊢
      exact key _ (by positivity) (by linarith)
    · simp only [hp, if_false] at hhi ⊢
      exact key _ hd (by linarith)
  refine ⟨hround.1, hround.2, ?_⟩
  unfold GetCurrentPosition
  omega

/-- The object-detection code of a joint, by the three situations of the joint: moving,
stopped at the target, stopped before the target. -/
theorem GetObjectDetection_cases (E : Externals P) (s : Plugin P) (i r p : Nat) :
    (GetObjectDetection E s i r p = 0 ↔ (s.joints i).velocity > E.VelTolerance) ∧
      (GetObjectDetection E s i r p = 3 ↔
        (¬ (s.joints i).velocity > E.VelTolerance ∧
          (E.GetErrors (s.posePID i)).1 < E.PoseTolerance)) ∧
      ((GetObjectDetection E s i r p = 1 ∨ GetObjectDetection E s i r p = 2) ↔
        (¬ (s.joints i).velocity > E.VelTolerance ∧
          ¬ (E.GetErrors (s.posePID i)).1 < E.PoseTolerance)) := by
  simp only [GetObjectDetection, decide_eq_true_eq]
  by_cases hv : (s.joints i).velocity > E.VelTolerance <;>
    by_cases hp : (E.GetErrors (s.posePID i)).1 < E.PoseTolerance <;>
    by_cases hr : ((r : Int) - (p : Int) > 0) <;>
    simp [hv, hp, hr]

/-- The motion status, by the situations of the three finger joints. -/
theorem motionStatus_cases (E : Externals P) (s : Plugin P) :
    (motionStatus E s = 0 ↔
        ((s.joints 2).velocity > E.VelTolerance ∨ (s.joints 3).velocity > E.VelTolerance ∨
          (s.joints 4).velocity > E.VelTolerance)) ∧
      (motionStatus E s = 3 ↔
        (¬ ((s.joints 2).velocity > E.VelTolerance ∨ (s.joints 3).velocity > E.VelTolerance ∨
            (s.joints 4).velocity > E.VelTolerance) ∧
          ((E.GetErrors (s.posePID 2)).1 < E.PoseTolerance ∧
            (E.GetErrors (s.posePID 3)).1 < E.PoseTolerance ∧
            (E.GetErrors (s.posePID 4)).1 < E.PoseTolerance))) ∧
      (motionStatus E s = 2 ↔
        (¬ ((s.joints 2).velocity > E.VelTolerance ∨ (s.joints 3).velocity > E.VelTolerance ∨
            (s.joints 4).velocity > E.VelTolerance) ∧
          (¬ (E.GetErrors (s.posePID 2)).1 < E.PoseTolerance ∧
            ¬ (E.GetErrors (s.posePID 3)).1 < E.PoseTolerance ∧
            ¬ (E.GetErrors (s.posePID 4)).1 < E.PoseTolerance))) := by
  simp only [motionStatus, Bool.or_eq_true, Bool.and_eq_true, decide_eq_true_eq,
    Bool.not_eq_true', decide_eq_false_iff_not]
  by_cases hv2 : (s.joints 2).velocity > E.VelTolerance <;>
    by_cases hv3 : (s.joints 3).velocity > E.VelTolerance <;>
    by_cases hv4 : (s.joints 4).velocity > E.VelTolerance <;>
    by_cases hp2 : (E.GetErrors (s.posePID 2)).1 < E.PoseTolerance <;>
    by_cases hp3 : (E.GetErrors (s.posePID 3)).1 < E.PoseTolerance <;>
    by_cases hp4 : (E.GetErrors (s.posePID 4)).1 < E.PoseTolerance <;>
    simp [hv2, hv3, hv4, hp2, hp3, hp4]

theorem UpdatePIDJoint_controlView (E : Externals P) (dt : ℚ) (s s' : Plugin P) (i : Nat)
    (h : controlView s' = controlView s) :
    controlView (UpdatePIDJoint E dt s' i) = controlView (UpdatePIDJoint E dt s i) := by
  simp only [controlView, Prod.mk.injEq] at h
  obtain ⟨hm, hs, hr, hj, hp⟩ := h
  have herr : poseError E s' i = poseError E s i := by
    simp only [poseError, targetPose, hm, hr, hj]
  simp only [controlView, UpdatePIDJoint, SetForce, herr, hm, hs, hr, hj, hp]

theorem SetForce_controlView (s s' : Plugin P) (i : Nat) (f : ℚ)
    (h : controlView s' = controlView s) :
    controlView (SetForce s' i f) = controlView (SetForce s i f) := by
  simp only [controlView, Prod.mk.injEq] at h
  obtain ⟨hm, hs, hr, hj, hp⟩ := h
  simp only [controlView, SetForce, hm, hs, hr, hj, hp]

theorem foldl_controlView (f : Plugin P → Nat → Plugin P)
    (hf : ∀ (a a' : Plugin P) (i : Nat), controlView a' = controlView a →
      controlView (f a' i) = controlView (f a i)) (l : List Nat) :
    ∀ s s' : Plugin P, controlView s' = controlView s →
      controlView (l.foldl f s') = controlView (l.foldl f s) := by
  induction l with
  | nil =>
    intro s s' h
    exact h
  | cons i l ih =>
    intro s s' h
    exact ih _ _ (hf s s' i h)

/-- The control loop reads nothing but the control view: two plugins that agree on the
grasping mode, the hand state, `rPRA`, the joints and the controllers leave it with the same
controllers and the same joints. -/
theorem UpdatePIDControl_controlView (E : Externals P) (dt : ℚ) (s s' : Plugin P)
    (h : controlView s' = controlView s) :
    controlView (UpdatePIDControl E dt s') = controlView (UpdatePIDControl E dt s) := by
  have hs : s'.handState = s.handState := by
    simp only [controlView, Prod.mk.injEq] at h
    exact h.2.1
  unfold UpdatePIDControl
  rw [hs]
  split
  · exact foldl_controlView (fun s i => SetForce s i 0)
      (fun a a' i ha => SetForce_controlView a a' i 0 ha) _ s s' h
  · exact foldl_controlView (UpdatePIDJoint E dt)
      (fun a a' i ha => UpdatePIDJoint_controlView E dt a a' i ha) _ s s' h

theorem SetHandleCommand_lastHandleCommand (msg : SModelRobotOutput) (s : Plugin P) :
    (SetHandleCommand msg s).lastHandleCommand = s.lastHandleCommand := by
  unfold SetHandleCommand
  split <;> simp

/-- The remembered command and the grasping mode after `UpdateStates`: both are replaced
together, by the accepted command and its mode, on an executed tick that enters a mode
change, and both are kept otherwise. -/
theorem UpdateStates_last_mode (E : Externals P) (curTime : ℚ) (s : Plugin P) :
    ((curTime > s.lastControllerUpdateTime ∧ InSimplifiedFamily s.handleCommand ∧
        s.handleCommand.rMOD ≠ s.graspingMode) →
      (UpdateStates E curTime s).lastHandleCommand = s.handleCommand ∧
        (UpdateStates E curTime s).graspingMode = s.handleCommand.rMOD) ∧
    (¬ (curTime > s.lastControllerUpdateTime ∧ InSimplifiedFamily s.handleCommand ∧
        s.handleCommand.rMOD ≠ s.graspingMode) →
      (UpdateStates E curTime s).lastHandleCommand = s.lastHandleCommand ∧
        (UpdateStates E curTime s).graspingMode = s.graspingMode) := by
  have hop : ∀ s' : Plugin P, s'.joints = s.joints →
      IsHandFullyOpen E s' = IsHandFullyOpen E s := IsHandFullyOpen_congr E s
  by_cases ht : curTime > s.lastControllerUpdateTime
  · obtain ⟨-, -, -, h4, h5⟩ := UpdateStates_members E curTime s ht
    rw [h4, h5]
    unfold InSimplifiedFamily
    by_cases hact : s.handleCommand.rACT = 0 <;>
      by_cases hatr : s.handleCommand.rATR = 1 <;>
      by_cases hics : s.handleCommand.rICS = 1 <;>
      by_cases hicf : s.handleCommand.rICF = 1 <;>
      by_cases hm : s.handleCommand.rMOD = s.graspingMode <;>
      by_cases hst : s.handState = State.ChangeModeInProgress <;>
      cases ho : IsHandFullyOpen E s <;>
      simp [StateTransitions, ht, hact, hatr, hics, hicf, hm, hst, hop, ho]
  · have h : UpdateStates E curTime s = s := by
      unfold UpdateStates
      exact if_neg ht
    rw [h]
    exact ⟨fun hc => absurd hc.1 ht, fun _ => ⟨rfl, rfl⟩⟩

/-- An executed tick whose command is not of the simplified family does not end in
ChangeModeInProgress. -/
theorem UpdateStates_outside_family (E : Externals P) (curTime : ℚ) (s : Plugin P)
    (ht : curTime > s.lastControllerUpdateTime)
    (hfam : ¬ InSimplifiedFamily s.handleCommand) :
    (UpdateStates E curTime s).handState ≠ State.ChangeModeInProgress := by
  rw [(UpdateStates_members E curTime s ht).1]
  unfold InSimplifiedFamily at hfam
  by_cases hact : s.handleCommand.rACT = 0 <;>
    by_cases hatr : s.handleCommand.rATR = 1 <;>
    by_cases hics : s.handleCommand.rICS = 1 <;>
    by_cases hicf : s.handleCommand.rICF = 1 <;>
    simp [StateTransitions, hact, hatr, hics, hicf] at hfam ⊢

/-- One event keeps the invariant that a plugin in ChangeModeInProgress remembers the
trigger of its active mode. -/
theorem step_lastIsTrigger (E : Externals P) (s : Plugin P) (e : Event)
    (h : s.handState = State.ChangeModeInProgress → lastIsTrigger s) :
    (step E s e).handState = State.ChangeModeInProgress → lastIsTrigger (step E s e) := by
  cases e with
  | submit msg =>
    intro hc
    have hs := SetHandleCommand_handState msg s
    have hl := SetHandleCommand_lastHandleCommand msg s
    have := h (hs.1.symm.trans hc)
    unfold lastIsTrigger at this ⊢
    show (SetHandleCommand msg s).lastHandleCommand.rMOD =
        (SetHandleCommand msg s).graspingMode ∧
      InSimplifiedFamily (SetHandleCommand msg s).lastHandleCommand
    rw [hl, hs.2.1]
    exact this
  | tick curTime angle velocity =>
    intro hc
    have hc' : (UpdateStates E curTime (sense s angle velocity)).handState =
        State.ChangeModeInProgress := hc
    obtain ⟨hentry, hkeep⟩ := UpdateStates_last_mode E curTime (sense s angle velocity)
    show lastIsTrigger (UpdateStates E curTime (sense s angle velocity))
    unfold lastIsTrigger
    by_cases hen : curTime > (sense s angle velocity).lastControllerUpdateTime ∧
        InSimplifiedFamily (sense s angle velocity).handleCommand ∧
        (sense s angle velocity).handleCommand.rMOD ≠ (sense s angle velocity).graspingMode
    · obtain ⟨h1, h2⟩ := hentry hen
      rw [h1, h2]
      exact ⟨rfl, hen.2.1⟩
    · obtain ⟨h1, h2⟩ := hkeep hen
      rw [h1, h2]
      have hwas : s.handState = State.ChangeModeInProgress := by
        by_cases ht : curTime > (sense s angle velocity).lastControllerUpdateTime
        · by_cases hfam : InSimplifiedFamily (sense s angle velocity).handleCommand
          · have hst := (UpdateStates_family E curTime _ ht hfam).2
            rw [hst] at hc'
            by_cases hcond : ((sense s angle velocity).handleCommand.rMOD ≠
                (sense s angle velocity).graspingMode ∨
                (sense s angle velocity).handState = State.ChangeModeInProgress) ∧
                IsHandFullyOpen E (sense s angle velocity) = false
            · rcases hcond.1 with hne | hst'
              · exact absurd ⟨ht, hfam, hne⟩ hen
              · exact hst'
            · rw [if_neg hcond] at hc'
              exact State.noConfusion hc'
          · exact absurd hc' (UpdateStates_outside_family E curTime _ ht hfam)
        · have hid : UpdateStates E curTime (sense s angle velocity) =
              sense s angle velocity := by
            unfold UpdateStates
            exact if_neg ht
          rw [hid] at hc'
          exact hc'
      exact h hwas

theorem run_lastIsTrigger (E : Externals P) (evs : List Event) :
    ∀ s : Plugin P, (s.handState = State.ChangeModeInProgress → lastIsTrigger s) →
      (run E s evs).handState = State.ChangeModeInProgress → lastIsTrigger (run E s evs) := by
  induction evs with
  | nil =>
    intro s h
    exact h
  | cons e evs ih =>
    intro s h
    exact ih (step E s e) (step_lastIsTrigger E s e h)

/-- Once a mode change has been entered, the mode of the remembered command is the grasping
mode, and stays so. -/
theorem run_entered_last_mode (E : Externals P) (evs : List Event) :
    ∀ s : Plugin P,
      (s.lastHandleCommand.rMOD = s.graspingMode ∨ modeChangeEntered E s evs) →
      (run E s evs).lastHandleCommand.rMOD = (run E s evs).graspingMode := by
  induction evs with
  | nil =>
    intro s h
    rcases h with h | h
    · exact h
    · exact False.elim h
  | cons e evs ih =>
    intro s h
    cases e with
    | submit msg =>
      apply ih (SetHandleCommand msg s)
      rcases h with h | h
      · left
        rw [SetHandleCommand_lastHandleCommand, (SetHandleCommand_handState msg s).2.1]
        exact h
      · right
        exact h
    | tick curTime angle velocity =>
      apply ih (UpdateStates E curTime (sense s angle velocity))
      obtain ⟨hentry, hkeep⟩ := UpdateStates_last_mode E curTime (sense s angle velocity)
      by_cases hen : curTime > (sense s angle velocity).lastControllerUpdateTime ∧
          InSimplifiedFamily (sense s angle velocity).handleCommand ∧
          (sense s angle velocity).handleCommand.rMOD ≠
            (sense s angle velocity).graspingMode
      · left
        obtain ⟨h1, h2⟩ := hentry hen
        rw [h1, h2]
      · rcases h with h | h
        · left
          obtain ⟨h1, h2⟩ := hkeep hen
          rw [h1, h2]
          exact h
        · rcases h with h | h
          · exact absurd h hen
          · right
            exact h

/-- The tick that completes a mode change (simplified family, a mode change entered on this
tick or under way, the hand fully open), from a plugin that remembers the trigger of its
mode while in ChangeModeInProgress: afterwards the plugin is settled in the mode of the
command found. -/
theorem UpdateStates_mode_change_complete (E : Externals P) (curTime : ℚ) (s : Plugin P)
    (ht : curTime > s.lastControllerUpdateTime) (hfam : InSimplifiedFamily s.handleCommand)
    (hcm : s.handleCommand.rMOD ≠ s.graspingMode ∨ s.handState = State.ChangeModeInProgress)
    (hopen : IsHandFullyOpen E s = true)
    (hinv : s.handState = State.ChangeModeInProgress → lastIsTrigger s) :
    settledInMode (UpdateStates E curTime s) ∧
      (UpdateStates E curTime s).graspingMode = s.handleCommand.rMOD := by
  obtain ⟨hmode, hstate⟩ := UpdateStates_family E curTime s ht hfam
  obtain ⟨-, h2, -, -, -⟩ := UpdateStates_members E curTime s ht
  have hop : ∀ s' : Plugin P, s'.joints = s.joints →
      IsHandFullyOpen E s' = IsHandFullyOpen E s := IsHandFullyOpen_congr E s
  have hst' : (UpdateStates E curTime s).handState = State.Simplified := by
    rw [hstate, hopen]
    simp
  have hT : StateTransitions E { s with userHandleCommand := s.handleCommand } =
      { s with
          userHandleCommand := s.handleCommand
          prevCommand := s.handleCommand
          handleCommand := triggeringCommand s
          lastHandleCommand := triggeringCommand s
          graspingMode := s.handleCommand.rMOD
          handState := State.Simplified } := by
    obtain ⟨hact, hatr, hics, hicf⟩ := hfam
    by_cases hm : s.handleCommand.rMOD = s.graspingMode
    · have hst : s.handState = State.ChangeModeInProgress := by
        rcases hcm with h | h
        · exact absurd hm h
        · exact h
      simp [StateTransitions, triggeringCommand, hact, hatr, hics, hicf, hop, hopen, hm, hst]
    · simp [StateTransitions, triggeringCommand, hact, hatr, hics, hicf, hop, hopen, hm]
  have hflags : (UpdateStates E curTime s).handleCommand.rACT = (triggeringCommand s).rACT ∧
      (UpdateStates E curTime s).handleCommand.rATR = (triggeringCommand s).rATR ∧
      (UpdateStates E curTime s).handleCommand.rICS = (triggeringCommand s).rICS ∧
      (UpdateStates E curTime s).handleCommand.rICF = (triggeringCommand s).rICF ∧
      (UpdateStates E curTime s).handleCommand.rMOD = (triggeringCommand s).rMOD := by
    rw [h2, hT]
    simp only [StateActions, FollowFingerA, StopHand]
    split_ifs <;> exact ⟨rfl, rfl, rfl, rfl, rfl⟩
  have htrig : InSimplifiedFamily (triggeringCommand s) ∧
      (triggeringCommand s).rMOD = s.handleCommand.rMOD := by
    unfold triggeringCommand
    by_cases hm : s.handleCommand.rMOD = s.graspingMode
    · have hst : s.handState = State.ChangeModeInProgress := by
        rcases hcm with h | h
        · exact absurd hm h
        · exact h
      obtain ⟨hl1, hl2⟩ := hinv hst
      rw [if_neg (not_not.2 hm)]
      exact ⟨hl2, hl1.trans hm.symm⟩
    · rw [if_pos hm]
      exact ⟨hfam, rfl⟩
  obtain ⟨f1, f2, f3, f4, f5⟩ := hflags
  refine ⟨⟨hst', ?_, ?_⟩, hmode⟩
  · unfold InSimplifiedFamily
    rw [f1, f2, f3, f4]
    exact htrig.1
  · rw [f5, hmode]
    exact htrig.2

/-- A tick from a settled plugin leaves it settled, in the same grasping mode. -/
theorem UpdateStates_settled (E : Externals P) (curTime : ℚ) (s : Plugin P)
    (h : settledInMode s) :
    settledInMode (UpdateStates E curTime s) ∧
      (UpdateStates E curTime s).graspingMode = s.graspingMode := by
  obtain ⟨hst, hfam, hm⟩ := h
  by_cases ht : curTime > s.lastControllerUpdateTime
  · obtain ⟨hmode, -⟩ := UpdateStates_family E curTime s ht hfam
    obtain ⟨hact, hatr, hics, hicf⟩ := hfam
    obtain ⟨hs', hcmd⟩ := UpdateStates_simplified_steady E curTime s ht hact hatr hics hicf hm
      (by rw [hst]; decide)
    have hflags : (UpdateStates E curTime s).handleCommand.rACT = s.handleCommand.rACT ∧
        (UpdateStates E curTime s).handleCommand.rATR = s.handleCommand.rATR ∧
        (UpdateStates E curTime s).handleCommand.rICS = s.handleCommand.rICS ∧
        (UpdateStates E curTime s).handleCommand.rICF = s.handleCommand.rICF ∧
        (UpdateStates E curTime s).handleCommand.rMOD = s.handleCommand.rMOD := by
      rw [hcmd]
      split_ifs <;> exact ⟨rfl, rfl, rfl, rfl, rfl⟩
    obtain ⟨f1, f2, f3, f4, f5⟩ := hflags
    refine ⟨⟨hs', ?_, ?_⟩, hmode.trans hm⟩
    · unfold InSimplifiedFamily
      rw [f1, f2, f3, f4]
      exact ⟨hact, hatr, hics, hicf⟩
    · rw [f5, hmode]
  · have hid : UpdateStates E curTime s = s := by
      unfold UpdateStates
      exact if_neg ht
    rw [hid]
    exact ⟨⟨hst, hfam, hm⟩, rfl⟩

/-- Ticks alone, with no command submitted, leave a settled plugin settled in its mode. -/
theorem run_settled (E : Externals P) (evs : List Event) :
    ∀ s : Plugin P, settledInMode s → onlyTicks evs →
      settledInMode (run E s evs) ∧ (run E s evs).graspingMode = s.graspingMode := by
  induction evs with
  | nil =>
    intro s h _
    exact ⟨h, rfl⟩
  | cons e evs ih =>
    intro s h ho
    cases e with
    | submit msg => exact False.elim ho
    | tick curTime angle velocity =>
      have hs : settledInMode (sense s angle velocity) := h
      obtain ⟨h1, h2⟩ := UpdateStates_settled E curTime (sense s angle velocity) hs
      obtain ⟨h3, h4⟩ := ih (UpdateStates E curTime (sense s angle velocity)) h1 ho
      exact ⟨h3, h4.trans h2⟩

/-- Whatever integer `handState` holds when step 1 starts, it holds the value of one of the
six enumerators when step 1 ends. -/
theorem StateTransitionsValue_mem (V : StateValues) (E : Externals P) (s : Plugin P)
    (hs : Int) : StateTransitionsValue V E s hs ∈ V.enumerators := by
  simp only [StateTransitionsValue, StateValues.enumerators, List.mem_cons,
    List.mem_singleton, List.not_mem_nil, or_false]
  split_ifs <;> simp_all

/-- On the value of an enumerator the `switch` selects a case. -/
theorem switchCase_of_mem (V : StateValues) (hs : Int) (h : hs ∈ V.enumerators) :
    switchCase V hs ≠ none := by
  simp only [StateValues.enumerators, List.mem_cons, List.mem_singleton, List.not_mem_nil,
    or_false] at h
  unfold switchCase
  split_ifs <;> simp_all

/-- Different enumerators have different values. -/
theorem StateValues.value_injective (V : StateValues) (hV : V.Distinct) (a b : State)
    (h : V.value a = V.value b) : a = b := by
  simp only [StateValues.Distinct, StateValues.enumerators, List.nodup_cons, List.mem_cons,
    List.mem_singleton, List.not_mem_nil, or_false, not_or, List.nodup_nil, and_true] at hV
  cases a <;> cases b <;> simp only [StateValues.value] at h <;>
    first
      | rfl
      | (exfalso; omega)

/-- On the value of an enumerator the `switch` selects the case of that enumerator. -/
theorem switchCase_value (V : StateValues) (hV : V.Distinct) (st : State) :
    switchCase V (V.value st) = some st := by
  have hinj := V.value_injective hV
  have h0 : V.Disabled = V.value State.Disabled := rfl
  have h1 : V.Emergency = V.value State.Emergency := rfl
  have h2 : V.ICS = V.value State.ICS := rfl
  have h3 : V.ICF = V.value State.ICF := rfl
  have h4 : V.ChangeModeInProgress = V.value State.ChangeModeInProgress := rfl
  have h5 : V.Simplified = V.value State.Simplified := rfl
  unfold switchCase
  rw [h0, h1, h2, h3, h4, h5]
  by_cases c0 : V.value st = V.value State.Disabled
  · rw [if_pos c0, hinj _ _ c0]
  rw [if_neg c0]
  by_cases c1 : V.value st = V.value State.Emergency
  · rw [if_pos c1, hinj _ _ c1]
  rw [if_neg c1]
  by_cases c2 : V.value st = V.value State.ICS
  · rw [if_pos c2, hinj _ _ c2]
  rw [if_neg c2]
  by_cases c3 : V.value st = V.value State.ICF
  · rw [if_pos c3, hinj _ _ c3]
  rw [if_neg c3]
  by_cases c4 : V.value st = V.value State.ChangeModeInProgress
  · rw [if_pos c4, hinj _ _ c4]
  rw [if_neg c4]
  by_cases c5 : V.value st = V.value State.Simplified
  · rw [if_pos c5, hinj _ _ c5]
  exfalso
  cases st
  · exact c0 rfl
  · exact c1 rfl
  · exact c2 rfl
  · exact c3 rfl
  · exact c4 rfl
  · exact c5 rfl

/-- Step 1 on the integer agrees with `StateTransitions`: started on the value of the
state, it ends on the value of the state that `StateTransitions` computes. -/
theorem StateTransitionsValue_value (V : StateValues) (hV : V.Distinct) (E : Externals P)
    (s : Plugin P) :
    StateTransitionsValue V E s (V.value s.handState) =
      V.value (StateTransitions E s).handState := by
  have hcm : ∀ st : State,
      V.value st = V.ChangeModeInProgress ↔ st = State.ChangeModeInProgress := by
    intro st
    constructor
    · intro h
      exact V.value_injective hV st State.ChangeModeInProgress h
    · intro h
      rw [h]
      rfl
  have hsimp : V.Simplified ≠ V.ChangeModeInProgress := by
    intro h
    have := V.value_injective hV State.Simplified State.ChangeModeInProgress h
    exact State.noConfusion this
  by_cases h1 : s.handleCommand.rACT = 0
  · simp [StateTransitionsValue, StateTransitions, h1, StateValues.value]
  by_cases h2 : s.handleCommand.rATR = 1
  · simp [StateTransitionsValue, StateTransitions, h1, h2, StateValues.value]
  by_cases h3 : s.handleCommand.rICS = 1
  · simp [StateTransitionsValue, StateTransitions, h1, h2, h3, StateValues.value]
  by_cases h4 : s.handleCommand.rICF = 1
  · simp [StateTransitionsValue, StateTransitions, h1, h2, h3, h4, StateValues.value]
  by_cases h5 : s.handleCommand.rMOD = s.graspingMode
  · by_cases h6 : s.handState = State.ChangeModeInProgress
    · by_cases ho : IsHandFullyOpen E s = true
      · simp [StateTransitionsValue, StateTransitions, h1, h2, h3, h4, h5, h6, ho,
          StateValues.value]
      · simp [StateTransitionsValue, StateTransitions, h1, h2, h3, h4, h5, h6, ho,
          StateValues.value]
    · have h6v : V.value s.handState ≠ V.ChangeModeInProgress := fun h => h6 ((hcm _).1 h)
      have hS : V.value State.Simplified = V.Simplified := rfl
      simp [StateTransitionsValue, StateTransitions, h1, h2, h3, h4, h5, h6, h6v, hsimp, hS]
  · have hopen : ∀ (a : SModelRobotOutput) (m : Nat),
        IsHandFullyOpen E { s with
          handState := State.ChangeModeInProgress
          lastHandleCommand := a
          graspingMode := m } = IsHandFullyOpen E s :=
      fun _ _ => IsHandFullyOpen_congr E _ _ rfl
    by_cases ho : IsHandFullyOpen E s = true
    · simp [StateTransitionsValue, StateTransitions, h1, h2, h3, h4, h5, ho, hopen,
        StateValues.value]
    · simp [StateTransitionsValue, StateTransitions, h1, h2, h3, h4, h5, ho, hopen,
        StateValues.value]

theorem stepTraced_plugin (V : StateValues) (E : Externals P) (t : Traced P) (ev : Event) :
    (stepTraced V E t ev).plugin = step E t.plugin ev := by
  cases ev with
  | submit msg => rfl
  | tick curTime angle velocity =>
    simp only [stepTraced]
    split_ifs <;> rfl

/-- The members of a run followed on the integer are those of the run. -/
theorem runTraced_plugin (V : StateValues) (E : Externals P) (evs : List Event) :
    ∀ t : Traced P, (runTraced V E t evs).plugin = run E t.plugin evs := by
  induction evs with
  | nil =>
    intro t
    rfl
  | cons e evs ih =>
    intro t
    have h := ih (stepTraced V E t e)
    rw [stepTraced_plugin] at h
    exact h

/-- One event keeps the integer among the values of the enumerators and the count of
`default` branches at zero. -/
theorem stepTraced_mem (V : StateValues) (E : Externals P) (t : Traced P) (ev : Event)
    (hm : t.handStateValue ∈ V.enumerators) (hu : t.unrecognized = 0) :
    (stepTraced V E t ev).handStateValue ∈ V.enumerators ∧
      (stepTraced V E t ev).unrecognized = 0 := by
  cases ev with
  | submit msg => exact ⟨hm, hu⟩
  | tick curTime angle velocity =>
    by_cases ht : curTime > t.plugin.lastControllerUpdateTime
    · simp only [stepTraced, if_pos ht]
      refine ⟨StateTransitionsValue_mem V E _ _, ?_⟩
      rw [if_neg (switchCase_of_mem V _ (StateTransitionsValue_mem V E _ _))]
      exact hu
    · simp only [stepTraced, if_neg ht]
      exact ⟨hm, hu⟩

/-- Along a run the integer stays among the values of the enumerators and no `default`
branch is taken. -/
theorem runTraced_mem (V : StateValues) (E : Externals P) (evs : List Event) :
    ∀ t : Traced P, t.handStateValue ∈ V.enumerators → t.unrecognized = 0 →
      (runTraced V E t evs).handStateValue ∈ V.enumerators ∧
        (runTraced V E t evs).unrecognized = 0 := by
  induction evs with
  | nil =>
    intro t hm hu
    exact ⟨hm, hu⟩
  | cons e evs ih =>
    intro t hm hu
    have h := stepTraced_mem V E t e hm hu
    exact ih (stepTraced V E t e) h.1 h.2

/-- One event keeps the integer equal to the value of the state of the embedding. -/
theorem stepTraced_value (V : StateValues) (hV : V.Distinct) (E : Externals P)
    (t : Traced P) (ev : Event) (h : t.handStateValue = V.value t.plugin.handState) :
    (stepTraced V E t ev).handStateValue = V.value (stepTraced V E t ev).plugin.handState := by
  cases ev with
  | submit msg =>
    have hp : (stepTraced V E t (Event.submit msg)).plugin.handState = t.plugin.handState :=
      (SetHandleCommand_handState msg t.plugin).1
    rw [hp]
    exact h
  | tick curTime angle velocity =>
    by_cases ht : curTime > t.plugin.lastControllerUpdateTime
    · have hm := (UpdateStates_members E curTime (sense t.plugin angle velocity) ht).1
      simp only [stepTraced, if_pos ht, step]
      rw [hm, h]
      exact StateTransitionsValue_value V hV E _
    · have hp : UpdateStates E curTime (sense t.plugin angle velocity) =
          sense t.plugin angle velocity := by
        have ht2 : ¬ curTime > (sense t.plugin angle velocity).lastControllerUpdateTime := ht
        simp only [UpdateStates]
        rw [if_neg ht2]
      simp only [stepTraced, if_neg ht, step]
      rw [hp]
      exact h

/-- Along a run the integer is the value of the state of the embedding. -/
theorem runTraced_value (V : StateValues) (hV : V.Distinct) (E : Externals P)
    (evs : List Event) :
    ∀ t : Traced P, t.handStateValue = V.value t.plugin.handState →
      (runTraced V E t evs).handStateValue =
        V.value (runTraced V E t evs).plugin.handState := by
  induction evs with
  | nil =>
    intro t h
    exact h
  | cons e evs ih =>
    intro t h
    exact ih (stepTraced V E t e) (stepTraced_value V hV E t e h)

/-! ## Facts about the concrete instances -/

theorem modeChangeRequested_not_open :
    IsHandFullyOpen exampleExternals modeChangeRequested = false := by
  rw [IsHandFullyOpen_eq]
  norm_num [modeChangeRequested, SetHandleCommand, VerifyCommand_eq, halfClosedHand,
    Plugin.init, halfClosedJoints, exampleExternals]

theorem modeChangeOpened_open : IsHandFullyOpen exampleExternals modeChangeOpened = true := by
  rw [IsHandFullyOpen_eq]
  norm_num [modeChangeOpened, openJoints, exampleExternals]

theorem autoReleaseRequested_not_open :
    IsHandFullyOpen exampleExternals autoReleaseRequested = false := by
  rw [IsHandFullyOpen_eq]
  norm_num [autoReleaseRequested, halfClosedHand, Plugin.init, halfClosedJoints,
    exampleExternals]

theorem emergencyAccepted_facts :
    (SetHandleCommand emergencyCommand openHand).handleCommand = emergencyCommand ∧
      (SetHandleCommand emergencyCommand openHand).handleState = {} ∧
      (SetHandleCommand emergencyCommand openHand).lastControllerUpdateTime = 0 ∧
      (SetHandleCommand emergencyCommand openHand).joints = openJoints := by
  have hv : VerifyCommand emergencyCommand = true := by decide
  simp [SetHandleCommand, hv, openHand, Plugin.init]

theorem emergencyAccepted_open :
    IsHandFullyOpen exampleExternals (SetHandleCommand emergencyCommand openHand) = true := by
  rw [IsHandFullyOpen_eq, emergencyAccepted_facts.2.2.2]
  norm_num [openJoints, exampleExternals]

theorem emergencyFirstTick_open :
    IsHandFullyOpen exampleExternals emergencyFirstTick = true :=
  (IsHandFullyOpen_of_jointReading exampleExternals _ _
    (UpdateStates_jointReading exampleExternals 1 _)).trans emergencyAccepted_open

theorem emergencyFirstTick_facts :
    emergencyFirstTick.handleCommand =
        { rACT := 1, rGTO := 1, rATR := 1, rPRA := 0, rPRB := 0, rPRC := 0 } ∧
      emergencyFirstTick.handleState.gPRA = 200 ∧
      emergencyFirstTick.handleState.gPRB = 200 ∧
      emergencyFirstTick.handleState.gPRC = 200 ∧
      emergencyFirstTick.lastControllerUpdateTime = 1 := by
  obtain ⟨hc, hs, hl, -⟩ := emergencyAccepted_facts
  have ht : (1 : ℚ) >
      (SetHandleCommand emergencyCommand openHand).lastControllerUpdateTime := by
    rw [hl]
    norm_num
  have hE := UpdateStates_emergency_open exampleExternals 1 _ ht
    (by rw [hc]; decide) (by rw [hc]; decide) emergencyAccepted_open
  have hecho := UpdateStates_echo exampleExternals 1 _ ht
  have htime := UpdateStates_time exampleExternals 1 _ ht
  rw [hc, hs] at hE
  rw [hc] at hecho
  exact ⟨hE.2, hecho.1, hecho.2.1, hecho.2.2, htime⟩

theorem emergencyFirstTick_at_rest (i : Nat) (hi : i < NumJoints) :
    (emergencyFirstTick.joints i).force = 0 := by
  have hi' : i = 0 ∨ i = 1 ∨ i = 2 ∨ i = 3 ∨ i = 4 := by
    unfold NumJoints at hi
    omega
  rcases hi' with rfl | rfl | rfl | rfl | rfl <;>
    norm_num [emergencyFirstTick, UpdateStates, SetHandleCommand, VerifyCommand_eq, openHand,
      Plugin.init, StateTransitions, StateActions, emergencyCommand, IsHandFullyOpen_eq,
      StopHand, UpdatePIDControl, GetAndPublishHandleState, NumJoints, List.range_succ,
      UpdatePIDJoint, SetForce, Function.update, poseError, targetPose, exampleExternals,
      openJoints]

theorem stopFirstTick_facts :
    stopFirstTick.handleCommand = { rACT := 1, rGTO := 0 } ∧
      stopFirstTick.handState = State.Simplified ∧
      stopFirstTick.graspingMode = 0 ∧
      stopFirstTick.handleState.gPRA = 10 ∧
      stopFirstTick.handleState.gPRB = 20 ∧
      stopFirstTick.handleState.gPRC = 30 ∧
      stopFirstTick.lastControllerUpdateTime = 1 := by
  have hv : VerifyCommand stopCommand = true := by decide
  have h0 : SetHandleCommand stopCommand openHand =
      { openHand with prevCommand := openHand.handleCommand, handleCommand := stopCommand } := by
    simp [SetHandleCommand, hv]
  have ht : (1 : ℚ) >
      (SetHandleCommand stopCommand openHand).lastControllerUpdateTime := by
    rw [h0]
    decide
  have hS := UpdateStates_simplified_steady exampleExternals 1 _ ht
    (by rw [h0]; decide) (by rw [h0]; decide) (by rw [h0]; decide) (by rw [h0]; decide)
    (by rw [h0]; decide) (by rw [h0]; decide)
  have hecho := UpdateStates_echo exampleExternals 1 _ ht
  have hmode := (UpdateStates_members exampleExternals 1 _ ht).2.2.2.2
  refine ⟨?_, hS.1, ?_, ?_, ?_, ?_, UpdateStates_time exampleExternals 1 _ ht⟩
  · exact hS.2.trans (by rw [h0]; decide)
  · refine hmode.trans ?_
    rw [h0]
    decide
  · exact hecho.1.trans (by rw [h0]; decide)
  · exact hecho.2.1.trans (by rw [h0]; decide)
  · exact hecho.2.2.trans (by rw [h0]; decide)

/-- The tick at time 1 from `scissorSlow` with the requested speed of finger A replaced by
`x`: on the finger joints the speed set-point computed follows `x`, while the PID receives
the error `1/2` (joint angle minus the untouched target pose 0) and the force is `-1/2`. -/
theorem scissorTick_facts (x i : Nat) (h2 : 2 ≤ i) (h4 : i ≤ 4) :
    targetSpeed exampleExternals
        (UpdateStates exampleExternals 1
          { scissorSlow with handleCommand := { scissorSlow.handleCommand with rSPA := x } }) i =
        22 / 125 + (22 / 25 - 22 / 125) * (x : ℚ) / 255 ∧
      (UpdateStates exampleExternals 1
          { scissorSlow with handleCommand := { scissorSlow.handleCommand with rSPA := x } }
        ).posePID i = 1 / 2 ∧
      ((UpdateStates exampleExternals 1
          { scissorSlow with handleCommand := { scissorSlow.handleCommand with rSPA := x } }
        ).joints i).force = -(1 / 2) := by
  have ht : (1 : ℚ) >
      ({ scissorSlow with handleCommand := { scissorSlow.handleCommand with rSPA := x } } :
        Plugin ℚ).lastControllerUpdateTime := by
    norm_num [scissorSlow]
  obtain ⟨hst, hcmd⟩ := UpdateStates_simplified_steady exampleExternals 1 _ ht
    (by simp [scissorSlow]) (by simp [scissorSlow]) (by simp [scissorSlow])
    (by simp [scissorSlow]) (by simp [scissorSlow]) (by simp [scissorSlow])
  obtain ⟨hmode, -⟩ := UpdateStates_family exampleExternals 1 _ ht
    (by simp [InSimplifiedFamily, scissorSlow])
  have hi : i < NumJoints := by
    unfold NumJoints
    omega
  have hctl := UpdateStates_control exampleExternals 1 _ ht (by rw [hst]; decide) i hi
  have hmode' : (UpdateStates exampleExternals 1
      { scissorSlow with handleCommand := { scissorSlow.handleCommand with rSPA := x } }
      ).graspingMode = 3 := hmode
  have htar : targetPose exampleExternals (UpdateStates exampleExternals 1
      { scissorSlow with handleCommand := { scissorSlow.handleCommand with rSPA := x } }) i =
      0 := by
    rw [targetPose_finger _ _ i ⟨h2, h4⟩, hmode']
    simp [exampleExternals]
  have h0 : i ≠ 0 := by omega
  have h1 : i ≠ 1 := by omega
  rw [htar] at hctl
  refine ⟨?_, ?_, ?_⟩
  · simp only [targetSpeed, h0, h1, h2, h4, hmode', hcmd]
    simp [exampleExternals, scissorSlow]
  · rw [hctl.1]
    simp [exampleExternals, scissorSlow, halfClosedJoints]
  · rw [hctl.2]
    simp [exampleExternals, scissorSlow, halfClosedJoints]

theorem modeOneCommand_verified : VerifyCommand modeOneCommand = true := by decide

theorem deactivateCommand_verified : VerifyCommand deactivateCommand = true := by decide

/-- A hand of lower limits 0 held at mid travel is not fully open. -/
theorem held_not_open (s : Plugin ℚ) (hl : ∀ i, (s.joints i).lowerLimit = 0) :
    IsHandFullyOpen exampleExternals (sense s heldAngles restVelocities) = false := by
  rw [IsHandFullyOpen_eq]
  norm_num [sense, heldAngles, hl, exampleExternals]

/-- A hand of lower limits 0 sensed at angle 0 is fully open. -/
theorem opened_is_open (s : Plugin ℚ) (hl : ∀ i, (s.joints i).lowerLimit = 0) :
    IsHandFullyOpen exampleExternals (sense s openAngles restVelocities) = true := by
  rw [IsHandFullyOpen_eq]
  norm_num [sense, openAngles, hl, exampleExternals]

/-- Lower limits survive a command, a sensing and a tick. -/
theorem lowerLimit_kept (E : Externals P) (s : Plugin P) (msg : SModelRobotOutput)
    (curTime : ℚ) (angle velocity : Nat → ℚ) (i : Nat) :
    ((UpdateStates E curTime (sense (SetHandleCommand msg s) angle velocity)).joints i
      ).lowerLimit = (s.joints i).lowerLimit ∧
    ((UpdateStates E curTime (sense s angle velocity)).joints i).lowerLimit =
      (s.joints i).lowerLimit := by
  have h1 := UpdateStates_jointReading E curTime
    (sense (SetHandleCommand msg s) angle velocity) i
  have h2 := UpdateStates_jointReading E curTime (sense s angle velocity) i
  simp only [jointReading, Prod.mk.injEq] at h1 h2
  refine ⟨h1.2.2.1.trans ?_, h2.2.2.1.trans rfl⟩
  simp only [sense, (SetHandleCommand_handState msg s).2.2.1]

theorem bypassAdopted_facts :
    bypassAdopted.handState = State.ChangeModeInProgress ∧
      bypassAdopted.graspingMode = 1 ∧
      bypassAdopted.lastControllerUpdateTime = 1 ∧
      (∀ i, (bypassAdopted.joints i).lowerLimit = 0) := by
  have hs : SetHandleCommand modeOneCommand halfClosedHand =
      { halfClosedHand with
          prevCommand := halfClosedHand.handleCommand, handleCommand := modeOneCommand } :=
    SetHandleCommand_accept _ _ modeOneCommand_verified
  have ht : (1 : ℚ) > (sense (SetHandleCommand modeOneCommand halfClosedHand)
      heldAngles restVelocities).lastControllerUpdateTime := by
    rw [hs]
    decide
  have ho := held_not_open (SetHandleCommand modeOneCommand halfClosedHand)
    (by intro i; rw [hs]; rfl)
  obtain ⟨h1, h2, -⟩ := UpdateStates_mode_change_pending exampleExternals 1 _ ht
    (by rw [hs]; decide) (Or.inl (by rw [hs]; decide)) ho
  refine ⟨h1, h2.trans (by rw [hs]; rfl), UpdateStates_time exampleExternals 1 _ ht, ?_⟩
  intro i
  exact (lowerLimit_kept exampleExternals halfClosedHand modeOneCommand 1 heldAngles
    restVelocities i).1

theorem bypassDisabled_facts :
    bypassDisabled.handState = State.Disabled ∧
      bypassDisabled.graspingMode = 1 ∧
      bypassDisabled.lastControllerUpdateTime = 2 ∧
      (∀ i, (bypassDisabled.joints i).lowerLimit = 0) := by
  obtain ⟨-, hm, hl, hlim⟩ := bypassAdopted_facts
  have hs : SetHandleCommand deactivateCommand bypassAdopted =
      { bypassAdopted with
          prevCommand := bypassAdopted.handleCommand, handleCommand := deactivateCommand } :=
    SetHandleCommand_accept _ _ deactivateCommand_verified
  have ht : (2 : ℚ) > (sense (SetHandleCommand deactivateCommand bypassAdopted)
      heldAngles restVelocities).lastControllerUpdateTime := by
    rw [hs]
    show (2 : ℚ) > bypassAdopted.lastControllerUpdateTime
    rw [hl]
    norm_num
  obtain ⟨h1, h2⟩ := UpdateStates_disabled exampleExternals 2 _ ht (by rw [hs]; rfl)
  refine ⟨h1, ?_, UpdateStates_time exampleExternals 2 _ ht, ?_⟩
  · refine h2.trans ?_
    rw [hs]
    exact hm
  · intro i
    exact (lowerLimit_kept exampleExternals bypassAdopted deactivateCommand 2 heldAngles
      restVelocities i).1.trans (hlim i)

theorem bypassAdopted_family : InSimplifiedFamily bypassAdopted.handleCommand := by
  have hs : SetHandleCommand modeOneCommand halfClosedHand =
      { halfClosedHand with
          prevCommand := halfClosedHand.handleCommand, handleCommand := modeOneCommand } :=
    SetHandleCommand_accept _ _ modeOneCommand_verified
  have ht : (1 : ℚ) > (sense (SetHandleCommand modeOneCommand halfClosedHand)
      heldAngles restVelocities).lastControllerUpdateTime := by
    rw [hs]
    decide
  have ho := held_not_open (SetHandleCommand modeOneCommand halfClosedHand)
    (by intro i; rw [hs]; rfl)
  obtain ⟨-, -, h3⟩ := UpdateStates_mode_change_pending exampleExternals 1 _ ht
    (by rw [hs]; decide) (Or.inl (by rw [hs]; decide)) ho
  have h3' : bypassAdopted.handleCommand = _ := h3
  rw [h3', hs]
  decide

theorem bypassRun_end :
    (run exampleExternals halfClosedHand bypassRun).handState = State.Simplified ∧
      (run exampleExternals halfClosedHand bypassRun).graspingMode = 1 := by
  obtain ⟨hst, hm, hl, -⟩ := bypassDisabled_facts
  have hrun : run exampleExternals halfClosedHand bypassRun =
      UpdateStates exampleExternals 3
        (sense (SetHandleCommand modeOneCommand bypassDisabled) heldAngles restVelocities) :=
    rfl
  have hs : SetHandleCommand modeOneCommand bypassDisabled =
      { bypassDisabled with
          prevCommand := bypassDisabled.handleCommand, handleCommand := modeOneCommand } :=
    SetHandleCommand_accept _ _ modeOneCommand_verified
  have ht : (3 : ℚ) > (sense (SetHandleCommand modeOneCommand bypassDisabled)
      heldAngles restVelocities).lastControllerUpdateTime := by
    rw [hs]
    show (3 : ℚ) > bypassDisabled.lastControllerUpdateTime
    rw [hl]
    norm_num
  have hfam : InSimplifiedFamily (sense (SetHandleCommand modeOneCommand bypassDisabled)
      heldAngles restVelocities).handleCommand := by
    rw [hs]
    show InSimplifiedFamily modeOneCommand
    decide
  obtain ⟨h1, h2⟩ := UpdateStates_family exampleExternals 3 _ ht hfam
  rw [hrun]
  refine ⟨?_, ?_⟩
  · rw [h2, hs]
    have hne : ¬ ((modeOneCommand.rMOD ≠ bypassDisabled.graspingMode ∨
        bypassDisabled.handState = State.ChangeModeInProgress) ∧
        IsHandFullyOpen exampleExternals
          (sense { bypassDisabled with
              prevCommand := bypassDisabled.handleCommand, handleCommand := modeOneCommand }
            heldAngles restVelocities) = false) := by
      rw [hm, hst]
      rintro ⟨h | h, -⟩
      · exact h rfl
      · exact State.noConfusion h
    exact if_neg hne
  · rw [h1, hs]
    rfl

theorem bypassRun_never_open : ¬ openOnSomeTick exampleExternals halfClosedHand bypassRun := by
  have hiff : openOnSomeTick exampleExternals halfClosedHand bypassRun ↔
      (((1 : ℚ) > (SetHandleCommand modeOneCommand halfClosedHand).lastControllerUpdateTime ∧
          IsHandFullyOpen exampleExternals
            (sense (SetHandleCommand modeOneCommand halfClosedHand) heldAngles
              restVelocities) = true) ∨
        ((2 : ℚ) > (SetHandleCommand deactivateCommand bypassAdopted).lastControllerUpdateTime ∧
          IsHandFullyOpen exampleExternals
            (sense (SetHandleCommand deactivateCommand bypassAdopted) heldAngles
              restVelocities) = true) ∨
        ((3 : ℚ) > (SetHandleCommand modeOneCommand bypassDisabled).lastControllerUpdateTime ∧
          IsHandFullyOpen exampleExternals
            (sense (SetHandleCommand modeOneCommand bypassDisabled) heldAngles
              restVelocities) = true) ∨
        False) := Iff.rfl
  have hlim : ∀ (msg : SModelRobotOutput) (s : Plugin ℚ),
      (∀ i, (s.joints i).lowerLimit = 0) →
      ∀ i, ((SetHandleCommand msg s).joints i).lowerLimit = 0 := by
    intro msg s h i
    rw [(SetHandleCommand_handState msg s).2.2.1]
    exact h i
  have h1 := held_not_open _ (hlim modeOneCommand halfClosedHand (fun _ => rfl))
  have h2 := held_not_open _ (hlim deactivateCommand bypassAdopted bypassAdopted_facts.2.2.2)
  have h3 := held_not_open _ (hlim modeOneCommand bypassDisabled bypassDisabled_facts.2.2.2)
  rw [hiff, h1, h2, h3]
  simp

theorem completingRun_facts :
    ticksInSimplifiedFamily exampleExternals modeChangeRequested completingRun ∧
      (run exampleExternals modeChangeRequested completingRun).handState =
        State.Simplified := by
  obtain ⟨hst, hm, hl, hlim⟩ := bypassAdopted_facts
  have hfam := bypassAdopted_family
  have hrun : run exampleExternals modeChangeRequested completingRun =
      UpdateStates exampleExternals 2 (sense bypassAdopted openAngles restVelocities) := rfl
  have ht : (2 : ℚ) >
      (sense bypassAdopted openAngles restVelocities).lastControllerUpdateTime := by
    show (2 : ℚ) > bypassAdopted.lastControllerUpdateTime
    rw [hl]
    norm_num
  have ho := opened_is_open bypassAdopted hlim
  refine ⟨⟨fun _ => by decide, fun _ => hfam, trivial⟩, ?_⟩
  rw [hrun, (UpdateStates_family exampleExternals 2 _ ht hfam).2, ho]
  simp

theorem echoFirstTick_facts :
    (SetHandleCommand fingersCommand openHand).handleCommand = fingersCommand ∧
      echoFirstTick.handState = State.Simplified ∧
      echoFirstTick.handleCommand =
        { rACT := 1, rGTO := 1, rPRA := 10, rPRB := 10, rPRC := 10, rPRS := 40 } ∧
      (echoFirstTick.handleState.gPRA = 10 ∧ echoFirstTick.handleState.gPRB = 20 ∧
        echoFirstTick.handleState.gPRC = 30) ∧
      echoFirstTick.lastControllerUpdateTime = 1 := by
  have hv : VerifyCommand fingersCommand = true := by decide
  have h0 : SetHandleCommand fingersCommand openHand =
      { openHand with
          prevCommand := openHand.handleCommand, handleCommand := fingersCommand } :=
    SetHandleCommand_accept _ _ hv
  have ht : (1 : ℚ) >
      (SetHandleCommand fingersCommand openHand).lastControllerUpdateTime := by
    rw [h0]
    decide
  have hS := UpdateStates_simplified_steady exampleExternals 1 _ ht
    (by rw [h0]; decide) (by rw [h0]; decide) (by rw [h0]; decide) (by rw [h0]; decide)
    (by rw [h0]; decide) (by rw [h0]; decide)
  have hecho := UpdateStates_echo exampleExternals 1 _ ht
  refine ⟨by rw [h0], hS.1, ?_, ⟨?_, ?_, ?_⟩, UpdateStates_time exampleExternals 1 _ ht⟩
  · exact hS.2.trans (by rw [h0]; decide)
  · exact hecho.1.trans (by rw [h0]; decide)
  · exact hecho.2.1.trans (by rw [h0]; decide)
  · exact hecho.2.2.trans (by rw [h0]; decide)

/-! ## Command admission (C1) -/

/-- C1 (evaluation at the failing input): the command `rACT = 1, rMOD = 4` fits the `uint8`
message type and has its mode outside the legal range `[0,3]`, yet `VerifyCommand` passes it
(every range test reads `rACT`), and `SetHandleCommand` stores it from every plugin state:
`handleCommand` becomes that command and `prevCommand` the command accepted before. -/
theorem C1_out_of_range_mode_is_accepted :
    modeFourCommand.IsUInt8 ∧ ¬ modeFourCommand.InLegalRange ∧
      VerifyCommand modeFourCommand = true ∧
      ∀ s : Plugin P,
        (SetHandleCommand modeFourCommand s).handleCommand = modeFourCommand ∧
          (SetHandleCommand modeFourCommand s).prevCommand = s.handleCommand := by
  refine ⟨by decide, by decide, by decide, ?_⟩
  intro s
  have h : VerifyCommand modeFourCommand = true := by decide
  simp [SetHandleCommand, h]

/-! ## The grasp state machine (C2 - C7) -/

/-- C2: on a control tick the state is picked by strict priority from the command alone:
Disabled if `rACT = 0`; otherwise Emergency if `rATR = 1`; otherwise ICS if `rICS = 1`;
otherwise ICF if `rICF = 1` - whatever the mode field, the go flag, the joints and the state
before the tick are. -/
theorem C2_state_selection_priority (E : Externals P) (curTime : ℚ) (s : Plugin P)
    (ht : curTime > s.lastControllerUpdateTime) :
    (s.handleCommand.rACT = 0 → (UpdateStates E curTime s).handState = State.Disabled) ∧
    (s.handleCommand.rACT ≠ 0 → s.handleCommand.rATR = 1 →
      (UpdateStates E curTime s).handState = State.Emergency) ∧
    (s.handleCommand.rACT ≠ 0 → s.handleCommand.rATR ≠ 1 → s.handleCommand.rICS = 1 →
      (UpdateStates E curTime s).handState = State.ICS) ∧
    (s.handleCommand.rACT ≠ 0 → s.handleCommand.rATR ≠ 1 → s.handleCommand.rICS ≠ 1 →
      s.handleCommand.rICF = 1 → (UpdateStates E curTime s).handState = State.ICF) := by
  rw [(UpdateStates_members E curTime s ht).1]
  refine ⟨?_, ?_, ?_, ?_⟩
  · intro h0
    simp [StateTransitions, h0]
  · intro h0 h1
    simp [StateTransitions, h0, h1]
  · intro h0 h1 h2
    simp [StateTransitions, h0, h1, h2]
  · intro h0 h1 h2 h3
    simp [StateTransitions, h0, h1, h2, h3]

/-- C2 on the first tick after a command with `rACT = 1`, `rICS = 1`, `rICF = 1`, mode 2 is
accepted over a partly closed hand: individual scissor control wins over finger control. -/
theorem C2_state_selection_priority_witness :
    ((1 : ℚ) >
        (SetHandleCommand { rACT := 1, rMOD := 2, rICF := 1, rICS := 1 }
          halfClosedHand).lastControllerUpdateTime) ∧
      (UpdateStates exampleExternals 1
        (SetHandleCommand { rACT := 1, rMOD := 2, rICF := 1, rICS := 1 }
          halfClosedHand)).handState = State.ICS :=
  ⟨by decide,
    (C2_state_selection_priority exampleExternals 1
      (SetHandleCommand { rACT := 1, rMOD := 2, rICF := 1, rICS := 1 } halfClosedHand)
      (by decide)).2.2.1 (by decide) (by decide) (by decide)⟩

/-- C3: when the accepted command has `rACT = 0`, the tick ends in Disabled, the force set on
each actuated joint `0 .. NumJoints - 1` is exactly 0, and no PID state changes, whatever
`Update` would compute and whatever the other fields, the grasping mode and the joints are. -/
theorem C3_disabled_zero_force (E : Externals P) (curTime : ℚ) (s : Plugin P)
    (ht : curTime > s.lastControllerUpdateTime) (hact : s.handleCommand.rACT = 0) :
    (UpdateStates E curTime s).handState = State.Disabled ∧
      (∀ i, i < NumJoints → ((UpdateStates E curTime s).joints i).force = 0) ∧
      (UpdateStates E curTime s).posePID = s.posePID := by
  have hT : StateTransitions E { s with userHandleCommand := s.handleCommand } =
      { s with userHandleCommand := s.handleCommand, handState := State.Disabled } := by
    simp [StateTransitions, hact]
  have hA : StateActions E
      { s with userHandleCommand := s.handleCommand, handState := State.Disabled } =
      { s with userHandleCommand := s.handleCommand, handState := State.Disabled } := by
    simp [StateActions]
  have hD := UpdatePIDControl_disabled E (curTime - s.lastControllerUpdateTime)
    { s with userHandleCommand := s.handleCommand, handState := State.Disabled } rfl
  refine ⟨?_, ?_, ?_⟩
  · rw [(UpdateStates_members E curTime s ht).1, hT]
  · intro i hi
    simp only [UpdateStates, if_pos ht, GetAndPublishHandleState, hT, hA]
    exact hD.2 i hi
  · simp only [UpdateStates, if_pos ht, GetAndPublishHandleState, hT, hA]
    exact hD.1

/-- C3 at `deactivatedHand`, tick at time 1. -/
theorem C3_disabled_zero_force_witness :
    ((1 : ℚ) > deactivatedHand.lastControllerUpdateTime) ∧
      deactivatedHand.handleCommand.rACT = 0 ∧
      (UpdateStates exampleExternals 1 deactivatedHand).handState = State.Disabled ∧
      (∀ i, i < NumJoints →
        ((UpdateStates exampleExternals 1 deactivatedHand).joints i).force = 0) ∧
      (UpdateStates exampleExternals 1 deactivatedHand).posePID = deactivatedHand.posePID :=
  ⟨by decide, by decide,
    C3_disabled_zero_force exampleExternals 1 deactivatedHand (by decide) (by decide)⟩

/-- C4: on a tick whose command is in the simplified-control family and asks for a mode
other than the active one, the grasping mode becomes the command's `rMOD`,
`lastHandleCommand` becomes the command as it stood at the start of the tick, and the state
is ChangeModeInProgress when the hand is not fully open, Simplified when it is. -/
theorem C4_mode_change_entry (E : Externals P) (curTime : ℚ) (s : Plugin P)
    (ht : curTime > s.lastControllerUpdateTime)
    (hact : s.handleCommand.rACT = 1) (hatr : s.handleCommand.rATR = 0)
    (hics : s.handleCommand.rICS = 0) (hicf : s.handleCommand.rICF = 0)
    (hmod : s.handleCommand.rMOD ≠ s.graspingMode) :
    (UpdateStates E curTime s).graspingMode = s.handleCommand.rMOD ∧
      (UpdateStates E curTime s).lastHandleCommand = s.handleCommand ∧
      (IsHandFullyOpen E s = false →
        (UpdateStates E curTime s).handState = State.ChangeModeInProgress) ∧
      (IsHandFullyOpen E s = true →
        (UpdateStates E curTime s).handState = State.Simplified) := by
  obtain ⟨h1, -, -, h4, h5⟩ := UpdateStates_members E curTime s ht
  rw [h1, h4, h5]
  have hopen : ∀ s' : Plugin P, s'.joints = s.joints →
      IsHandFullyOpen E s' = IsHandFullyOpen E s := IsHandFullyOpen_congr E s
  cases ho : IsHandFullyOpen E s <;>
    simp [StateTransitions, hact, hatr, hics, hicf, hmod, hopen, ho]

/-- C4 at `modeChangeRequested`, tick at time 1: mode 1 is adopted, the command is
remembered, the state is ChangeModeInProgress. -/
theorem C4_mode_change_entry_witness :
    ((1 : ℚ) > modeChangeRequested.lastControllerUpdateTime) ∧
      (modeChangeRequested.handleCommand.rACT = 1 ∧ modeChangeRequested.handleCommand.rATR = 0 ∧
        modeChangeRequested.handleCommand.rICS = 0 ∧
        modeChangeRequested.handleCommand.rICF = 0) ∧
      modeChangeRequested.handleCommand.rMOD ≠ modeChangeRequested.graspingMode ∧
      IsHandFullyOpen exampleExternals modeChangeRequested = false ∧
      (UpdateStates exampleExternals 1 modeChangeRequested).graspingMode = 1 ∧
      (UpdateStates exampleExternals 1 modeChangeRequested).lastHandleCommand =
        { rACT := 1, rMOD := 1, rGTO := 1, rPRA := 100 } ∧
      (UpdateStates exampleExternals 1 modeChangeRequested).handState =
        State.ChangeModeInProgress :=
  have h := C4_mode_change_entry exampleExternals 1 modeChangeRequested (by decide)
    (by decide) (by decide) (by decide) (by decide) (by decide)
  ⟨by decide, by decide, by decide, modeChangeRequested_not_open, h.1, h.2.1,
    h.2.2.1 modeChangeRequested_not_open⟩

/-- C5: a tick that starts in ChangeModeInProgress with a simplified-family command, while
some finger joint 2..4 is not below its lower limit plus one degree (`IsHandFullyOpen` is
false), stays in ChangeModeInProgress and leaves the forced release as the effective command
(`rPRA = rPRB = rPRC = 0`, `rSPA = rSPB = rSPC = 127`, all other fields as requested); and
such a tick ends in Simplified only if `IsHandFullyOpen` is true. -/
theorem C5_mode_change_waits_for_open_hand (E : Externals P) (curTime : ℚ) (s : Plugin P)
    (ht : curTime > s.lastControllerUpdateTime)
    (hst : s.handState = State.ChangeModeInProgress)
    (hact : s.handleCommand.rACT = 1) (hatr : s.handleCommand.rATR = 0)
    (hics : s.handleCommand.rICS = 0) (hicf : s.handleCommand.rICF = 0) :
    ((∃ i, 2 ≤ i ∧ i ≤ 4 ∧
        ¬ ((s.joints i).angle < (s.joints i).lowerLimit + E.oneDegree)) →
      IsHandFullyOpen E s = false ∧
        (UpdateStates E curTime s).handState = State.ChangeModeInProgress ∧
        (UpdateStates E curTime s).handleCommand =
          { s.handleCommand with
              rPRA := 0, rPRB := 0, rPRC := 0, rSPA := 127, rSPB := 127, rSPC := 127 }) ∧
    ((UpdateStates E curTime s).handState = State.Simplified →
      IsHandFullyOpen E s = true) := by
  obtain ⟨h1, h2, -, -, -⟩ := UpdateStates_members E curTime s ht
  rw [h1, h2]
  have hopen : ∀ s' : Plugin P, s'.joints = s.joints →
      IsHandFullyOpen E s' = IsHandFullyOpen E s := IsHandFullyOpen_congr E s
  have hT : IsHandFullyOpen E s = false →
      StateTransitions E { s with userHandleCommand := s.handleCommand } =
        if s.handleCommand.rMOD ≠ s.graspingMode then
          { s with
              userHandleCommand := s.handleCommand
              handState := State.ChangeModeInProgress
              lastHandleCommand := s.handleCommand
              graspingMode := s.handleCommand.rMOD }
        else { s with userHandleCommand := s.handleCommand } := by
    intro ho
    by_cases hm : s.handleCommand.rMOD = s.graspingMode <;>
      simp [StateTransitions, hact, hatr, hics, hicf, hst, hopen, ho, hm]
  refine ⟨?_, ?_⟩
  · intro hex
    have ho : IsHandFullyOpen E s = false := (IsHandFullyOpen_false_iff E s).2 hex
    rw [hT ho]
    refine ⟨ho, ?_, ?_⟩
    · split_ifs <;> simp [hst]
    · split_ifs <;> simp [StateActions, ReleaseHand, hst]
  · intro hs
    by_contra hc
    have ho : IsHandFullyOpen E s = false := by simpa using hc
    rw [hT ho] at hs
    by_cases hm : s.handleCommand.rMOD ≠ s.graspingMode
    · rw [if_pos hm] at hs
      simp at hs
    · rw [if_neg hm] at hs
      simp [hst] at hs

/-- C5 at `modeChangeOngoing` (finger joint 2 at mid travel), tick at time 2. -/
theorem C5_mode_change_waits_for_open_hand_witness :
    ((2 : ℚ) > modeChangeOngoing.lastControllerUpdateTime) ∧
      modeChangeOngoing.handState = State.ChangeModeInProgress ∧
      (modeChangeOngoing.handleCommand.rACT = 1 ∧ modeChangeOngoing.handleCommand.rATR = 0 ∧
        modeChangeOngoing.handleCommand.rICS = 0 ∧ modeChangeOngoing.handleCommand.rICF = 0) ∧
      IsHandFullyOpen exampleExternals modeChangeOngoing = false ∧
      (UpdateStates exampleExternals 2 modeChangeOngoing).handState =
        State.ChangeModeInProgress ∧
      (UpdateStates exampleExternals 2 modeChangeOngoing).handleCommand =
        { rACT := 1, rMOD := 1, rGTO := 1, rPRA := 0, rPRB := 0, rPRC := 0,
          rSPA := 127, rSPB := 127, rSPC := 127 } :=
  ⟨by decide, by decide, by decide,
    (C5_mode_change_waits_for_open_hand exampleExternals 2 modeChangeOngoing (by decide)
      (by decide) (by decide) (by decide) (by decide) (by decide)).1
      ⟨2, by decide, by decide, by
        norm_num [modeChangeOngoing, halfClosedJoints, exampleExternals]⟩⟩

/-- C6: on a tick in the simplified family on which the state after the mode comparison is
ChangeModeInProgress (the mode differs, or the state already was ChangeModeInProgress) and
the hand is fully open, step 1 sets `prevCommand` to the `handleCommand` it found, restores
`handleCommand` to `lastHandleCommand` (the command that triggered the mode change) and sets
the state to Simplified; after the whole tick the state is Simplified, `prevCommand` is the
pre-restore command, and `handleCommand` is the restored command with finger A replicated
onto B and C (and, when its `rGTO` is 0, the three positions then set by the stop action). -/
theorem C6_mode_change_completion (E : Externals P) (curTime : ℚ) (s : Plugin P)
    (ht : curTime > s.lastControllerUpdateTime)
    (hact : s.handleCommand.rACT = 1) (hatr : s.handleCommand.rATR = 0)
    (hics : s.handleCommand.rICS = 0) (hicf : s.handleCommand.rICF = 0)
    (hcm : s.handleCommand.rMOD ≠ s.graspingMode ∨ s.handState = State.ChangeModeInProgress)
    (hopen : IsHandFullyOpen E s = true) :
    ((StateTransitions E { s with userHandleCommand := s.handleCommand }).handleCommand =
        triggeringCommand s ∧
      (StateTransitions E { s with userHandleCommand := s.handleCommand }).prevCommand =
        s.handleCommand ∧
      (StateTransitions E { s with userHandleCommand := s.handleCommand }).handState =
        State.Simplified) ∧
    (UpdateStates E curTime s).handState = State.Simplified ∧
    (UpdateStates E curTime s).prevCommand = s.handleCommand ∧
    (UpdateStates E curTime s).lastHandleCommand = triggeringCommand s ∧
    (UpdateStates E curTime s).handleCommand =
      (if (triggeringCommand s).rGTO = 0 then
        { triggeringCommand s with
            rPRA := s.handleState.gPRA, rPRB := s.handleState.gPRB, rPRC := s.handleState.gPRC
            rSPB := (triggeringCommand s).rSPA, rSPC := (triggeringCommand s).rSPA
            rFRB := (triggeringCommand s).rFRA, rFRC := (triggeringCommand s).rFRA }
      else
        { triggeringCommand s with
            rPRB := (triggeringCommand s).rPRA, rPRC := (triggeringCommand s).rPRA
            rSPB := (triggeringCommand s).rSPA, rSPC := (triggeringCommand s).rSPA
            rFRB := (triggeringCommand s).rFRA, rFRC := (triggeringCommand s).rFRA }) := by
  obtain ⟨h1, h2, h3, h4, -⟩ := UpdateStates_members E curTime s ht
  rw [h1, h2, h3, h4]
  have hop : ∀ s' : Plugin P, s'.joints = s.joints →
      IsHandFullyOpen E s' = IsHandFullyOpen E s := IsHandFullyOpen_congr E s
  have hT : StateTransitions E { s with userHandleCommand := s.handleCommand } =
      { s with
          userHandleCommand := s.handleCommand
          prevCommand := s.handleCommand
          handleCommand := triggeringCommand s
          lastHandleCommand := triggeringCommand s
          graspingMode := s.handleCommand.rMOD
          handState := State.Simplified } := by
    by_cases hm : s.handleCommand.rMOD = s.graspingMode
    · have hst : s.handState = State.ChangeModeInProgress := by
        rcases hcm with h | h
        · exact absurd hm h
        · exact h
      simp [StateTransitions, triggeringCommand, hact, hatr, hics, hicf, hop, hopen, hm, hst]
    · simp [StateTransitions, triggeringCommand, hact, hatr, hics, hicf, hop, hopen, hm]
  rw [hT]
  refine ⟨⟨rfl, rfl, rfl⟩, rfl, rfl, rfl, ?_⟩
  simp only [StateActions, FollowFingerA, StopHand]
  split_ifs <;> rfl

/-- C6 at `modeChangeOpened`, tick at time 3: the release command moves to `prevCommand`,
the remembered command comes back with finger A replicated, the state is Simplified. -/
theorem C6_mode_change_completion_witness :
    ((3 : ℚ) > modeChangeOpened.lastControllerUpdateTime) ∧
      (modeChangeOpened.handleCommand.rACT = 1 ∧ modeChangeOpened.handleCommand.rATR = 0 ∧
        modeChangeOpened.handleCommand.rICS = 0 ∧ modeChangeOpened.handleCommand.rICF = 0) ∧
      modeChangeOpened.handState = State.ChangeModeInProgress ∧
      IsHandFullyOpen exampleExternals modeChangeOpened = true ∧
      (UpdateStates exampleExternals 3 modeChangeOpened).handState = State.Simplified ∧
      (UpdateStates exampleExternals 3 modeChangeOpened).prevCommand =
        modeChangeOpened.handleCommand ∧
      (UpdateStates exampleExternals 3 modeChangeOpened).handleCommand =
        { rACT := 1, rMOD := 1, rGTO := 1, rPRA := 100, rSPA := 50, rFRA := 60,
          rPRB := 100, rSPB := 50, rFRB := 60, rPRC := 100, rSPC := 50, rFRC := 60 } :=
  have h := C6_mode_change_completion exampleExternals 3 modeChangeOpened (by decide)
    (by decide) (by decide) (by decide) (by decide) (Or.inr (by decide))
    modeChangeOpened_open
  ⟨by decide, by decide, by decide, modeChangeOpened_open, h.2.1, h.2.2.1,
    h.2.2.2.2.trans (by decide)⟩

/-- C7: on a tick with `rACT = 1` and `rATR = 1` over a hand that is not fully open, the
state after the tick is Emergency and the effective command is the accepted one with
`rPRA = rPRB = rPRC = 0` and `rSPA = rSPB = rSPC = 127`, every other field unchanged. -/
theorem C7_emergency_release (E : Externals P) (curTime : ℚ) (s : Plugin P)
    (ht : curTime > s.lastControllerUpdateTime)
    (hact : s.handleCommand.rACT = 1) (hatr : s.handleCommand.rATR = 1)
    (hopen : IsHandFullyOpen E s = false) :
    (UpdateStates E curTime s).handState = State.Emergency ∧
      (UpdateStates E curTime s).handleCommand =
        { s.handleCommand with
            rPRA := 0, rPRB := 0, rPRC := 0, rSPA := 127, rSPB := 127, rSPC := 127 } := by
  obtain ⟨h1, h2, -, -, -⟩ := UpdateStates_members E curTime s ht
  rw [h1, h2]
  have hT : StateTransitions E { s with userHandleCommand := s.handleCommand } =
      { s with userHandleCommand := s.handleCommand, handState := State.Emergency } := by
    simp [StateTransitions, hact, hatr]
  have ho : IsHandFullyOpen E
      { s with userHandleCommand := s.handleCommand, handState := State.Emergency } = false := by
    exact (IsHandFullyOpen_congr E s _ rfl).trans hopen
  rw [hT]
  refine ⟨rfl, ?_⟩
  simp [StateActions, ho, ReleaseHand]

/-- C7 at `autoReleaseRequested`, tick at time 1. -/
theorem C7_emergency_release_witness :
    ((1 : ℚ) > autoReleaseRequested.lastControllerUpdateTime) ∧
      (autoReleaseRequested.handleCommand.rACT = 1 ∧
        autoReleaseRequested.handleCommand.rATR = 1) ∧
      IsHandFullyOpen exampleExternals autoReleaseRequested = false ∧
      (UpdateStates exampleExternals 1 autoReleaseRequested).handState = State.Emergency ∧
      (UpdateStates exampleExternals 1 autoReleaseRequested).handleCommand =
        { rACT := 1, rMOD := 2, rGTO := 1, rATR := 1, rPRA := 0, rSPA := 127, rFRA := 9,
          rPRB := 0, rSPB := 127, rPRC := 0, rSPC := 127, rPRS := 5 } :=
  have h := C7_emergency_release exampleExternals 1 autoReleaseRequested (by decide)
    (by decide) (by decide) autoReleaseRequested_not_open
  ⟨by decide, by decide, autoReleaseRequested_not_open, h.1, h.2.trans (by decide)⟩

/-! ## The stop action (C8) -/

/-- C8 (evaluation at the failing input): from the constructor over a fully open hand,
accept `emergencyCommand` and run two ticks. The first tick leaves zero force on the five
actuated joints (the hand stays at rest). On the second tick the state is Emergency, the
hand is fully open, so `StopHand` runs; the measured positions are 0 (before the tick, in
the report `StopHand` reads, and in the report of the tick itself), yet the effective
requested positions after the tick are 200: `StopHand` copies the echoes `gPRA/gPRB/gPRC`
of the requested positions, not the measured `gPOA/gPOB/gPOC`. -/
theorem C8_stop_copies_echo_not_measured_position :
    (∀ i, i < NumJoints → (emergencyFirstTick.joints i).force = 0) ∧
      emergencySecondTick.handState = State.Emergency ∧
      IsHandFullyOpen exampleExternals emergencyFirstTick = true ∧
      (emergencyFirstTick.handleState.gPOA = 0 ∧ emergencyFirstTick.handleState.gPOB = 0 ∧
        emergencyFirstTick.handleState.gPOC = 0) ∧
      (emergencySecondTick.handleState.gPOA = 0 ∧ emergencySecondTick.handleState.gPOB = 0 ∧
        emergencySecondTick.handleState.gPOC = 0) ∧
      emergencySecondTick.handleCommand.rPRA = 200 ∧
      emergencySecondTick.handleCommand.rPRB = 200 ∧
      emergencySecondTick.handleCommand.rPRC = 200 := by
  obtain ⟨hc, hA, hB, hC, hl⟩ := emergencyFirstTick_facts
  obtain ⟨-, -, hl0, hj0⟩ := emergencyAccepted_facts
  have ht0 : (1 : ℚ) >
      (SetHandleCommand emergencyCommand openHand).lastControllerUpdateTime := by
    rw [hl0]
    norm_num
  have ht : (2 : ℚ) > emergencyFirstTick.lastControllerUpdateTime := by
    rw [hl]
    norm_num
  have hE := UpdateStates_emergency_open exampleExternals 2 emergencyFirstTick ht
    (by simp [hc]) (by simp [hc]) emergencyFirstTick_open
  have hlow0 : ∀ j, ((SetHandleCommand emergencyCommand openHand).joints j).angle =
      ((SetHandleCommand emergencyCommand openHand).joints j).lowerLimit := by
    intro j
    rw [hj0]
    rfl
  have hlow1 : ∀ j, (emergencyFirstTick.joints j).angle =
      (emergencyFirstTick.joints j).lowerLimit := by
    intro j
    have h := UpdateStates_jointReading exampleExternals 1
      (SetHandleCommand emergencyCommand openHand) j
    simp only [jointReading, Prod.mk.injEq] at h
    have h1 : (emergencyFirstTick.joints j).angle =
        ((SetHandleCommand emergencyCommand openHand).joints j).angle := h.1
    have h2 : (emergencyFirstTick.joints j).lowerLimit =
        ((SetHandleCommand emergencyCommand openHand).joints j).lowerLimit := h.2.2.1
    rw [h1, h2]
    exact hlow0 j
  refine ⟨emergencyFirstTick_at_rest, hE.1, emergencyFirstTick_open,
    UpdateStates_measured_at_lower exampleExternals 1 _ ht0 hlow0,
    UpdateStates_measured_at_lower exampleExternals 2 _ ht hlow1, ?_, ?_, ?_⟩
  · show (UpdateStates exampleExternals 2 emergencyFirstTick).handleCommand.rPRA = 200
    rw [hE.2]
    exact hA
  · show (UpdateStates exampleExternals 2 emergencyFirstTick).handleCommand.rPRB = 200
    rw [hE.2]
    exact hB
  · show (UpdateStates exampleExternals 2 emergencyFirstTick).handleCommand.rPRC = 200
    rw [hE.2]
    exact hC

/-! ## Replication in Simplified (C9) -/

/-- C9 (counterexample): from the constructor, accept `stopCommand` (go flag 0, positions
10, 20, 30) and run two ticks. The second tick ends in Simplified, and the effective command
has `rPRA = 10`, `rPRB = 20`, `rPRC = 30`: with the go flag at 0 the stop action overwrites
the replicated positions finger by finger, so B and C do not equal A. -/
theorem C9_stop_breaks_position_replication :
    stopSecondTick.handState = State.Simplified ∧
      stopSecondTick.handleCommand.rPRA = 10 ∧
      stopSecondTick.handleCommand.rPRB = 20 ∧
      stopSecondTick.handleCommand.rPRC = 30 ∧
      ¬ (stopSecondTick.handleCommand.rPRB = stopSecondTick.handleCommand.rPRA ∧
          stopSecondTick.handleCommand.rPRC = stopSecondTick.handleCommand.rPRA) := by
  obtain ⟨hc, hs, hm, hA, hB, hC, hl⟩ := stopFirstTick_facts
  have ht : (2 : ℚ) > stopFirstTick.lastControllerUpdateTime := by
    rw [hl]
    norm_num
  have hS := UpdateStates_simplified_steady exampleExternals 2 stopFirstTick ht
    (by simp [hc]) (by simp [hc]) (by simp [hc]) (by simp [hc]) (by simp [hc, hm])
    (by simp [hs])
  have h2 : stopSecondTick.handleCommand =
      { rACT := 1, rGTO := 0, rPRA := 10, rPRB := 20, rPRC := 30 } := by
    refine hS.2.trans ?_
    simp [hc, hA, hB, hC]
  refine ⟨hS.1, ?_, ?_, ?_, ?_⟩ <;> simp [h2]

/-- C9 (amended): after every tick that ends in Simplified, fingers B and C carry finger A's
requested speed and force (`rSPB = rSPC = rSPA`, `rFRB = rFRC = rFRA`) whatever the go flag
and the previous report are, and they carry finger A's requested position
(`rPRB = rPRC = rPRA`) when the go flag of the effective command is not 0. -/
theorem C9_simplified_replication (E : Externals P) (curTime : ℚ) (s : Plugin P)
    (ht : curTime > s.lastControllerUpdateTime)
    (hres : (UpdateStates E curTime s).handState = State.Simplified) :
    (UpdateStates E curTime s).handleCommand.rSPB =
        (UpdateStates E curTime s).handleCommand.rSPA ∧
      (UpdateStates E curTime s).handleCommand.rSPC =
        (UpdateStates E curTime s).handleCommand.rSPA ∧
      (UpdateStates E curTime s).handleCommand.rFRB =
        (UpdateStates E curTime s).handleCommand.rFRA ∧
      (UpdateStates E curTime s).handleCommand.rFRC =
        (UpdateStates E curTime s).handleCommand.rFRA ∧
      ((UpdateStates E curTime s).handleCommand.rGTO ≠ 0 →
        (UpdateStates E curTime s).handleCommand.rPRB =
            (UpdateStates E curTime s).handleCommand.rPRA ∧
          (UpdateStates E curTime s).handleCommand.rPRC =
            (UpdateStates E curTime s).handleCommand.rPRA) := by
  obtain ⟨c, hc⟩ := UpdateStates_simplified E curTime s ht hres
  rw [hc]
  by_cases hg : c.rGTO = 0
  · simp [hg]
  · simp [hg]

/-- C9 (amended) at `closeRequested`, tick at time 1: the tick ends in Simplified with the
go flag 1, and B and C carry position 200, speed 50 and force 60. -/
theorem C9_simplified_replication_witness :
    ((1 : ℚ) > closeRequested.lastControllerUpdateTime) ∧
      (UpdateStates exampleExternals 1 closeRequested).handState = State.Simplified ∧
      (UpdateStates exampleExternals 1 closeRequested).handleCommand.rGTO ≠ 0 ∧
      (UpdateStates exampleExternals 1 closeRequested).handleCommand.rSPB =
        (UpdateStates exampleExternals 1 closeRequested).handleCommand.rSPA ∧
      (UpdateStates exampleExternals 1 closeRequested).handleCommand.rSPC =
        (UpdateStates exampleExternals 1 closeRequested).handleCommand.rSPA ∧
      (UpdateStates exampleExternals 1 closeRequested).handleCommand.rFRB =
        (UpdateStates exampleExternals 1 closeRequested).handleCommand.rFRA ∧
      (UpdateStates exampleExternals 1 closeRequested).handleCommand.rFRC =
        (UpdateStates exampleExternals 1 closeRequested).handleCommand.rFRA ∧
      (UpdateStates exampleExternals 1 closeRequested).handleCommand.rPRB =
        (UpdateStates exampleExternals 1 closeRequested).handleCommand.rPRA ∧
      (UpdateStates exampleExternals 1 closeRequested).handleCommand.rPRC =
        (UpdateStates exampleExternals 1 closeRequested).handleCommand.rPRA ∧
      (UpdateStates exampleExternals 1 closeRequested).handleCommand.rPRA = 200 :=
  have h := C9_simplified_replication exampleExternals 1 closeRequested (by decide)
    (by decide)
  ⟨by decide, by decide, by decide, h.1, h.2.1, h.2.2.1, h.2.2.2.1,
    (h.2.2.2.2 (by decide)).1, (h.2.2.2.2 (by decide)).2, by decide⟩

/-! ## Accepting a valid command (C10) -/

/-- C10: a command whose fields are all within their legal ranges is accepted:
`SetHandleCommand` moves the command accepted before to `prevCommand`, stores the incoming
one as `handleCommand`, and leaves every other member (hand state, grasping mode,
`lastHandleCommand`, `userHandleCommand`, status report, PID states, joints, clock) as it was. -/
theorem C10_valid_command_is_stored (msg : SModelRobotOutput) (s : Plugin P)
    (h : msg.InLegalRange) :
    SetHandleCommand msg s = { s with prevCommand := s.handleCommand, handleCommand := msg } := by
  have hv : VerifyCommand msg = true := by
    rw [VerifyCommand_eq]
    exact decide_eq_true h.1
  simp [SetHandleCommand, hv]

/-- C10 at the freshly constructed plugin and `closeCommand`. -/
theorem C10_valid_command_is_stored_witness :
    closeCommand.InLegalRange ∧
      SetHandleCommand closeCommand openHand =
        { openHand with prevCommand := openHand.handleCommand, handleCommand := closeCommand } :=
  ⟨by decide, C10_valid_command_is_stored closeCommand openHand (by decide)⟩

/-! ## The status report (C11 - C13) -/

/-- C11: object detection is the decision list of the source: the result is 0 when the joint
velocity exceeds the velocity tolerance (whatever the PID error and the two requested
positions are), otherwise 3 when the PID position error is below the pose tolerance,
otherwise 2 when the requested position is above the previous one, otherwise 1. The result
is one of 0, 1, 2, 3, and it is 2 exactly when the joint is not moving, the target is not
reached and the requested position increased. -/
theorem C11_object_detection_decision_list (E : Externals P) (s : Plugin P)
    (_index _rPR _prevrPR : Nat) :
    GetObjectDetection E s _index _rPR _prevrPR =
        (if (s.joints _index).velocity > E.VelTolerance then 0
          else if (E.GetErrors (s.posePID _index)).1 < E.PoseTolerance then 3
          else if _rPR > _prevrPR then 2
          else 1) ∧
      ((s.joints _index).velocity > E.VelTolerance →
        GetObjectDetection E s _index _rPR _prevrPR = 0) ∧
      (GetObjectDetection E s _index _rPR _prevrPR = 0 ∨
        GetObjectDetection E s _index _rPR _prevrPR = 1 ∨
        GetObjectDetection E s _index _rPR _prevrPR = 2 ∨
        GetObjectDetection E s _index _rPR _prevrPR = 3) ∧
      (GetObjectDetection E s _index _rPR _prevrPR = 2 ↔
        (¬ (s.joints _index).velocity > E.VelTolerance ∧
          ¬ (E.GetErrors (s.posePID _index)).1 < E.PoseTolerance ∧ _rPR > _prevrPR)) := by
  have hsub : ((_rPR : Int) - (_prevrPR : Int) > 0) ↔ _rPR > _prevrPR := by omega
  have hform : GetObjectDetection E s _index _rPR _prevrPR =
      (if (s.joints _index).velocity > E.VelTolerance then 0
        else if (E.GetErrors (s.posePID _index)).1 < E.PoseTolerance then 3
        else if _rPR > _prevrPR then 2
        else 1) := by
    simp only [GetObjectDetection, decide_eq_true_eq, hsub]
  rw [hform]
  refine ⟨rfl, ?_, ?_, ?_⟩
  · intro hv
    rw [if_pos hv]
  · split_ifs <;> simp
  · split_ifs <;> simp_all

/-- C12: the motion status `gSTA` that `GetAndPublishHandleState` writes is 0 when one of the
finger joints 2, 3, 4 has a velocity above the velocity tolerance; otherwise 3 when all
three PID position errors are below the pose tolerance, 2 when none is, 1 in the mixed
cases. It is one of 0, 1, 2, 3 and is fixed by these six comparisons alone. -/
theorem C12_motion_status (E : Externals P) (s : Plugin P) :
    (GetAndPublishHandleState E s).handleState.gSTA =
        (if (s.joints 2).velocity > E.VelTolerance ∨ (s.joints 3).velocity > E.VelTolerance ∨
            (s.joints 4).velocity > E.VelTolerance then 0
          else if (E.GetErrors (s.posePID 2)).1 < E.PoseTolerance ∧
              (E.GetErrors (s.posePID 3)).1 < E.PoseTolerance ∧
              (E.GetErrors (s.posePID 4)).1 < E.PoseTolerance then 3
          else if ¬ (E.GetErrors (s.posePID 2)).1 < E.PoseTolerance ∧
              ¬ (E.GetErrors (s.posePID 3)).1 < E.PoseTolerance ∧
              ¬ (E.GetErrors (s.posePID 4)).1 < E.PoseTolerance then 2
          else 1) ∧
      ((GetAndPublishHandleState E s).handleState.gSTA = 0 ∨
        (GetAndPublishHandleState E s).handleState.gSTA = 1 ∨
        (GetAndPublishHandleState E s).handleState.gSTA = 2 ∨
        (GetAndPublishHandleState E s).handleState.gSTA = 3) ∧
      (∀ s' : Plugin P,
        (∀ i, 2 ≤ i → i ≤ 4 →
          ((s'.joints i).velocity > E.VelTolerance ↔ (s.joints i).velocity > E.VelTolerance) ∧
          ((E.GetErrors (s'.posePID i)).1 < E.PoseTolerance ↔
            (E.GetErrors (s.posePID i)).1 < E.PoseTolerance)) →
        (GetAndPublishHandleState E s').handleState.gSTA =
          (GetAndPublishHandleState E s).handleState.gSTA) := by
  have hform : ∀ x : Plugin P, (GetAndPublishHandleState E x).handleState.gSTA =
      (if (x.joints 2).velocity > E.VelTolerance ∨ (x.joints 3).velocity > E.VelTolerance ∨
          (x.joints 4).velocity > E.VelTolerance then 0
        else if (E.GetErrors (x.posePID 2)).1 < E.PoseTolerance ∧
            (E.GetErrors (x.posePID 3)).1 < E.PoseTolerance ∧
            (E.GetErrors (x.posePID 4)).1 < E.PoseTolerance then 3
        else if ¬ (E.GetErrors (x.posePID 2)).1 < E.PoseTolerance ∧
            ¬ (E.GetErrors (x.posePID 3)).1 < E.PoseTolerance ∧
            ¬ (E.GetErrors (x.posePID 4)).1 < E.PoseTolerance then 2
        else 1) := by
    intro x
    simp only [GetAndPublishHandleState, motionStatus, Bool.or_eq_true, Bool.and_eq_true,
      decide_eq_true_eq, Bool.not_eq_true', decide_eq_false_iff_not, or_assoc, and_assoc]
  refine ⟨hform s, ?_, ?_⟩
  · rw [hform s]
    split_ifs <;> simp
  · intro s' h
    have h2 := h 2 (by norm_num) (by norm_num)
    have h3 := h 3 (by norm_num) (by norm_num)
    have h4 := h 4 (by norm_num) (by norm_num)
    simp only [hform, h2.1, h2.2, h3.1, h3.2, h4.1, h4.2]

/-- C13: the gripper status and the fault code of the report are functions of the hand state
alone: `gIMC` is 0 in Emergency, 2 in ChangeModeInProgress, 3 in every other state; `gFLT`
is 6 in ChangeModeInProgress, 7 in Disabled, 11 in Emergency, 0 in every other state. So
`gIMC` is one of 0, 2, 3, `gFLT` is one of 0, 6, 7, 11, and `gFLT = 0` holds exactly in the
states ICS, ICF and Simplified. -/
theorem C13_status_and_fault_from_state (E : Externals P) (s : Plugin P) :
    (GetAndPublishHandleState E s).handleState.gIMC =
        (match s.handState with
          | State.Emergency => 0
          | State.ChangeModeInProgress => 2
          | _ => 3) ∧
      (GetAndPublishHandleState E s).handleState.gFLT =
        (match s.handState with
          | State.ChangeModeInProgress => 6
          | State.Disabled => 7
          | State.Emergency => 11
          | _ => 0) ∧
      ((GetAndPublishHandleState E s).handleState.gIMC = 0 ∨
        (GetAndPublishHandleState E s).handleState.gIMC = 2 ∨
        (GetAndPublishHandleState E s).handleState.gIMC = 3) ∧
      ((GetAndPublishHandleState E s).handleState.gFLT = 0 ∨
        (GetAndPublishHandleState E s).handleState.gFLT = 6 ∨
        (GetAndPublishHandleState E s).handleState.gFLT = 7 ∨
        (GetAndPublishHandleState E s).handleState.gFLT = 11) ∧
      ((GetAndPublishHandleState E s).handleState.gFLT = 0 ↔
        (s.handState = State.ICS ∨ s.handState = State.ICF ∨
          s.handState = State.Simplified)) := by
  cases h : s.handState <;> simp [GetAndPublishHandleState, h]

/-! ## Pose targets and measured positions (C14 - C17) -/

/-- C14: finger round trip, over exact arithmetic. For a finger joint 2..4 with lower limit
below upper limit, a requested position `rPRA` in `[0,255]` and a grasping mode that gives
the fingers a pose target (Pinch, or any mode other than Scissor), a joint whose angle is
the target pose `UpdatePIDControl` computes is measured by `GetCurrentPosition`, in the same
mode, at exactly `rPRA` (the rounded value is `rPRA`, and so is the `uint8_t` returned). -/
theorem C14_finger_round_trip (E : Externals P) (s : Plugin P) (j : Nat)
    (hj : 2 ≤ j ∧ j ≤ 4)
    (hlim : (s.joints j).lowerLimit < (s.joints j).upperLimit)
    (hr : s.handleCommand.rPRA ≤ 255)
    (hmode : s.graspingMode = E.Pinch ∨ s.graspingMode ≠ E.Scissor)
    (hat : (s.joints j).angle = targetPose E s j) :
    GetCurrentPositionRounded E s j = (s.handleCommand.rPRA : Int) ∧
      GetCurrentPosition E s j = s.handleCommand.rPRA := by
  have hne : (s.joints j).upperLimit - (s.joints j).lowerLimit ≠ 0 := by
    intro h
    linarith
  have hround : GetCurrentPositionRounded E s j = (s.handleCommand.rPRA : Int) := by
    rw [← cround_natCast]
    unfold GetCurrentPositionRounded
    simp only [hat, targetPose_finger E s j hj]
    congr 1
    by_cases hp : s.graspingMode = E.Pinch
    · simp only [hp, if_true]
      field_simp
      ring
    · have hs : s.graspingMode ≠ E.Scissor := by
        rcases hmode with h | h
        · exact absurd h hp
        · exact h
      simp only [hp, hs, if_false]
      field_simp
      ring
  refine ⟨hround, ?_⟩
  unfold GetCurrentPosition
  rw [hround]
  omega

/-- C14 at `pinchAtTarget`, finger joint 2: the joint sits at the Pinch target for 100 and is
measured at 100. -/
theorem C14_finger_round_trip_witness :
    ((pinchAtTarget.joints 2).lowerLimit < (pinchAtTarget.joints 2).upperLimit) ∧
      pinchAtTarget.handleCommand.rPRA ≤ 255 ∧
      pinchAtTarget.graspingMode = exampleExternals.Pinch ∧
      (pinchAtTarget.joints 2).angle = targetPose exampleExternals pinchAtTarget 2 ∧
      GetCurrentPosition exampleExternals pinchAtTarget 2 = 100 :=
  have h1 : (pinchAtTarget.joints 2).lowerLimit < (pinchAtTarget.joints 2).upperLimit := by
    norm_num [pinchAtTarget]
  have h2 : (pinchAtTarget.joints 2).angle = targetPose exampleExternals pinchAtTarget 2 := by
    norm_num [pinchAtTarget, targetPose, exampleExternals]
  ⟨h1, by decide, rfl, h2,
    (C14_finger_round_trip exampleExternals pinchAtTarget 2 ⟨by decide, by decide⟩ h1
      (by decide) (Or.inl rfl) h2).2⟩

/-- C15 (counterexample): in Scissor mode with position 255 requested, joint 1 (travel
`[0, 1]`) sits exactly at its target pose `lower + (upper - lower) * (215/255) * 255/255`,
and `GetCurrentPosition` measures it at 215, not at 255: the measurement divides by the full
range, no `215/255` sub-range is applied. The report carries that value as `gPOS`. -/
theorem C15_scissor_round_trip_fails :
    scissorAtTarget.graspingMode = exampleExternals.Scissor ∧
      scissorAtTarget.handleCommand.rPRA = 255 ∧
      targetPose exampleExternals scissorAtTarget 1 =
        (scissorAtTarget.joints 1).lowerLimit +
          ((scissorAtTarget.joints 1).upperLimit - (scissorAtTarget.joints 1).lowerLimit)
            * (215 / 255) * 255 / 255 ∧
      (scissorAtTarget.joints 1).angle = targetPose exampleExternals scissorAtTarget 1 ∧
      GetCurrentPosition exampleExternals scissorAtTarget 1 = 215 ∧
      (GetAndPublishHandleState exampleExternals scissorAtTarget).handleState.gPOS = 215 ∧
      GetCurrentPosition exampleExternals scissorAtTarget 1 ≠
        scissorAtTarget.handleCommand.rPRA := by
  have hx : GetCurrentPositionRounded exampleExternals scissorAtTarget 1 = 215 := by
    have h : (255 : ℚ) * (215 / 255 - 0) / (1 - 0) = ((215 : Nat) : ℚ) := by norm_num
    simp only [GetCurrentPositionRounded, scissorAtTarget, exampleExternals]
    rw [if_neg (by decide), h, cround_natCast]
    rfl
  have hp : GetCurrentPosition exampleExternals scissorAtTarget 1 = 215 := by
    unfold GetCurrentPosition
    rw [hx]
    rfl
  refine ⟨rfl, rfl, ?_, ?_, hp, hp, ?_⟩
  · norm_num [targetPose, scissorAtTarget, exampleExternals]
  · norm_num [targetPose, scissorAtTarget, exampleExternals]
  · rw [hp]
    decide

/-- C15 (amended): in Scissor mode (the enumerators Wide and Pinch being other values than
Scissor), for a scissor joint 1 with lower limit below upper limit and `rPRA` in `[0,255]`,
the target pose is `lower + (upper - lower) * (215/255) * rPRA/255`, and a joint exactly at
it is measured over the full range: `GetCurrentPosition` returns `round(215 * rPRA / 255)`,
which is at most 215 and equals `rPRA` exactly when `rPRA ≤ 3`; the report carries it as
`gPOS`. -/
theorem C15_scissor_measured_position (E : Externals P) (s : Plugin P)
    (hmode : s.graspingMode = E.Scissor) (hw : E.Wide ≠ E.Scissor) (hp : E.Pinch ≠ E.Scissor)
    (hlim : (s.joints 1).lowerLimit < (s.joints 1).upperLimit)
    (hr : s.handleCommand.rPRA ≤ 255)
    (hat : (s.joints 1).angle = targetPose E s 1) :
    targetPose E s 1 =
        (s.joints 1).lowerLimit +
          ((s.joints 1).upperLimit - (s.joints 1).lowerLimit) * (215 / 255)
            * s.handleCommand.rPRA / 255 ∧
      GetCurrentPositionRounded E s 1 = cround (215 * (s.handleCommand.rPRA : ℚ) / 255) ∧
      GetCurrentPosition E s 1 = (cround (215 * (s.handleCommand.rPRA : ℚ) / 255)).toNat ∧
      GetCurrentPosition E s 1 ≤ 215 ∧
      (GetCurrentPosition E s 1 = s.handleCommand.rPRA ↔ s.handleCommand.rPRA ≤ 3) ∧
      (GetAndPublishHandleState E s).handleState.gPOS = GetCurrentPosition E s 1 := by
  have hw' : ¬ E.Scissor = E.Wide := fun h => hw h.symm
  have hp' : ¬ E.Scissor = E.Pinch := fun h => hp h.symm
  have hne : (s.joints 1).upperLimit - (s.joints 1).lowerLimit ≠ 0 := by
    intro h
    linarith
  have htar : targetPose E s 1 =
      (s.joints 1).lowerLimit +
        ((s.joints 1).upperLimit - (s.joints 1).lowerLimit) * (215 / 255)
          * s.handleCommand.rPRA / 255 := by
    simp [targetPose, hmode, hw', hp']
  have hround : GetCurrentPositionRounded E s 1 =
      cround (215 * (s.handleCommand.rPRA : ℚ) / 255) := by
    unfold GetCurrentPositionRounded
    simp only [hat, htar, hmode, hp', if_false]
    congr 1
    field_simp
    ring
  obtain ⟨h0, h215, hiff⟩ := cround_scissor s.handleCommand.rPRA hr
  have hpos : GetCurrentPosition E s 1 =
      (cround (215 * (s.handleCommand.rPRA : ℚ) / 255)).toNat := by
    unfold GetCurrentPosition
    rw [hround]
    omega
  refine ⟨htar, hround, hpos, ?_, ?_, rfl⟩
  · rw [hpos]
    omega
  · rw [hpos, ← hiff]
    omega

/-- C15 (amended) at `scissorAtSmallTarget`: position 2 requested, joint 1 at its Scissor
target for 2, measured at 2. -/
theorem C15_scissor_measured_position_witness :
    scissorAtSmallTarget.graspingMode = exampleExternals.Scissor ∧
      exampleExternals.Wide ≠ exampleExternals.Scissor ∧
      exampleExternals.Pinch ≠ exampleExternals.Scissor ∧
      (scissorAtSmallTarget.joints 1).lowerLimit < (scissorAtSmallTarget.joints 1).upperLimit ∧
      scissorAtSmallTarget.handleCommand.rPRA ≤ 255 ∧
      (scissorAtSmallTarget.joints 1).angle =
        targetPose exampleExternals scissorAtSmallTarget 1 ∧
      GetCurrentPosition exampleExternals scissorAtSmallTarget 1 = 2 :=
  have h1 : (scissorAtSmallTarget.joints 1).lowerLimit <
      (scissorAtSmallTarget.joints 1).upperLimit := by
    norm_num [scissorAtSmallTarget]
  have h2 : (scissorAtSmallTarget.joints 1).angle =
      targetPose exampleExternals scissorAtSmallTarget 1 := by
    norm_num [scissorAtSmallTarget, targetPose, exampleExternals]
  ⟨rfl, by decide, by decide, h1, by decide, h2,
    (C15_scissor_measured_position exampleExternals scissorAtSmallTarget rfl (by decide)
      (by decide) h1 (by decide) h2).2.2.2.2.1.2 (by decide)⟩

/-- C16 (evaluation at the failing input): the hand is closed in mode 0, every joint at its
upper limit (so within its limits), and the accepted command asks for Pinch. On the next
tick the grasping mode becomes Pinch at once (state ChangeModeInProgress), and the report
of that same tick measures finger A over the `177/255` sub-range: the rounded value is
`round(255 * 1 / (177/255)) = 367`, outside `[0,255]`, and the `uint8_t` reported as `gPOA`
is its low eight bits, 111. -/
theorem C16_pinch_measurement_leaves_uint8_range :
    ((closedHandPinchRequested.joints 2).lowerLimit <
        (closedHandPinchRequested.joints 2).upperLimit ∧
      (closedHandPinchRequested.joints 2).lowerLimit ≤
        (closedHandPinchRequested.joints 2).angle ∧
      (closedHandPinchRequested.joints 2).angle ≤
        (closedHandPinchRequested.joints 2).upperLimit) ∧
      (UpdateStates exampleExternals 6 closedHandPinchRequested).handState =
        State.ChangeModeInProgress ∧
      (UpdateStates exampleExternals 6 closedHandPinchRequested).graspingMode =
        exampleExternals.Pinch ∧
      GetCurrentPositionRounded exampleExternals
        (UpdateStates exampleExternals 6 closedHandPinchRequested) 2 = 367 ∧
      (UpdateStates exampleExternals 6 closedHandPinchRequested).handleState.gPOA = 111 := by
  have ht : (6 : ℚ) > closedHandPinchRequested.lastControllerUpdateTime := by
    norm_num [closedHandPinchRequested]
  have hfam : InSimplifiedFamily closedHandPinchRequested.handleCommand := by decide
  have hopen : IsHandFullyOpen exampleExternals closedHandPinchRequested = false := by
    rw [IsHandFullyOpen_eq]
    norm_num [closedHandPinchRequested, exampleExternals]
  obtain ⟨hmode, hstate⟩ := UpdateStates_family exampleExternals 6 _ ht hfam
  have hmode' : (UpdateStates exampleExternals 6 closedHandPinchRequested).graspingMode =
      1 := hmode
  have hround : GetCurrentPositionRounded exampleExternals
      (UpdateStates exampleExternals 6 closedHandPinchRequested) 2 = 367 := by
    rw [(GetCurrentPosition_congr exampleExternals
      { closedHandPinchRequested with graspingMode := 1 } _ 2
      (UpdateStates_jointReading exampleExternals 6 closedHandPinchRequested 2) hmode').1]
    have hx : (255 : ℚ) * (1 - 0) / ((1 - 0) * (177 / 255)) = 65025 / 177 := by norm_num
    have hnn : (0 : ℚ) ≤ 65025 / 177 := by norm_num
    simp only [GetCurrentPositionRounded, closedHandPinchRequested, exampleExternals,
      if_true, hx, cround, hnn]
    rw [Int.floor_eq_iff]
    norm_num
  refine ⟨⟨?_, ?_, ?_⟩, ?_, hmode, hround, ?_⟩
  · norm_num [closedHandPinchRequested]
  · norm_num [closedHandPinchRequested]
  · norm_num [closedHandPinchRequested]
  · rw [hstate, hopen]
    decide
  · rw [(UpdateStates_measured exampleExternals 6 _ ht).1]
    unfold GetCurrentPosition
    rw [hround]
    rfl

/-- C17: finger pose targets, over exact arithmetic. For a finger joint 2..4 with lower limit
at most the upper limit and `rPRA` in `[0,255]`, the target pose of `UpdatePIDControl` is
`lower + (upper - lower) * (177/255) * rPRA/255` in Pinch mode and
`lower + (upper - lower) * rPRA/255` in every mode other than Pinch and Scissor. In both
cases it lies in `[lower, upper]`, does not decrease when `rPRA` grows, is `lower` at
`rPRA = 0`, and outside Pinch is `upper` at `rPRA = 255`. -/
theorem C17_finger_pose_targets (E : Externals P) (s : Plugin P) (j : Nat)
    (hj : 2 ≤ j ∧ j ≤ 4)
    (hlim : (s.joints j).lowerLimit ≤ (s.joints j).upperLimit)
    (hr : s.handleCommand.rPRA ≤ 255)
    (hmode : s.graspingMode = E.Pinch ∨ s.graspingMode ≠ E.Scissor) :
    (s.graspingMode = E.Pinch →
      targetPose E s j =
        (s.joints j).lowerLimit +
          ((s.joints j).upperLimit - (s.joints j).lowerLimit) * (177 / 255)
            * s.handleCommand.rPRA / 255) ∧
    (s.graspingMode ≠ E.Pinch →
      targetPose E s j =
        (s.joints j).lowerLimit +
          ((s.joints j).upperLimit - (s.joints j).lowerLimit) * s.handleCommand.rPRA / 255) ∧
    ((s.joints j).lowerLimit ≤ targetPose E s j ∧ targetPose E s j ≤ (s.joints j).upperLimit) ∧
    (∀ r : Nat, s.handleCommand.rPRA ≤ r →
      targetPose E s j ≤
        targetPose E { s with handleCommand := { s.handleCommand with rPRA := r } } j) ∧
    (s.handleCommand.rPRA = 0 → targetPose E s j = (s.joints j).lowerLimit) ∧
    (s.handleCommand.rPRA = 255 → s.graspingMode ≠ E.Pinch →
      targetPose E s j = (s.joints j).upperLimit) := by
  have hd : (0 : ℚ) ≤ (s.joints j).upperLimit - (s.joints j).lowerLimit := by linarith
  have h0 : (0 : ℚ) ≤ (s.handleCommand.rPRA : ℚ) := Nat.cast_nonneg _
  have h255 : (s.handleCommand.rPRA : ℚ) ≤ 255 := by exact_mod_cast hr
  have hprod : (0 : ℚ) ≤
      ((s.joints j).upperLimit - (s.joints j).lowerLimit) * s.handleCommand.rPRA :=
    mul_nonneg hd h0
  have hprod' : ((s.joints j).upperLimit - (s.joints j).lowerLimit) * s.handleCommand.rPRA ≤
      ((s.joints j).upperLimit - (s.joints j).lowerLimit) * 255 :=
    mul_le_mul_of_nonneg_left h255 hd
  have hmono : ∀ r : Nat, s.handleCommand.rPRA ≤ r →
      ((s.joints j).upperLimit - (s.joints j).lowerLimit) * s.handleCommand.rPRA ≤
        ((s.joints j).upperLimit - (s.joints j).lowerLimit) * (r : ℚ) := by
    intro r hle
    exact mul_le_mul_of_nonneg_left (by exact_mod_cast hle) hd
  rw [targetPose_finger E s j hj]
  by_cases hp : s.graspingMode = E.Pinch
  · simp only [hp, if_true, not_true_eq_false, false_implies, true_implies, ne_eq,
      implies_true, true_and, and_true]
    refine ⟨⟨?_, ?_⟩, ?_, ?_⟩
    · linarith
    · linarith
    · intro r hle
      rw [targetPose_finger E _ j hj]
      have := hmono r hle
      simp only [hp, if_true]
      linarith
    · intro hz
      simp [hz]
  · have hs : s.graspingMode ≠ E.Scissor := by
      rcases hmode with h | h
      · exact absurd h hp
      · exact h
    simp only [hp, hs, if_false, false_implies, true_implies, ne_eq, not_false_eq_true,
      true_and]
    refine ⟨⟨?_, ?_⟩, ?_, ?_, ?_⟩
    · linarith
    · linarith
    · intro r hle
      rw [targetPose_finger E _ j hj]
      have := hmono r hle
      simp only [hp, hs, if_false]
      linarith
    · intro hz
      simp [hz]
    · intro hz
      simp [hz]

/-- C17 at `pinchAtTarget`, finger joint 2 (Pinch mode, `rPRA = 100`, travel `[0, 1]`): the
target is `(177/255) * 100/255`, inside the travel, and raising the request to 200 does not
lower it. -/
theorem C17_finger_pose_targets_witness :
    ((pinchAtTarget.joints 2).lowerLimit ≤ (pinchAtTarget.joints 2).upperLimit) ∧
      pinchAtTarget.handleCommand.rPRA ≤ 255 ∧
      pinchAtTarget.graspingMode = exampleExternals.Pinch ∧
      targetPose exampleExternals pinchAtTarget 2 =
        (pinchAtTarget.joints 2).lowerLimit +
          ((pinchAtTarget.joints 2).upperLimit - (pinchAtTarget.joints 2).lowerLimit)
            * (177 / 255) * pinchAtTarget.handleCommand.rPRA / 255 ∧
      ((pinchAtTarget.joints 2).lowerLimit ≤ targetPose exampleExternals pinchAtTarget 2 ∧
        targetPose exampleExternals pinchAtTarget 2 ≤ (pinchAtTarget.joints 2).upperLimit) ∧
      targetPose exampleExternals pinchAtTarget 2 ≤
        targetPose exampleExternals
          { pinchAtTarget with
              handleCommand := { pinchAtTarget.handleCommand with rPRA := 200 } } 2 :=
  have h1 : (pinchAtTarget.joints 2).lowerLimit ≤ (pinchAtTarget.joints 2).upperLimit := by
    norm_num [pinchAtTarget]
  have h := C17_finger_pose_targets exampleExternals pinchAtTarget 2 ⟨by decide, by decide⟩
    h1 (by decide) (Or.inl rfl)
  ⟨h1, by decide, rfl, h.1 rfl, h.2.2.1, h.2.2.2.1 200 (by decide)⟩

/-! ## The control loop during Scissor mode and mode changes (C18 - C19) -/

/-- C18 (evaluation at the failing input): two ticks from plugins in Scissor mode that are
identical except for the requested speed `rSPA` (0 and 255), with `MinVelocity` below
`MaxVelocity`. On the finger joints 2..4 the speed set-points `targetSpeed` computed in the
two ticks differ (`22/125` and `22/25`), yet both ticks pass the same error to the PID (the
joint angle `1/2` minus the target pose 0) and set the same force: `targetSpeed` is
computed and never read. In general the position error does not depend on `rSPA`. -/
theorem C18_scissor_speed_request_is_not_used :
    exampleExternals.MinVelocity < exampleExternals.MaxVelocity ∧
      scissorSlow.graspingMode = exampleExternals.Scissor ∧
      scissorFast.graspingMode = exampleExternals.Scissor ∧
      scissorSlow.handleCommand.rSPA = 0 ∧ scissorFast.handleCommand.rSPA = 255 ∧
      (∀ i, 2 ≤ i → i ≤ 4 →
        targetSpeed exampleExternals (UpdateStates exampleExternals 1 scissorSlow) i =
            22 / 125 ∧
          targetSpeed exampleExternals (UpdateStates exampleExternals 1 scissorFast) i =
            22 / 25 ∧
          (UpdateStates exampleExternals 1 scissorSlow).posePID i = 1 / 2 ∧
          (UpdateStates exampleExternals 1 scissorFast).posePID i = 1 / 2 ∧
          ((UpdateStates exampleExternals 1 scissorSlow).joints i).force = -(1 / 2) ∧
          ((UpdateStates exampleExternals 1 scissorFast).joints i).force = -(1 / 2)) ∧
      (∀ (E : Externals P) (s : Plugin P) (x i : Nat),
        poseError E { s with handleCommand := { s.handleCommand with rSPA := x } } i =
          poseError E s i) := by
  refine ⟨by norm_num [exampleExternals], rfl, rfl, rfl, rfl, ?_, poseError_rSPA⟩
  intro i h2 h4
  have hs := scissorTick_facts 0 i h2 h4
  have hf := scissorTick_facts 255 i h2 h4
  refine ⟨?_, ?_, hs.2.1, hf.2.1, hs.2.2, hf.2.2⟩
  · refine hs.1.trans ?_
    norm_num
  · refine hf.1.trans ?_
    norm_num

/-- C19 (counterexample): the partly closed hand is in mode 0 when the command asking for
mode 1 (Pinch in the example numbering) is accepted. The tick at time 1 enters
ChangeModeInProgress with the hand not fully open, and already on this tick the target pose
of joint 0 is the Pinch value `-1919/10000`, not the value 0 that the mode active before
the request gives; the PID of joint 0 receives the error `1/2 + 1919/10000`. -/
theorem C19_new_mode_mapping_used_on_entry :
    modeChangeRequested.graspingMode = 0 ∧
      modeChangeRequested.handleCommand.rMOD = exampleExternals.Pinch ∧
      IsHandFullyOpen exampleExternals modeChangeRequested = false ∧
      (UpdateStates exampleExternals 1 modeChangeRequested).handState =
        State.ChangeModeInProgress ∧
      targetPose exampleExternals (UpdateStates exampleExternals 1 modeChangeRequested) 0 =
        -(1919 / 10000) ∧
      targetPose exampleExternals
        { UpdateStates exampleExternals 1 modeChangeRequested with graspingMode := 0 } 0 = 0 ∧
      (UpdateStates exampleExternals 1 modeChangeRequested).posePID 0 =
        1 / 2 + 1919 / 10000 := by
  have ht : (1 : ℚ) > modeChangeRequested.lastControllerUpdateTime := by decide
  obtain ⟨hst, hmode, -⟩ := UpdateStates_mode_change_pending exampleExternals 1
    modeChangeRequested ht (by decide) (Or.inl (by decide)) modeChangeRequested_not_open
  have hmode' : (UpdateStates exampleExternals 1 modeChangeRequested).graspingMode = 1 :=
    hmode
  have htar : targetPose exampleExternals
      (UpdateStates exampleExternals 1 modeChangeRequested) 0 = -(1919 / 10000) := by
    simp only [targetPose, hmode', if_true]
    simp [exampleExternals]
  have hctl := UpdateStates_control exampleExternals 1 modeChangeRequested ht
    (by rw [hst]; decide) 0 (by decide)
  refine ⟨by decide, by decide, modeChangeRequested_not_open, hst, htar, ?_, ?_⟩
  · simp [targetPose, exampleExternals]
  · rw [hctl.1, htar]
    norm_num [exampleExternals, modeChangeRequested, SetHandleCommand, VerifyCommand_eq,
      halfClosedHand, Plugin.init, halfClosedJoints]

/-- C19 (amended): on every tick of the simplified family that enters or remains in
ChangeModeInProgress with the hand not fully open, the grasping mode is already the
requested one (the command's `rMOD`), the effective `rPRA` is the forced release 0, and for
every actuated joint the target pose computed on that tick is the one of the requested mode
at `rPRA = 0`: it is what the PID of the joint is updated with and what yields the force. -/
theorem C19_mode_change_uses_requested_mode (E : Externals P) (curTime : ℚ) (s : Plugin P)
    (ht : curTime > s.lastControllerUpdateTime) (hfam : InSimplifiedFamily s.handleCommand)
    (hcm : s.handleCommand.rMOD ≠ s.graspingMode ∨ s.handState = State.ChangeModeInProgress)
    (hopen : IsHandFullyOpen E s = false) :
    (UpdateStates E curTime s).handState = State.ChangeModeInProgress ∧
      (UpdateStates E curTime s).graspingMode = s.handleCommand.rMOD ∧
      (UpdateStates E curTime s).handleCommand.rPRA = 0 ∧
      (∀ i, i < NumJoints →
        targetPose E (UpdateStates E curTime s) i =
            targetPose E
              { s with
                  graspingMode := s.handleCommand.rMOD
                  handleCommand := { s.handleCommand with rPRA := 0 } } i ∧
          (UpdateStates E curTime s).posePID i =
            (E.Update (s.posePID i)
              ((s.joints i).angle -
                targetPose E
                  { s with
                      graspingMode := s.handleCommand.rMOD
                      handleCommand := { s.handleCommand with rPRA := 0 } } i)
              (curTime - s.lastControllerUpdateTime)).1 ∧
          ((UpdateStates E curTime s).joints i).force =
            (E.Update (s.posePID i)
              ((s.joints i).angle -
                targetPose E
                  { s with
                      graspingMode := s.handleCommand.rMOD
                      handleCommand := { s.handleCommand with rPRA := 0 } } i)
              (curTime - s.lastControllerUpdateTime)).2) := by
  obtain ⟨hst, hmode, hcmd⟩ := UpdateStates_mode_change_pending E curTime s ht hfam hcm hopen
  have hr : (UpdateStates E curTime s).handleCommand.rPRA = 0 := by rw [hcmd]
  refine ⟨hst, hmode, hr, ?_⟩
  intro i hi
  have htar : targetPose E (UpdateStates E curTime s) i =
      targetPose E
        { s with
            graspingMode := s.handleCommand.rMOD
            handleCommand := { s.handleCommand with rPRA := 0 } } i := by
    apply targetPose_congr
    · exact UpdateStates_jointReading E curTime s i
    · exact hmode
    · exact hr
  have hctl := UpdateStates_control E curTime s ht (by rw [hst]; decide) i hi
  rw [htar] at hctl
  exact ⟨htar, hctl.1, hctl.2⟩

/-- C19 (amended) at `modeChangeOngoing` (mode 1 requested and active, the hand partly
closed), tick at time 2. -/
theorem C19_mode_change_uses_requested_mode_witness :
    ((2 : ℚ) > modeChangeOngoing.lastControllerUpdateTime) ∧
      InSimplifiedFamily modeChangeOngoing.handleCommand ∧
      modeChangeOngoing.handState = State.ChangeModeInProgress ∧
      IsHandFullyOpen exampleExternals modeChangeOngoing = false ∧
      (UpdateStates exampleExternals 2 modeChangeOngoing).handState =
        State.ChangeModeInProgress ∧
      (UpdateStates exampleExternals 2 modeChangeOngoing).graspingMode = 1 ∧
      (UpdateStates exampleExternals 2 modeChangeOngoing).handleCommand.rPRA = 0 ∧
      targetPose exampleExternals (UpdateStates exampleExternals 2 modeChangeOngoing) 0 =
        targetPose exampleExternals
          { modeChangeOngoing with
              graspingMode := modeChangeOngoing.handleCommand.rMOD
              handleCommand := { modeChangeOngoing.handleCommand with rPRA := 0 } } 0 :=
  have ho : IsHandFullyOpen exampleExternals modeChangeOngoing = false := by
    rw [IsHandFullyOpen_eq]
    norm_num [modeChangeOngoing, halfClosedJoints, exampleExternals]
  have h := C19_mode_change_uses_requested_mode exampleExternals 2 modeChangeOngoing
    (by decide) (by decide) (Or.inr (by decide)) ho
  ⟨by decide, by decide, by decide, ho, h.1, h.2.1, h.2.2.1, (h.2.2.2 0 (by decide)).1⟩

/-! ## Mode switches along a run (C20) -/

/-- C20 (counterexample): from the constructor state (Disabled, mode 0) over a hand held at
mid travel, the run `bypassRun` requests mode 1 (the tick at time 1 adopts it and enters
ChangeModeInProgress), deactivates the gripper (the tick at time 2 ends in Disabled, the
adopted mode is kept), and requests mode 1 again: the tick at time 3 ends in Simplified in
the adopted mode 1, and on no tick of the run was the hand fully open. -/
theorem C20_mode_change_bypassed_by_deactivation :
    halfClosedHand.handState = State.Disabled ∧
      halfClosedHand.graspingMode = exampleExternals.Basic ∧
      (SetHandleCommand modeOneCommand halfClosedHand).handleCommand.rMOD ≠
        (SetHandleCommand modeOneCommand halfClosedHand).graspingMode ∧
      run exampleExternals halfClosedHand (bypassRun.take 2) = bypassAdopted ∧
      bypassAdopted.graspingMode = 1 ∧
      bypassAdopted.handState = State.ChangeModeInProgress ∧
      run exampleExternals halfClosedHand (bypassRun.take 4) = bypassDisabled ∧
      bypassDisabled.handState = State.Disabled ∧
      (run exampleExternals halfClosedHand bypassRun).handState = State.Simplified ∧
      (run exampleExternals halfClosedHand bypassRun).graspingMode = 1 ∧
      ¬ openOnSomeTick exampleExternals halfClosedHand bypassRun :=
  ⟨rfl, rfl, by decide, rfl, bypassAdopted_facts.2.1, bypassAdopted_facts.1, rfl,
    bypassDisabled_facts.1, bypassRun_end.1, bypassRun_end.2, bypassRun_never_open⟩

/-- C20 (amended): from any plugin state (so from any state reached from the constructor),
let a tick on which the clock advances adopt a new mode (its command is of the simplified
family and its `rMOD` differs from the active mode), and let events follow such that every
executed tick, up to the end of the run, finds a command of the simplified family. The
first tick sets the grasping mode to the requested one, and if the run ends in state
Simplified, then on the adopting tick or on a later executed tick of the run
`IsHandFullyOpen` was true. -/
theorem C20_mode_switch_passes_open_hand (E : Externals P) (s : Plugin P)
    (curTime : ℚ) (angle velocity : Nat → ℚ) (rest : List Event)
    (ht : curTime > s.lastControllerUpdateTime)
    (hadopt : s.handleCommand.rMOD ≠ s.graspingMode)
    (hfam : ticksInSimplifiedFamily E s (Event.tick curTime angle velocity :: rest))
    (hfinal : (run E s (Event.tick curTime angle velocity :: rest)).handState =
      State.Simplified) :
    (step E s (Event.tick curTime angle velocity)).graspingMode = s.handleCommand.rMOD ∧
      openOnSomeTick E s (Event.tick curTime angle velocity :: rest) := by
  obtain ⟨hf, hrest⟩ := hfam
  obtain ⟨hmode, hstate⟩ := UpdateStates_family E curTime (sense s angle velocity) ht (hf ht)
  refine ⟨hmode, ?_⟩
  by_contra hno
  have hno1 : ¬ (curTime > s.lastControllerUpdateTime ∧
      IsHandFullyOpen E (sense s angle velocity) = true) := fun h => hno (Or.inl h)
  have hno2 : ¬ openOnSomeTick E (UpdateStates E curTime (sense s angle velocity)) rest :=
    fun h => hno (Or.inr h)
  have ho : IsHandFullyOpen E (sense s angle velocity) = false := by
    cases h : IsHandFullyOpen E (sense s angle velocity)
    · rfl
    · exact absurd ⟨ht, h⟩ hno1
  have hcm : (UpdateStates E curTime (sense s angle velocity)).handState =
      State.ChangeModeInProgress := by
    rw [hstate, if_pos ⟨Or.inl hadopt, ho⟩]
  have hend := run_stays_in_mode_change E rest _ hcm hrest hno2
  have hrun : run E s (Event.tick curTime angle velocity :: rest) =
      run E (UpdateStates E curTime (sense s angle velocity)) rest := rfl
  rw [hrun, hend] at hfinal
  exact State.noConfusion hfinal

/-- C20 (amended) at `modeChangeRequested` (mode 1 requested in mode 0) and `completingRun`:
the tick at time 1 adopts mode 1 over the hand at mid travel, the tick at time 2 finds the
hand open and ends in Simplified; the hand was fully open on a tick of the run. -/
theorem C20_mode_switch_passes_open_hand_witness :
    ((1 : ℚ) > modeChangeRequested.lastControllerUpdateTime) ∧
      modeChangeRequested.handleCommand.rMOD ≠ modeChangeRequested.graspingMode ∧
      ticksInSimplifiedFamily exampleExternals modeChangeRequested completingRun ∧
      (run exampleExternals modeChangeRequested completingRun).handState =
        State.Simplified ∧
      (step exampleExternals modeChangeRequested
        (Event.tick 1 heldAngles restVelocities)).graspingMode = 1 ∧
      openOnSomeTick exampleExternals modeChangeRequested completingRun :=
  have h := C20_mode_switch_passes_open_hand exampleExternals modeChangeRequested 1
    heldAngles restVelocities [Event.tick 2 openAngles restVelocities] (by decide)
    (by decide) completingRun_facts.1 completingRun_facts.2
  ⟨by decide, by decide, completingRun_facts.1, completingRun_facts.2, h.1, h.2⟩

/-! ## The hand state along a run (C21) -/

/-- C21: the hand state is always one of the six enumerated states, and the "Unrecognized
state" `default` branch of the `switch` of step 2 is never taken. Here `handState` is the
integer an enum object holds and the `switch` has its `default` outcome (`switchCase` gives
`none`). (1) Whatever the members `s` and whatever integer `hs` the member `handState` holds
when step 1 starts, step 1 ends with the value of one of Disabled, Emergency, ICS, ICF,
ChangeModeInProgress, Simplified in it, and the `switch` selects one of its six cases.
(2) Along every sequence of command submissions and ticks from the constructor, which sets
Disabled, the integer in `handState` is the value of one of the six enumerators, the
`default` branch has been taken zero times, also after one more tick, and the other members
are those of the run of the embedding. (3) When the six enumerators have different values,
the integer is the value of the state of the embedding along the run, and on a further tick
the `switch` selects exactly the case of the state that `StateTransitions` computes. -/
theorem C21_default_branch_is_unreachable (V : StateValues) (E : Externals P)
    (s : Plugin P) (hs : Int) (pid : Nat → P) (joints : Nat → Joint) (simTime : ℚ)
    (evs : List Event) (curTime : ℚ) (angle velocity : Nat → ℚ) :
    (StateTransitionsValue V E s hs ∈ V.enumerators ∧
        switchCase V (StateTransitionsValue V E s hs) ≠ none) ∧
      ((Traced.init V E pid joints simTime).handStateValue = V.Disabled ∧
        (runTraced V E (Traced.init V E pid joints simTime) evs).handStateValue ∈
          V.enumerators ∧
        (runTraced V E (Traced.init V E pid joints simTime) evs).unrecognized = 0 ∧
        (stepTraced V E (runTraced V E (Traced.init V E pid joints simTime) evs)
          (Event.tick curTime angle velocity)).unrecognized = 0 ∧
        (runTraced V E (Traced.init V E pid joints simTime) evs).plugin =
          run E (Plugin.init E pid joints simTime) evs) ∧
      (V.Distinct →
        (runTraced V E (Traced.init V E pid joints simTime) evs).handStateValue =
            V.value (run E (Plugin.init E pid joints simTime) evs).handState ∧
          switchCase V
              (StateTransitionsValue V E
                { sense (run E (Plugin.init E pid joints simTime) evs) angle velocity with
                    userHandleCommand :=
                      (run E (Plugin.init E pid joints simTime) evs).handleCommand }
                (runTraced V E (Traced.init V E pid joints simTime) evs).handStateValue) =
            some (StateTransitions E
              { sense (run E (Plugin.init E pid joints simTime) evs) angle velocity with
                  userHandleCommand :=
                    (run E (Plugin.init E pid joints simTime) evs).handleCommand }).handState) := by
  have hinit : (Traced.init V E pid joints simTime).handStateValue ∈ V.enumerators := by
    simp [Traced.init, StateValues.enumerators]
  have hrun := runTraced_mem V E evs (Traced.init V E pid joints simTime) hinit rfl
  have hplug : (runTraced V E (Traced.init V E pid joints simTime) evs).plugin =
      run E (Plugin.init E pid joints simTime) evs :=
    runTraced_plugin V E evs (Traced.init V E pid joints simTime)
  refine ⟨⟨StateTransitionsValue_mem V E s hs,
      switchCase_of_mem V _ (StateTransitionsValue_mem V E s hs)⟩,
    ⟨rfl, hrun.1, hrun.2,
      (stepTraced_mem V E _ (Event.tick curTime angle velocity) hrun.1 hrun.2).2, hplug⟩, ?_⟩
  intro hV
  have hval := runTraced_value V hV E evs (Traced.init V E pid joints simTime) rfl
  rw [hplug] at hval
  refine ⟨hval, ?_⟩
  rw [hval]
  have href := StateTransitionsValue_value V hV E
    { sense (run E (Plugin.init E pid joints simTime) evs) angle velocity with
        userHandleCommand := (run E (Plugin.init E pid joints simTime) evs).handleCommand }
  have href2 : StateTransitionsValue V E
      { sense (run E (Plugin.init E pid joints simTime) evs) angle velocity with
          userHandleCommand := (run E (Plugin.init E pid joints simTime) evs).handleCommand }
      (V.value (run E (Plugin.init E pid joints simTime) evs).handState) =
      V.value (StateTransitions E
        { sense (run E (Plugin.init E pid joints simTime) evs) angle velocity with
            userHandleCommand :=
              (run E (Plugin.init E pid joints simTime) evs).handleCommand }).handState :=
    href
  rw [href2]
  exact switchCase_value V hV _

/-- C21 at concrete values: enumerators 0 to 5; step 1 started on the integer 7, which is
no enumerator, over a plugin that has accepted `closeCommand`, ends on the value of
Simplified; the run from the constructor
in which mode 1 is requested and one tick passes over a hand at mid travel; a further tick
at time 2 over the open hand. -/
theorem C21_default_branch_is_unreachable_witness :
    exampleStateValues.Distinct ∧
      (StateTransitionsValue exampleStateValues exampleExternals closeRequested 7 ∈
          exampleStateValues.enumerators ∧
        switchCase exampleStateValues
          (StateTransitionsValue exampleStateValues exampleExternals closeRequested 7) ≠
            none) ∧
      StateTransitionsValue exampleStateValues exampleExternals closeRequested 7 =
        exampleStateValues.Simplified ∧
      (runTraced exampleStateValues exampleExternals
          (Traced.init exampleStateValues exampleExternals (fun _ => 0) halfClosedJoints 0)
          [Event.submit modeOneCommand,
            Event.tick 1 heldAngles restVelocities]).unrecognized = 0 ∧
      (runTraced exampleStateValues exampleExternals
          (Traced.init exampleStateValues exampleExternals (fun _ => 0) halfClosedJoints 0)
          [Event.submit modeOneCommand,
            Event.tick 1 heldAngles restVelocities]).handStateValue =
        exampleStateValues.value
          (run exampleExternals (Plugin.init exampleExternals (fun _ => 0) halfClosedJoints 0)
            [Event.submit modeOneCommand,
              Event.tick 1 heldAngles restVelocities]).handState ∧
      switchCase exampleStateValues
          (StateTransitionsValue exampleStateValues exampleExternals
            { sense (run exampleExternals
                  (Plugin.init exampleExternals (fun _ => 0) halfClosedJoints 0)
                  [Event.submit modeOneCommand, Event.tick 1 heldAngles restVelocities])
                openAngles restVelocities with
                userHandleCommand :=
                  (run exampleExternals
                    (Plugin.init exampleExternals (fun _ => 0) halfClosedJoints 0)
                    [Event.submit modeOneCommand,
                      Event.tick 1 heldAngles restVelocities]).handleCommand }
            (runTraced exampleStateValues exampleExternals
              (Traced.init exampleStateValues exampleExternals (fun _ => 0)
                halfClosedJoints 0)
              [Event.submit modeOneCommand,
                Event.tick 1 heldAngles restVelocities]).handStateValue) =
        some (StateTransitions exampleExternals
          { sense (run exampleExternals
                (Plugin.init exampleExternals (fun _ => 0) halfClosedJoints 0)
                [Event.submit modeOneCommand, Event.tick 1 heldAngles restVelocities])
              openAngles restVelocities with
              userHandleCommand :=
                (run exampleExternals
                  (Plugin.init exampleExternals (fun _ => 0) halfClosedJoints 0)
                  [Event.submit modeOneCommand,
                    Event.tick 1 heldAngles restVelocities]).handleCommand }).handState :=
  have hd : exampleStateValues.Distinct := by
    simp [StateValues.Distinct, StateValues.enumerators, exampleStateValues]
  have h := C21_default_branch_is_unreachable exampleStateValues exampleExternals
    closeRequested 7 (fun _ => 0) halfClosedJoints 0
    [Event.submit modeOneCommand, Event.tick 1 heldAngles restVelocities]
    2 openAngles restVelocities
  ⟨hd, h.1, by decide, h.2.1.2.2.1, (h.2.2 hd).1, (h.2.2 hd).2⟩

/-! ## The echo of the accepted command (C22) -/

/-- C22 (evaluation at the failing input): from the constructor, the legal command
`fingersCommand` (positions 10, 20, 30 for fingers A, B, C) is accepted and two ticks run
with no further command. The report of the first tick echoes 10, 20, 30. The first tick
ends in Simplified and leaves the replicated command (10, 10, 10) in `handleCommand`; the
second tick copies that into `userHandleCommand`, so its report echoes `gPRB = 10` and
`gPRC = 10`, not the 20 and 30 of the most recently accepted command. -/
theorem C22_second_tick_echoes_rewritten_command :
    fingersCommand.InLegalRange ∧
      (SetHandleCommand fingersCommand openHand).handleCommand = fingersCommand ∧
      (echoFirstTick.handleState.gPRA = 10 ∧ echoFirstTick.handleState.gPRB = 20 ∧
        echoFirstTick.handleState.gPRC = 30) ∧
      echoFirstTick.handState = State.Simplified ∧
      (echoSecondTick.handleState.gPRA = 10 ∧ echoSecondTick.handleState.gPRB = 10 ∧
        echoSecondTick.handleState.gPRC = 10) ∧
      echoSecondTick.handleState.gPRB ≠ fingersCommand.rPRB ∧
      echoSecondTick.handleState.gPRC ≠ fingersCommand.rPRC := by
  obtain ⟨hacc, hst, hcmd, hecho1, hl⟩ := echoFirstTick_facts
  have ht : (2 : ℚ) > echoFirstTick.lastControllerUpdateTime := by
    rw [hl]
    norm_num
  have hecho2 := UpdateStates_echo exampleExternals 2 echoFirstTick ht
  rw [hcmd] at hecho2
  have hA : echoSecondTick.handleState.gPRA = 10 := hecho2.1
  have hB : echoSecondTick.handleState.gPRB = 10 := hecho2.2.1
  have hC : echoSecondTick.handleState.gPRC = 10 := hecho2.2.2
  refine ⟨by decide, hacc, hecho1, hst, ⟨hA, hB, hC⟩, ?_, ?_⟩
  · rw [hB]
    decide
  · rw [hC]
    decide

/-! ## Consistency of one report, and what the targets read (C23 - C24) -/

/-- C23: within one report of `GetAndPublishHandleState`, for all joint velocities, PID
errors and requested positions, the motion status agrees with the object-detection codes of
the three fingers: `gSTA = 0` exactly when one of `gDTA`, `gDTB`, `gDTC` is 0; `gSTA = 3`
exactly when all three are 3; `gSTA = 2` exactly when each of them is 1 or 2. -/
theorem C23_motion_status_agrees_with_detection (E : Externals P) (s : Plugin P) :
    ((GetAndPublishHandleState E s).handleState.gSTA = 0 ↔
        ((GetAndPublishHandleState E s).handleState.gDTA = 0 ∨
          (GetAndPublishHandleState E s).handleState.gDTB = 0 ∨
          (GetAndPublishHandleState E s).handleState.gDTC = 0)) ∧
      ((GetAndPublishHandleState E s).handleState.gSTA = 3 ↔
        ((GetAndPublishHandleState E s).handleState.gDTA = 3 ∧
          (GetAndPublishHandleState E s).handleState.gDTB = 3 ∧
          (GetAndPublishHandleState E s).handleState.gDTC = 3)) ∧
      ((GetAndPublishHandleState E s).handleState.gSTA = 2 ↔
        (((GetAndPublishHandleState E s).handleState.gDTA = 1 ∨
            (GetAndPublishHandleState E s).handleState.gDTA = 2) ∧
          ((GetAndPublishHandleState E s).handleState.gDTB = 1 ∨
            (GetAndPublishHandleState E s).handleState.gDTB = 2) ∧
          ((GetAndPublishHandleState E s).handleState.gDTC = 1 ∨
            (GetAndPublishHandleState E s).handleState.gDTC = 2))) := by
  obtain ⟨hA0, hA3, hA12⟩ :=
    GetObjectDetection_cases E s 2 s.handleCommand.rPRA s.prevCommand.rPRA
  obtain ⟨hB0, hB3, hB12⟩ :=
    GetObjectDetection_cases E s 3 s.handleCommand.rPRB s.prevCommand.rPRB
  obtain ⟨hC0, hC3, hC12⟩ :=
    GetObjectDetection_cases E s 4 s.handleCommand.rPRC s.prevCommand.rPRC
  obtain ⟨hS0, hS3, hS2⟩ := motionStatus_cases E s
  simp only [GetAndPublishHandleState]
  rw [hA0, hA3, hA12, hB0, hB3, hB12, hC0, hC3, hC12, hS0, hS3, hS2]
  by_cases hv2 : (s.joints 2).velocity > E.VelTolerance <;>
    by_cases hv3 : (s.joints 3).velocity > E.VelTolerance <;>
    by_cases hv4 : (s.joints 4).velocity > E.VelTolerance <;>
    by_cases hp2 : (E.GetErrors (s.posePID 2)).1 < E.PoseTolerance <;>
    by_cases hp3 : (E.GetErrors (s.posePID 3)).1 < E.PoseTolerance <;>
    by_cases hp4 : (E.GetErrors (s.posePID 4)).1 < E.PoseTolerance <;>
    simp [hv2, hv3, hv4, hp2, hp3, hp4]

/-- C24: pose targets read no command field but `rPRA`. For two plugins with the same
grasping mode and the same joint limits whose effective commands agree on `rPRA`, the
target pose of every joint is the same and, where the joint angles agree too, so is the
error passed to the PID; with the same hand state, joints and controllers,
`UpdatePIDControl` leaves the same controllers and the same joints, whatever `rPRB`,
`rPRC`, `rPRS` and the speed and force fields are. In particular the targets of fingers B
and C (joints 3 and 4) do not move when `rPRB` and `rPRC` are changed. -/
theorem C24_targets_read_only_rPRA (E : Externals P) (s s' : Plugin P)
    (hm : s'.graspingMode = s.graspingMode)
    (hlim : ∀ i, (s'.joints i).lowerLimit = (s.joints i).lowerLimit ∧
      (s'.joints i).upperLimit = (s.joints i).upperLimit)
    (hr : s'.handleCommand.rPRA = s.handleCommand.rPRA) :
    (∀ i, targetPose E s' i = targetPose E s i) ∧
      (∀ i, (s'.joints i).angle = (s.joints i).angle → poseError E s' i = poseError E s i) ∧
      (s'.handState = s.handState → s'.joints = s.joints → s'.posePID = s.posePID →
        ∀ dt : ℚ,
          (UpdatePIDControl E dt s').posePID = (UpdatePIDControl E dt s).posePID ∧
            (UpdatePIDControl E dt s').joints = (UpdatePIDControl E dt s).joints) ∧
      (∀ (i b c : Nat), 3 ≤ i → i ≤ 4 →
        targetPose E { s with handleCommand := { s.handleCommand with rPRB := b, rPRC := c } } i =
          targetPose E s i) := by
  have htar : ∀ i, targetPose E s' i = targetPose E s i := by
    intro i
    simp only [targetPose, hm, hr, (hlim i).1, (hlim i).2]
  refine ⟨htar, ?_, ?_, ?_⟩
  · intro i ha
    simp only [poseError, htar i, ha]
  · intro hs hj hp dt
    have hv : controlView s' = controlView s := by
      simp only [controlView, hm, hs, hr, hj, hp]
    have h := UpdatePIDControl_controlView E dt s s' hv
    simp only [controlView, Prod.mk.injEq] at h
    exact ⟨h.2.2.2.2, h.2.2.2.1⟩
  · intro i b c _ _
    simp only [targetPose]

/-- C24 at `fingerControlHand` and `fingerControlHandOther` (state ICF, both with
`rPRA = 100`, different in `rPRB`, `rPRC`, `rPRS`, speeds and forces): the target of
finger B (joint 3) is the same, `100/255` of the travel, and the control loop leaves the
same controllers. -/
theorem C24_targets_read_only_rPRA_witness :
    fingerControlHandOther.graspingMode = fingerControlHand.graspingMode ∧
      fingerControlHandOther.handleCommand.rPRA = fingerControlHand.handleCommand.rPRA ∧
      fingerControlHandOther.handleCommand.rPRB ≠ fingerControlHand.handleCommand.rPRB ∧
      fingerControlHand.handState = State.ICF ∧
      targetPose exampleExternals fingerControlHandOther 3 =
        targetPose exampleExternals fingerControlHand 3 ∧
      targetPose exampleExternals fingerControlHand 3 = 100 / 255 ∧
      (UpdatePIDControl exampleExternals 1 fingerControlHandOther).posePID =
        (UpdatePIDControl exampleExternals 1 fingerControlHand).posePID :=
  have h := C24_targets_read_only_rPRA exampleExternals fingerControlHand
    fingerControlHandOther rfl (fun _ => ⟨rfl, rfl⟩) rfl
  ⟨rfl, rfl, by decide, rfl, h.1 3,
    by norm_num [targetPose, fingerControlHand, halfClosedJoints, exampleExternals],
    (h.2.2.1 rfl rfl rfl 1).1⟩

/-! ## Stability of a completed mode change (C25) -/

/-- C25: on every state reached from the constructor state by a run in which a mode change
has been entered, the mode of `lastHandleCommand` is the grasping mode. And when, after any
run from the constructor state, a tick completes a mode change (the clock advances, the
command is of the simplified family, a mode change is entered on this tick or under way,
the hand is fully open), that tick ends in Simplified, and every further run of ticks with
no command submitted ends in Simplified with the grasping mode unchanged. -/
theorem C25_completed_mode_change_is_stable (E : Externals P) (pid : Nat → P)
    (joints : Nat → Joint) (simTime : ℚ) (evs : List Event)
    (curTime : ℚ) (angle velocity : Nat → ℚ) (more : List Event)
    (ht : curTime > (run E (Plugin.init E pid joints simTime) evs).lastControllerUpdateTime)
    (hfam : InSimplifiedFamily (run E (Plugin.init E pid joints simTime) evs).handleCommand)
    (hcm : (run E (Plugin.init E pid joints simTime) evs).handleCommand.rMOD ≠
        (run E (Plugin.init E pid joints simTime) evs).graspingMode ∨
      (run E (Plugin.init E pid joints simTime) evs).handState = State.ChangeModeInProgress)
    (hopen : IsHandFullyOpen E
      (sense (run E (Plugin.init E pid joints simTime) evs) angle velocity) = true)
    (hmore : onlyTicks more) :
    (∀ evs' : List Event, modeChangeEntered E (Plugin.init E pid joints simTime) evs' →
      (run E (Plugin.init E pid joints simTime) evs').lastHandleCommand.rMOD =
        (run E (Plugin.init E pid joints simTime) evs').graspingMode) ∧
      (step E (run E (Plugin.init E pid joints simTime) evs)
        (Event.tick curTime angle velocity)).handState = State.Simplified ∧
      (run E (step E (run E (Plugin.init E pid joints simTime) evs)
        (Event.tick curTime angle velocity)) more).handState = State.Simplified ∧
      (run E (step E (run E (Plugin.init E pid joints simTime) evs)
        (Event.tick curTime angle velocity)) more).graspingMode =
        (step E (run E (Plugin.init E pid joints simTime) evs)
          (Event.tick curTime angle velocity)).graspingMode := by
  have hinv := run_lastIsTrigger E evs (Plugin.init E pid joints simTime)
    (fun h => State.noConfusion h)
  obtain ⟨hset, -⟩ := UpdateStates_mode_change_complete E curTime
    (sense (run E (Plugin.init E pid joints simTime) evs) angle velocity) ht hfam hcm hopen
    hinv
  have hset' : settledInMode (step E (run E (Plugin.init E pid joints simTime) evs)
      (Event.tick curTime angle velocity)) := hset
  obtain ⟨hend, hmode⟩ := run_settled E more _ hset' hmore
  exact ⟨fun evs' h => run_entered_last_mode E evs' _ (Or.inr h), hset'.1, hend.1, hmode⟩

/-- C25 from the constructor state over a hand held at mid travel: mode 1 is requested and
a tick enters the mode change; the tick at time 2 finds the hand open and completes it; two
more ticks with no new command, the hand closing again, end in Simplified in mode 1. -/
theorem C25_completed_mode_change_is_stable_witness :
    ((2 : ℚ) > (run exampleExternals
        (Plugin.init exampleExternals (fun _ => 0) halfClosedJoints 0)
        [Event.submit modeOneCommand,
          Event.tick 1 heldAngles restVelocities]).lastControllerUpdateTime) ∧
      (run exampleExternals (Plugin.init exampleExternals (fun _ => 0) halfClosedJoints 0)
        [Event.submit modeOneCommand,
          Event.tick 1 heldAngles restVelocities]).handState = State.ChangeModeInProgress ∧
      modeChangeEntered exampleExternals
        (Plugin.init exampleExternals (fun _ => 0) halfClosedJoints 0)
        [Event.submit modeOneCommand, Event.tick 1 heldAngles restVelocities] ∧
      (run exampleExternals (Plugin.init exampleExternals (fun _ => 0) halfClosedJoints 0)
        [Event.submit modeOneCommand,
          Event.tick 1 heldAngles restVelocities]).lastHandleCommand.rMOD = 1 ∧
      (step exampleExternals
        (run exampleExternals (Plugin.init exampleExternals (fun _ => 0) halfClosedJoints 0)
          [Event.submit modeOneCommand, Event.tick 1 heldAngles restVelocities])
        (Event.tick 2 openAngles restVelocities)).handState = State.Simplified ∧
      (run exampleExternals
        (step exampleExternals
          (run exampleExternals (Plugin.init exampleExternals (fun _ => 0) halfClosedJoints 0)
            [Event.submit modeOneCommand, Event.tick 1 heldAngles restVelocities])
          (Event.tick 2 openAngles restVelocities))
        [Event.tick 3 heldAngles restVelocities,
          Event.tick 4 openAngles restVelocities]).handState = State.Simplified ∧
      (run exampleExternals
        (step exampleExternals
          (run exampleExternals (Plugin.init exampleExternals (fun _ => 0) halfClosedJoints 0)
            [Event.submit modeOneCommand, Event.tick 1 heldAngles restVelocities])
          (Event.tick 2 openAngles restVelocities))
        [Event.tick 3 heldAngles restVelocities,
          Event.tick 4 openAngles restVelocities]).graspingMode = 1 :=
  have hrun : run exampleExternals
      (Plugin.init exampleExternals (fun _ => 0) halfClosedJoints 0)
      [Event.submit modeOneCommand, Event.tick 1 heldAngles restVelocities] =
      bypassAdopted := rfl
  have ht : (2 : ℚ) > (run exampleExternals
      (Plugin.init exampleExternals (fun _ => 0) halfClosedJoints 0)
      [Event.submit modeOneCommand,
        Event.tick 1 heldAngles restVelocities]).lastControllerUpdateTime := by
    rw [hrun, bypassAdopted_facts.2.2.1]
    norm_num
  have hst : (run exampleExternals
      (Plugin.init exampleExternals (fun _ => 0) halfClosedJoints 0)
      [Event.submit modeOneCommand,
        Event.tick 1 heldAngles restVelocities]).handState = State.ChangeModeInProgress :=
    bypassAdopted_facts.1
  have hentered : modeChangeEntered exampleExternals
      (Plugin.init exampleExternals (fun _ => 0) halfClosedJoints 0)
      [Event.submit modeOneCommand, Event.tick 1 heldAngles restVelocities] :=
    Or.inl ⟨by decide, by decide, by decide⟩
  have h := C25_completed_mode_change_is_stable exampleExternals (fun _ => 0)
    halfClosedJoints 0 [Event.submit modeOneCommand, Event.tick 1 heldAngles restVelocities]
    2 openAngles restVelocities
    [Event.tick 3 heldAngles restVelocities, Event.tick 4 openAngles restVelocities]
    ht bypassAdopted_family (Or.inr hst)
    (opened_is_open bypassAdopted bypassAdopted_facts.2.2.2) trivial
  have hm2 : (step exampleExternals
      (run exampleExternals (Plugin.init exampleExternals (fun _ => 0) halfClosedJoints 0)
        [Event.submit modeOneCommand, Event.tick 1 heldAngles restVelocities])
      (Event.tick 2 openAngles restVelocities)).graspingMode = 1 := by
    have hl := (UpdateStates_last_mode exampleExternals 2
      (sense bypassAdopted openAngles restVelocities)).2
    have hno : ¬ ((2 : ℚ) >
        (sense bypassAdopted openAngles restVelocities).lastControllerUpdateTime ∧
        InSimplifiedFamily (sense bypassAdopted openAngles restVelocities).handleCommand ∧
        (sense bypassAdopted openAngles restVelocities).handleCommand.rMOD ≠
          (sense bypassAdopted openAngles restVelocities).graspingMode) := by
      rintro ⟨-, -, hne⟩
      apply hne
      have hcmd := (UpdateStates_mode_change_pending exampleExternals 1
        (sense (SetHandleCommand modeOneCommand halfClosedHand) heldAngles restVelocities)
        (by decide) (by decide) (Or.inl (by decide))
        (held_not_open _ (fun _ => rfl)))
      have h3 : bypassAdopted.handleCommand = _ := hcmd.2.2
      show bypassAdopted.handleCommand.rMOD = bypassAdopted.graspingMode
      rw [h3, bypassAdopted_facts.2.1]
      rfl
    exact (hl hno).2.trans bypassAdopted_facts.2.1
  ⟨ht, hst, hentered, (h.1 _ hentered).trans bypassAdopted_facts.2.1, h.2.1, h.2.2.1,
    h.2.2.2.trans hm2⟩

end VigirRobotiqHandPlugin
